import Mathlib

/-!
# mdadm `Manage.c`: a shallow embedding

The functions of `src/Manage.c` that manage the membership and the run/stop
state of an md array, translated into Lean over an explicit model of
everything the file calls but does not define (kernel ioctls, sysfs, the
metadata handlers behind `st->ss`, libc).

* `State` is what the program can observe of its own history: the ordered
  list of the calls it has issued that change something outside the process
  (`Event`) and the current value of `errno`.
* `World` gives the answer of every external call as a function of the
  `State` in which it is issued, so an answer may depend on everything done
  before (a device that stops being busy after some attempts, a slot that is
  free after a removal).  Calls that only read are not logged.
* `Consts` are the macros of headers that are not part of `Manage.c`.
-/

set_option linter.unusedVariables false
set_option maxRecDepth 100000

namespace Manage

/-! ## Constants of headers outside `Manage.c` -/

/-- Macros used by `Manage.c` and defined in `mdadm.h`, `md_p.h`, `errno.h`
and `sys/stat.h`; they are parameters of the model. -/
structure Consts where
  MAX_DISKS : Nat
  MD_DISK_FAULTY : Nat
  MD_DISK_ACTIVE : Nat
  MD_DISK_SYNC : Nat
  MD_DISK_WRITEMOSTLY : Nat
  EBUSY : Int
  ENOMEM : Int
  EROFS : Int
  ENODEV : Int
  ENXIO : Int
  EEXIST : Int
  LEVEL_CONTAINER : Int
  NoMdDev : Int
  S_IFMT : Nat
  S_IFBLK : Nat

/-! ## Data -/

/-- The struct `mdu_array_info_t` (the fields `Manage.c` reads). -/
structure mdu_array_info_t where
  major_version : Int
  minor_version : Int
  level : Int
  size : Int
  nr_disks : Int
  raid_disks : Int
  not_persistent : Int
  layout : Int
  active_disks : Int
deriving DecidableEq, Repr

/-- The struct `mdu_disk_info_t`.  `state` is a set of bits and is kept as a
natural number. -/
structure mdu_disk_info_t where
  number : Int
  major : Int
  minor : Int
  raid_disk : Int
  state : Nat
deriving DecidableEq, Repr

/-- What a successful `GET_DISK_INFO` writes back: every field but `number`,
which is the caller's. -/
structure disk_reply where
  major : Int
  minor : Int
  raid_disk : Int
  state : Nat
deriving DecidableEq, Repr

/-- The struct `mddev_dev`, one entry of the device list; the list itself
(`next`) is a Lean list. `disposition` is the C `char`. -/
structure mddev_dev where
  devname : String
  disposition : Char
  writemostly : Int
  used : Int
deriving DecidableEq, Repr

/-- One device of a `struct mdinfo` read from sysfs (`sra->devs`). -/
structure mdinfo_dev where
  sys_name : String
  major : Int
  minor : Int
deriving DecidableEq, Repr

/-- The struct `mdinfo` (the fields `Manage.c` reads or writes). -/
structure mdinfo where
  level : Int
  major_version : Int
  minor_version : Int
  text_version : String
  sys_name : String
  disk : mdu_disk_info_t
  recovery_start : Int
  devs : List mdinfo_dev
deriving DecidableEq, Repr

/-- The struct `mdstat_ent` (the fields `Manage.c` reads); `metadata_version`
may be a null pointer. -/
structure mdstat_ent where
  dev : String
  metadata_version : Option String
deriving DecidableEq, Repr

/-- The struct `supertype`: `sb` is the loaded superblock image (a pointer in
C, here a handle that only the metadata handlers interpret; `none` is NULL),
`external` is `ss->external`, `update_tail` says whether the pointer is set. -/
structure supertype where
  external : Bool
  max_devs : Int
  sb : Option Nat
  update_tail : Bool
  container_dev : Int
deriving DecidableEq, Repr

/-- The struct `stat` (the fields `Manage.c` reads). -/
structure stat_t where
  st_mode : Nat
  st_rdev : Nat
deriving DecidableEq, Repr

/-- An array identity as `uuid_from_super` fills it: `int uuid[4]`. -/
structure uuid_t where
  u0 : Int
  u1 : Int
  u2 : Int
  u3 : Int
deriving DecidableEq, Repr

/-- The flag combinations `Manage.c` passes to `open` and `dev_open`. -/
inductive OFlags where
  | O_RDONLY
  | O_RDWR
  | O_RDONLY_EXCL
  | O_RDWR_EXCL_DIRECT
deriving DecidableEq, Repr

/-- Which `struct supertype` a metadata call is made on: the array's (`tst`)
or the candidate device's own (`dev_st`, made by `dup_super`). -/
inductive StRole where
  | tst
  | dev_st
deriving DecidableEq, Repr

/-! ## Events and state -/

/-- The calls that act on something outside the process, with their
arguments, and the messages written to stderr. -/
inductive Event where
  | pr_err (msg : String)
  | fprintf_stderr (msg : String)
  | usleep (usec : Nat)
  | close (fd : Int)
  | open_excl (name : String)
  | dev_open (name : String) (flags : OFlags)
  | open_dev_excl (devnum : Int)
  | sysfs_open (devnum : Int) (dname : String) (attr : String)
  | write (fd : Int) (data : String)
  | unlink (path : String)
  | ioctl_STOP_MD (fd : Int)
  | ioctl_RUN_ARRAY (fd : Int)
  | ioctl_STOP_ARRAY (fd : Int)
  | ioctl_BLKRRPART (fd : Int)
  | ioctl_HOT_ADD_DISK (fd : Int) (rdev : Nat)
  | ioctl_ADD_NEW_DISK (fd : Int) (disc : mdu_disk_info_t)
  | ioctl_HOT_REMOVE_DISK (fd : Int) (rdev : Nat)
  | ioctl_SET_DISK_FAULTY (fd : Int) (rdev : Nat)
  | sysfs_set_str (sys_name : String) (dev : Option String) (name : String) (val : String)
  | sysfs_uevent (sys_name : String) (what : String)
  | sysfs_freeze_array (sys_name : String)
  | sysfs_add_disk (sra : mdinfo) (sd : mdinfo) (resume : Int)
  | ping_monitor (name : String)
  | ping_monitor_by_id (devnum : Int)
  | ping_manager (name : String)
  | map_lock
  | map_remove (devnum : Int)
  | map_unlock
  | remove_partitions (fd : Int)
  | load_container (role : StRole) (fd : Int)
  | load_super (role : StRole) (fd : Int)
  | free_super (role : StRole)
  | add_to_super (role : StRole) (disc : mdu_disk_info_t) (dfd : Int) (devname : String)
  | write_init_super (role : StRole)
  | update_super (role : StRole) (update : String)
  | store_super (role : StRole) (fd : Int)
  | sync_metadata (role : StRole)
  | flush_metadata_updates (role : StRole)
deriving DecidableEq, Repr

/-- The history of the run so far and the current `errno`. -/
structure State where
  log : List Event
  errno : Int
deriving DecidableEq, Repr

/-- Record a call that leaves `errno` alone (as `Manage.c` assumes of
`fprintf`, `usleep`, `close` and of the calls whose `errno` it never reads). -/
def State.emit (s : State) (e : Event) : State :=
  { s with log := s.log ++ [e] }

/-- Record a call that sets `errno` to `err`. -/
def State.call (s : State) (e : Event) (err : Int) : State :=
  { log := s.log ++ [e], errno := err }

/-- The macro `pr_err`: a message on stderr. -/
def State.pr_err (s : State) (msg : String) : State :=
  s.emit (Event.pr_err msg)

/-! ## The world outside `Manage.c` -/

/-- Every external function `Manage.c` calls.  A field that takes a `State`
may answer differently as the run goes on; a pair `Int × Int` is the return
value and the value of `errno` after the call. -/
structure World where
  strerror : Int → String
  uninit_int : Int
  major : Nat → Int
  minor : Nat → Int
  makedev : Int → Int → Nat
  is_subarray : String → Bool
  devname2devnum : String → Int
  get_linux_version : Int
  enough : Int → Int → Int → Int → List Nat → Int
  sscanf_dev : String → Option (Int × Int)
  md_get_version : State → Int → Int
  fd2devnum : State → Int → Int
  open_excl : State → String → Int
  open_dev_excl : State → Int → Int
  dev_open : State → String → OFlags → Int × Int
  sysfs_open : State → Int → String → String → Int
  sysfs_fd_get_str : State → Int → Nat → Int × String
  write : State → Int → String → Int × Int
  lstat : State → String → Option stat_t × Int
  fstat : State → Int → Option stat_t × Int
  stat_rc : State → String → Int
  check_env : State → String → Bool
  readlink : State → String → Nat → Int × String
  map_by_devnum : State → Int → Option (Option String)
  map_dev : State → Int → Int → Int → Option String
  devnum2devname : State → Int → Option String
  get_dev_size : State → Int → String → Option Nat
  get_component_size : State → Int → Nat
  conf_get_devs : State → List mddev_dev
  mdstat_read : State → List mdstat_ent
  mdmon_running : State → Int → Bool
  sysfs_read : State → Int → Int → List String → Option mdinfo
  sysfs_set_str : State → String → Option String → String → String → Int × Int
  sysfs_init : State → Int → Int → mdinfo
  sysfs_freeze_array : State → String → Int
  sysfs_add_disk : State → mdinfo → mdinfo → Int → Int
  sysfs_unique_holder : State → Int → Nat → Bool × Int
  super_by_fd : State → Int → Option (supertype × Option String)
  dup_super : supertype → supertype
  ioctl_GET_ARRAY_INFO : State → Int → Option mdu_array_info_t
  ioctl_GET_DISK_INFO : State → Int → Int → Option disk_reply
  ioctl_STOP_MD : State → Int → Int × Int
  ioctl_RUN_ARRAY : State → Int → Int × Int
  ioctl_STOP_ARRAY : State → Int → Int × Int
  ioctl_HOT_ADD_DISK : State → Int → Nat → Int × Int
  ioctl_ADD_NEW_DISK : State → Int → mdu_disk_info_t → Int × Int
  ioctl_HOT_REMOVE_DISK : State → Int → Nat → Int × Int
  ioctl_SET_DISK_FAULTY : State → Int → Nat → Int × Int
  validate_geometry : State → supertype → Int → Int → Int → Nat → Int
  avail_size : supertype → Nat → Nat
  getinfo_super : supertype → mdinfo
  uuid_from_super : supertype → uuid_t
  load_container : State → supertype → Int → Option Nat
  load_super : State → supertype → Int → Int × Option Nat
  add_to_super : State → supertype → mdu_disk_info_t → Int → String → Int × Option Nat
  write_init_super : State → supertype → Int
  update_super : State → supertype → String → Int × Option Nat
  store_super : State → supertype → Int → Int

/-! ## `printf` conversions -/

/-- The character of a decimal digit. -/
def digitChar (d : Nat) : Char := Char.ofNat (48 + d)

/-- Decimal digits of `n`, least significant first; `fuel` bounds the number
of digits and `n + 1` is always enough. -/
def decRev : Nat → Nat → List Char
  | 0, _ => []
  | fuel + 1, n =>
    if n < 10 then [digitChar n] else digitChar (n % 10) :: decRev fuel (n / 10)

/-- The conversion `%d` of an unsigned value. -/
def fmt_u (n : Nat) : List Char := (decRev (n + 1) n).reverse

/-- The conversion `%d`. -/
def fmt_d_chars : Int → List Char
  | Int.ofNat n => fmt_u n
  | Int.negSucc n => '-' :: fmt_u (n + 1)

/-- The conversion `%d` as a string. -/
def fmt_d (i : Int) : String := String.mk (fmt_d_chars i)

/-- The text written by `sprintf(buf, "%d:%d", major, minor)`. -/
def fmt_dev (major minor : Int) : String :=
  String.mk (fmt_d_chars major ++ ':' :: fmt_d_chars minor)

/-- The pointer `s + n` into a string: `s` without its first `n` characters. -/
def str_offset (s : String) (n : Nat) : String := String.mk (s.data.drop n)

/-! ## `remove_devices` (lines 130-174) -/

/-- The name `base` or `path2` for partition `part`: the text is rewritten at
the end pointer (`be`, `pe`) on every round with `part > 0`. -/
def part_name (stem : String) (part : Nat) (withP : Bool) : String :=
  if part = 0 then stem
  else if withP then stem ++ "p" ++ fmt_d part else stem ++ fmt_d part

/-- The test `isdigit(pe[-1])`: is the last character of `path` a digit
(for an empty `path` the C reads before the buffer; the model answers no). -/
def last_isdigit (path : String) : Bool :=
  match path.data.getLast? with
  | some c => c.isDigit
  | none => false

/-- One round of the `for (part ...)` loop of `remove_devices`. -/
def remove_devices_part (w : World) (base path : String) (s : State) (part : Nat) : State :=
  let base_p := part_name base part true
  let path2 := part_name path part (last_isdigit path)
  let r := w.readlink s path2 1024
  if r.1 > 0 ∧ (base_p.length : Int) = r.1 ∧
      r.2.data.take r.1.toNat = base_p.data.take r.1.toNat then
    s.emit (Event.unlink path2)
  else s

/-- The function `remove_devices`. -/
def remove_devices (w : World) (devnum : Int) (path : Option String) (s : State) : State :=
  match path with
  | none => s
  | some path =>
    let base := if devnum ≥ 0 then "/dev/md" ++ fmt_d devnum
                else "/dev/md_d" ++ fmt_d (-1 - devnum)
    (List.range 16).foldl (remove_devices_part w base path) s

/-! ## `Manage_runstop` (lines 176-360) -/

/-- The retry loop of lines 252-260: write "inactive" to `array_state` while
the write fails with EBUSY, at most `count` times, sleeping after each
failure.  Returns the last `err`. -/
def set_inactive_retry (K : Consts) (w : World) (mdi : mdinfo) :
    Nat → Int → State → Int × State
  | 0, err, s => (err, s)
  | count + 1, _, s =>
    let r := w.sysfs_set_str s mdi.sys_name none "array_state" "inactive"
    let s1 := s.call (Event.sysfs_set_str mdi.sys_name none "array_state" "inactive") r.2
    if r.1 < 0 ∧ s1.errno = K.EBUSY then
      set_inactive_retry K w mdi count r.1 (s1.emit (Event.usleep 200000))
    else (r.1, s1)

/-- The retry loop of lines 315-321: issue `STOP_ARRAY` while it fails with
EBUSY, at most `count` times, sleeping 200000 microseconds after each
failure.  Returns the last `err`. -/
def stop_array_retry (K : Consts) (w : World) (fd : Int) :
    Nat → Int → State → Int × State
  | 0, err, s => (err, s)
  | count + 1, err, s =>
    if fd ≥ 0 then
      let r := w.ioctl_STOP_ARRAY s fd
      let s1 := s.call (Event.ioctl_STOP_ARRAY fd) r.2
      if r.1 < 0 ∧ s1.errno = K.EBUSY then
        stop_array_retry K w fd count r.1 (s1.emit (Event.usleep 200000))
      else (r.1, s1)
    else (err, s)

/-- Is `m` a member array of the container `devnum` (the test of lines
297-300)? -/
def is_member_of (w : World) (devnum : Int) (m : mdstat_ent) : Bool :=
  match m.metadata_version with
  | none => false
  | some mv =>
    "external:".data.isPrefixOf mv.data &&
    w.is_subarray (str_offset mv 9) &&
    decide (w.devname2devnum (str_offset mv 10) = devnum)

/-- How the first part of a stop request (lines 214-309) ends: with the
result of `Manage_runstop` decided, or at the `STOP_ARRAY` loop holding the
exclusive descriptor `fd`. -/
inductive StopPrep where
  | done (rv : Int) (s : State)
  | go (fd : Int) (devnum : Int) (mdi : Option mdinfo) (s : State)
deriving DecidableEq, Repr

/-- Lines 223-309 of `Manage_runstop`: exclusive access, then the cases of an
mdmon-managed member array and of a container. -/
def Manage_runstop_prepare (K : Consts) (w : World) (devname : String) (fd verbose : Int)
    (s : State) : StopPrep :=
  let devnum := w.fd2devnum s fd
  let s := s.emit (Event.close fd)
  let fd := w.open_excl s devname
  let s := s.emit (Event.open_excl devname)
  if fd < 0 ∨ w.fd2devnum s fd ≠ devnum then
    let s := if fd ≥ 0 then s.emit (Event.close fd) else s
    let s := if verbose ≥ 0 then
        s.pr_err ("Cannot get exclusive access to " ++ devname ++
          ":Perhaps a running process, mounted filesystem or active volume group?\n")
      else s
    StopPrep.done 1 s
  else
    match w.sysfs_read s fd (-1) ["GET_LEVEL", "GET_VERSION"] with
    | none => StopPrep.go fd devnum none s
    | some mdi =>
      if mdi.level > 0 ∧ w.is_subarray mdi.text_version = true then
        let s := s.emit (Event.close fd)
        let r := set_inactive_retry K w mdi 25 w.uninit_int s
        let s := r.2
        if r.1 ≠ 0 then
          let s := if verbose ≥ 0 then
              s.pr_err ("failed to stop array " ++ devname ++ ": " ++ w.strerror s.errno ++ "\n")
            else s
          StopPrep.done 1 s
        else
          let s := s.emit (Event.ping_monitor mdi.text_version)
          let fd := w.open_dev_excl s devnum
          let s := s.emit (Event.open_dev_excl devnum)
          if fd < 0 then
            let s := if verbose ≥ 0 then
                s.pr_err ("failed to completely stop " ++ devname ++ ": Device is busy\n")
              else s
            StopPrep.done 1 s
          else StopPrep.go fd devnum (some mdi) s
      else if mdi.major_version = -1 ∧ mdi.minor_version = -2 ∧
          w.is_subarray mdi.text_version = false then
        let s := s.emit (Event.ping_monitor mdi.sys_name)
        match (w.mdstat_read s).find? (is_member_of w devnum) with
        | some m =>
          let s := if verbose ≥ 0 then
              s.pr_err ("Cannot stop container " ++ devname ++ ": member " ++ m.dev ++
                " still active\n")
            else s
          StopPrep.done 1 s
        | none => StopPrep.go fd devnum (some mdi) s
      else StopPrep.go fd devnum (some mdi) s

/-- Lines 322-358 of `Manage_runstop`: the outcome of the `STOP_ARRAY` loop
and, after a stop, the cleanup. -/
def Manage_runstop_finish (K : Consts) (w : World) (devname : String) (verbose : Int)
    (fd devnum : Int) (mdi : Option mdinfo) (err : Int) (s : State) : Int × State :=
  if fd ≥ 0 ∧ err ≠ 0 then
    let s := if verbose ≥ 0 then
        let s := s.pr_err ("failed to stop array " ++ devname ++ ": " ++ w.strerror s.errno ++ "\n")
        if s.errno = K.EBUSY then
          s.emit (Event.fprintf_stderr
            "Perhaps a running process, mounted filesystem or active volume group?\n")
        else s
      else s
    (1, s)
  else
    let s := if fd ≥ 0 then s.emit (Event.ioctl_BLKRRPART fd) else s
    let s := match mdi with
      | some m => s.emit (Event.sysfs_uevent m.sys_name "change")
      | none => s
    let s := if devnum ≠ K.NoMdDev ∧
        (w.stat_rc s "/dev/.udev" ≠ 0 ∨ w.check_env s "MDADM_NO_UDEV" = true) then
        match w.map_by_devnum s devnum with
        | some mp => remove_devices w devnum mp s
        | none => remove_devices w devnum none s
      else s
    let s := if verbose ≥ 0 then s.pr_err ("stopped " ++ devname ++ "\n") else s
    let s := s.emit Event.map_lock
    let s := s.emit (Event.map_remove devnum)
    let s := s.emit Event.map_unlock
    (0, s)

/-- The function `Manage_runstop`. -/
def Manage_runstop (K : Consts) (w : World) (devname : String)
    (fd runstop verbose will_retry : Int) (s : State) : Int × State :=
  let verbose := if will_retry ≠ 0 ∧ verbose = 0 then -1 else verbose
  if runstop = -1 ∧ w.md_get_version s fd < 9000 then
    let r := w.ioctl_STOP_MD s fd
    let s := s.call (Event.ioctl_STOP_MD fd) r.2
    if r.1 = 0 then (0, s)
    else (1, s.pr_err ("stopping device " ++ devname ++ " failed: " ++
            w.strerror s.errno ++ "\n"))
  else if w.md_get_version s fd < 9000 then
    (1, s.pr_err "need md driver version 0.90.0 or later\n")
  else if runstop > 0 then
    let r := w.ioctl_RUN_ARRAY s fd
    let s := s.call (Event.ioctl_RUN_ARRAY fd) r.2
    if r.1 ≠ 0 then
      let s := if verbose ≥ 0 then
          s.pr_err ("failed to run array " ++ devname ++ ": " ++ w.strerror s.errno ++ "\n")
        else s
      (1, s)
    else
      let s := if verbose ≥ 0 then s.pr_err ("started " ++ devname ++ "\n") else s
      (0, s)
  else if runstop < 0 then
    match Manage_runstop_prepare K w devname fd verbose s with
    | StopPrep.done rv s => (rv, s)
    | StopPrep.go fd devnum mdi s =>
      let r := stop_array_retry K w fd 25 0 s
      Manage_runstop_finish K w devname verbose fd devnum mdi r.1 r.2
  else (0, s)

/-! ## `add_faulty` and `add_detached` (lines 362-434) -/

/-- The node `add_faulty` and `add_detached` allocate with `xmalloc`: the
name and the disposition are set, the other fields keep what the memory
held. -/
def new_dev (w : World) (major minor : Int) (disp : Char) : mddev_dev :=
  { devname := fmt_dev major minor, disposition := disp,
    writemostly := w.uninit_int, used := w.uninit_int }

/-- The loop of `add_faulty` from slot `i` on, with `fuel = MAX_DISKS - i`
rounds left: the nodes it links in, in list order.  Every new node is linked
behind the one before (`dv = new`), so they end in scan order between the
entry `add_faulty` was called on and that entry's old successor. -/
def add_faulty_scan (w : World) (s : State) (fd : Int) (disp : Char) :
    Nat → Nat → Int → List mddev_dev
  | 0, _, _ => []
  | fuel + 1, i, remaining_disks =>
    if remaining_disks > 0 then
      match w.ioctl_GET_DISK_INFO s fd i with
      | none => add_faulty_scan w s fd disp fuel (i + 1) remaining_disks
      | some disk =>
        if disk.major = 0 ∧ disk.minor = 0 then
          add_faulty_scan w s fd disp fuel (i + 1) remaining_disks
        else if disk.state &&& 1 = 0 then
          add_faulty_scan w s fd disp fuel (i + 1) (remaining_disks - 1)
        else
          new_dev w disk.major disk.minor disp ::
            add_faulty_scan w s fd disp fuel (i + 1) (remaining_disks - 1)
    else []

/-- The function `add_faulty`: `next` is `dv->next` before the call, the
result is `dv->next` after it. -/
def add_faulty (K : Consts) (w : World) (next : List mddev_dev) (fd : Int) (disp : Char)
    (s : State) : List mddev_dev :=
  match w.ioctl_GET_ARRAY_INFO s fd with
  | none => next
  | some array => add_faulty_scan w s fd disp K.MAX_DISKS 0 array.nr_disks ++ next

/-- The loop of `add_detached` from slot `i` on: the nodes it links in, in
list order, and the state after its `dev_open` and `close` calls. -/
def add_detached_scan (K : Consts) (w : World) (fd : Int) (disp : Char) :
    Nat → Nat → Int → State → List mddev_dev × State
  | 0, _, _, s => ([], s)
  | fuel + 1, i, remaining_disks, s =>
    if remaining_disks > 0 then
      match w.ioctl_GET_DISK_INFO s fd i with
      | none => add_detached_scan K w fd disp fuel (i + 1) remaining_disks s
      | some disk =>
        if disk.major = 0 ∧ disk.minor = 0 then
          add_detached_scan K w fd disp fuel (i + 1) remaining_disks s
        else if disp = 'f' ∧ disk.state &&& 1 ≠ 0 then
          add_detached_scan K w fd disp fuel (i + 1) (remaining_disks - 1) s
        else
          let buf := fmt_dev disk.major disk.minor
          let r := w.dev_open s buf OFlags.O_RDONLY
          let s1 := s.call (Event.dev_open buf OFlags.O_RDONLY) r.2
          if r.1 ≥ 0 then
            add_detached_scan K w fd disp fuel (i + 1) (remaining_disks - 1)
              (s1.emit (Event.close r.1))
          else if s1.errno ≠ K.ENXIO then
            add_detached_scan K w fd disp fuel (i + 1) (remaining_disks - 1) s1
          else
            let rest := add_detached_scan K w fd disp fuel (i + 1) (remaining_disks - 1) s1
            (new_dev w disk.major disk.minor disp :: rest.1, rest.2)
    else ([], s)

/-- The function `add_detached`. -/
def add_detached (K : Consts) (w : World) (next : List mddev_dev) (fd : Int) (disp : Char)
    (s : State) : List mddev_dev × State :=
  match w.ioctl_GET_ARRAY_INFO s fd with
  | none => (next, s)
  | some array =>
    let r := add_detached_scan K w fd disp K.MAX_DISKS 0 array.nr_disks s
    (r.1 ++ next, r.2)

/-! ## `attempt_re_add` (lines 436-530) -/

/-- The statement `disc.state |= 1 << bit`. -/
def set_bit (state bit : Nat) : Nat := state ||| (1 <<< bit)

/-- The statement `disc.state &= ~(1 << bit)`. -/
def clear_bit (state bit : Nat) : Nat := state ^^^ (state &&& (1 <<< bit))

/-- One `rv = dev_st->ss->update_super(dev_st, NULL, what, ...)` when `cond`
holds: the new `rv`, the handle with the image the call left, the state. -/
def update_super_if (w : World) (cond : Bool) (what : String)
    (x : Int × supertype × State) : Int × supertype × State :=
  if cond then
    let r := w.update_super x.2.2 x.2.1 what
    (r.1, { x.2.1 with sb := r.2 }, x.2.2.emit (Event.update_super StRole.dev_st what))
  else x

/-- The function `attempt_re_add`: 1 re-added, 0 not possible (try a plain
add), -1 failed. -/
def attempt_re_add (K : Consts) (w : World) (fd tfd : Int) (dv : mddev_dev)
    (dev_st tst : supertype) (rdev : Nat) (update : Option String) (devname : String)
    (verbose : Int) (array : mdu_array_info_t) (s : State) : Int × State :=
  let mdi := w.getinfo_super dev_st
  let ouuid := w.uuid_from_super dev_st
  let duuid := if tst.sb.isSome then w.uuid_from_super tst else ouuid
  if mdi.disk.state &&& (1 <<< K.MD_DISK_ACTIVE) ≠ 0 ∧
      mdi.disk.state &&& (1 <<< K.MD_DISK_FAULTY) = 0 ∧ duuid = ouuid then
    if array.major_version = 1 ∧ w.get_linux_version ≤ 2006018 then (0, s)
    else
      match w.ioctl_GET_DISK_INFO s fd mdi.disk.number with
      | none => (0, s)
      | some d =>
        if d.major ≠ 0 ∨ d.minor ≠ 0 then (0, s)
        else
          let state := mdi.disk.state
          let state := if dv.writemostly = 1 then set_bit state K.MD_DISK_WRITEMOSTLY else state
          let state := if dv.writemostly = 2 then clear_bit state K.MD_DISK_WRITEMOSTLY else state
          let disc : mdu_disk_info_t :=
            { number := mdi.disk.number, major := w.major rdev, minor := w.minor rdev,
              raid_disk := mdi.disk.raid_disk, state := state }
          let s := s.emit (Event.remove_partitions tfd)
          let upd : Int × State :=
            if update.isSome ∨ dv.writemostly > 0 then
              let r := w.dev_open s dv.devname OFlags.O_RDWR
              let s := s.call (Event.dev_open dv.devname OFlags.O_RDWR) r.2
              if r.1 < 0 then
                (-1, s.pr_err ("failed to open " ++ dv.devname ++
                  " for superblock update during re-add\n"))
              else
                let x : Int × supertype × State := (-1, dev_st, s)
                let x := update_super_if w (dv.writemostly = 1) "writemostly" x
                let x := update_super_if w (dv.writemostly = 2) "readwrite" x
                let x := match update with
                  | some u => update_super_if w true u x
                  | none => x
                let x : Int × supertype × State :=
                  if x.1 = 0 then
                    (w.store_super x.2.2 x.2.1 r.1, x.2.1,
                      x.2.2.emit (Event.store_super StRole.dev_st r.1))
                  else x
                let s := x.2.2.emit (Event.close r.1)
                if x.1 ≠ 0 then
                  (-1, s.pr_err "failed to update superblock during re-add\n")
                else (0, s)
            else (0, s)
          if upd.1 ≠ 0 then upd
          else
            let s : State := { upd.2 with errno := 0 }
            let r := w.ioctl_ADD_NEW_DISK s fd disc
            let s := s.call (Event.ioctl_ADD_NEW_DISK fd disc) r.2
            if r.1 = 0 then
              let s := if verbose ≥ 0 then s.pr_err ("re-added " ++ dv.devname ++ "\n") else s
              (1, s)
            else if s.errno = K.ENOMEM ∨ s.errno = K.EROFS then
              let s := s.pr_err ("add new device failed for " ++ dv.devname ++ ": " ++
                w.strerror s.errno ++ "\n")
              if dv.disposition = 'M' then (0, s) else (-1, s)
            else (0, s)
  else (0, s)

/-- Lines 473-481 of `attempt_re_add` on their own: the `disc` that is handed
to `ADD_NEW_DISK`. -/
def re_add_disc (K : Consts) (w : World) (dv : mddev_dev) (dev_st : supertype) (rdev : Nat) :
    mdu_disk_info_t :=
  let mdi := w.getinfo_super dev_st
  let state := mdi.disk.state
  let state := if dv.writemostly = 1 then set_bit state K.MD_DISK_WRITEMOSTLY else state
  let state := if dv.writemostly = 2 then clear_bit state K.MD_DISK_WRITEMOSTLY else state
  { number := mdi.disk.number, major := w.major rdev, minor := w.minor rdev,
    raid_disk := mdi.disk.raid_disk, state := state }

/-- Lines 482-512 of `attempt_re_add` on their own: `remove_partitions` and the
update of the candidate's superblock.  The value 0 goes on to `ADD_NEW_DISK`,
any other is a `return -1`. -/
def re_add_update (w : World) (tfd : Int) (dv : mddev_dev) (dev_st : supertype)
    (update : Option String) (s : State) : Int × State :=
  let s := s.emit (Event.remove_partitions tfd)
  if update.isSome ∨ dv.writemostly > 0 then
    let r := w.dev_open s dv.devname OFlags.O_RDWR
    let s := s.call (Event.dev_open dv.devname OFlags.O_RDWR) r.2
    if r.1 < 0 then
      (-1, s.pr_err ("failed to open " ++ dv.devname ++
        " for superblock update during re-add\n"))
    else
      let x : Int × supertype × State := (-1, dev_st, s)
      let x := update_super_if w (dv.writemostly = 1) "writemostly" x
      let x := update_super_if w (dv.writemostly = 2) "readwrite" x
      let x := match update with
        | some u => update_super_if w true u x
        | none => x
      let x : Int × supertype × State :=
        if x.1 = 0 then
          (w.store_super x.2.2 x.2.1 r.1, x.2.1,
            x.2.2.emit (Event.store_super StRole.dev_st r.1))
        else x
      let s := x.2.2.emit (Event.close r.1)
      if x.1 ≠ 0 then
        (-1, s.pr_err "failed to update superblock during re-add\n")
      else (0, s)
  else (0, s)

/-- Lines 513-527 of `attempt_re_add` on their own: the call of `ADD_NEW_DISK`
and what is made of its result. -/
def re_add_kernel (K : Consts) (w : World) (fd : Int) (dv : mddev_dev) (verbose : Int)
    (disc : mdu_disk_info_t) (s : State) : Int × State :=
  let s : State := { s with errno := 0 }
  let r := w.ioctl_ADD_NEW_DISK s fd disc
  let s := s.call (Event.ioctl_ADD_NEW_DISK fd disc) r.2
  if r.1 = 0 then
    let s := if verbose ≥ 0 then s.pr_err ("re-added " ++ dv.devname ++ "\n") else s
    (1, s)
  else if s.errno = K.ENOMEM ∨ s.errno = K.EROFS then
    let s := s.pr_err ("add new device failed for " ++ dv.devname ++ ": " ++
      w.strerror s.errno ++ "\n")
    if dv.disposition = 'M' then (0, s) else (-1, s)
  else (0, s)

/-! ## `Manage_add` (lines 532-841) -/

/-- The statements `disc.number = j; ioctl(fd, GET_DISK_INFO, &disc)`: did the
call succeed, and `disc` afterwards (a failed call leaves the other fields
as they were). -/
def get_disk_info (w : World) (s : State) (fd : Int) (j : Int) (disc : mdu_disk_info_t) :
    Bool × mdu_disk_info_t :=
  match w.ioctl_GET_DISK_INFO s fd j with
  | none => (false, { disc with number := j })
  | some d => (true, { number := j, major := d.major, minor := d.minor,
                       raid_disk := d.raid_disk, state := d.state })

/-- The loop of lines 594-618 from slot `j` on (`fuel = max_devs - j`): look
for an in-sync member whose superblock loads into `tst`. -/
def load_template_scan (w : World) (fd : Int) :
    Nat → Int → supertype → mdu_disk_info_t → State → supertype × mdu_disk_info_t × State
  | 0, _, tst, disc, s => (tst, disc, s)
  | fuel + 1, j, tst, disc, s =>
    let r := get_disk_info w s fd j disc
    let disc := r.2
    if r.1 = false then load_template_scan w fd fuel (j + 1) tst disc s
    else if disc.major = 0 ∧ disc.minor = 0 then load_template_scan w fd fuel (j + 1) tst disc s
    else if disc.state &&& 4 = 0 then load_template_scan w fd fuel (j + 1) tst disc s
    else
      match w.map_dev s disc.major disc.minor 1 with
      | none => load_template_scan w fd fuel (j + 1) tst disc s
      | some dev =>
        let o := w.dev_open s dev OFlags.O_RDONLY
        let s := s.call (Event.dev_open dev OFlags.O_RDONLY) o.2
        if o.1 < 0 then load_template_scan w fd fuel (j + 1) tst disc s
        else
          let l := w.load_super s tst o.1
          let tst := { tst with sb := l.2 }
          let s := (s.emit (Event.load_super StRole.tst o.1)).emit (Event.close o.1)
          if l.1 ≠ 0 then load_template_scan w fd fuel (j + 1) tst disc s
          else (tst, disc, s)

/-- Lines 590-618 of `Manage_add`: make sure `tst` holds a superblock to copy. -/
def Manage_add_template (w : World) (fd : Int) (tst : supertype) (disc : mdu_disk_info_t)
    (s : State) : supertype × mdu_disk_info_t × State :=
  if tst.sb.isSome then (tst, disc, s)
  else if tst.external then
    ({ tst with sb := w.load_container s tst fd }, disc,
      s.emit (Event.load_container StRole.tst fd))
  else load_template_scan w fd tst.max_devs.toNat 0 tst disc s

/-- The loop of lines 677-687 from slot `d` on (`fuel = MAX_DISKS - d`): the
indices `disc.raid_disk` at which `avail[...] = 1` is executed, in order, and
`disc` afterwards. -/
def avail_scan (K : Consts) (w : World) (s : State) (fd : Int) (active_disks : Int) :
    Nat → Int → Int → mdu_disk_info_t → List Int × mdu_disk_info_t
  | 0, _, _, disc => ([], disc)
  | fuel + 1, d, found, disc =>
    if found < active_disks then
      let r := get_disk_info w s fd d disc
      let disc := r.2
      if r.1 = false then avail_scan K w s fd active_disks fuel (d + 1) found disc
      else if disc.major = 0 ∧ disc.minor = 0 then
        avail_scan K w s fd active_disks fuel (d + 1) found disc
      else if disc.state &&& (1 <<< K.MD_DISK_SYNC) = 0 then
        avail_scan K w s fd active_disks fuel (d + 1) found disc
      else
        let rest := avail_scan K w s fd active_disks fuel (d + 1) (found + 1) disc
        (disc.raid_disk :: rest.1, rest.2)
    else ([], disc)

/-- A table of `n` bytes from `xcalloc(n, 1)` after `table[i] = 1` for every
`i` of `written` (a write outside the table does not show in it). -/
def marked_table (n : Int) (written : List Int) : List Nat :=
  (List.range n.toNat).map (fun k => if (k : Int) ∈ written then 1 else 0)

/-- Lines 640-698 of `Manage_add`: the re-add attempt and the refusals that
follow it.  `some rv` is a `return rv`; `none` goes on to the commit. -/
def Manage_add_readd (K : Consts) (w : World) (fd tfd : Int) (dv : mddev_dev)
    (tst : supertype) (array : mdu_array_info_t) (verbose : Int) (devname : String)
    (update : Option String) (rdev : Nat) (disc : mdu_disk_info_t) (s : State) :
    Option Int × mdu_disk_info_t × State :=
  let pre : Option supertype × State :=
    if array.not_persistent = 0 then
      let d := w.dup_super tst
      let l := w.load_super s d tfd
      (some { d with sb := l.2 }, s.emit (Event.load_super StRole.dev_st tfd))
    else (none, s)
  let re : Int × State :=
    match pre.1 with
    | some dev_st =>
      if dev_st.sb.isSome then
        let r := attempt_re_add K w fd tfd dv dev_st tst rdev update devname verbose array pre.2
        (r.1, r.2.emit (Event.free_super StRole.dev_st))
      else (0, pre.2)
    | none => (0, pre.2)
  let s := re.2
  if re.1 ≠ 0 then (some re.1, disc, s)
  else if dv.disposition = 'M' then
    let s := if verbose > 0 then
        s.pr_err ("--re-add for " ++ dv.devname ++ " to " ++ devname ++ " is not possible\n")
      else s
    (some 0, disc, s)
  else if dv.disposition = 'A' then
    (some (-1), disc,
      s.pr_err ("--re-add for " ++ dv.devname ++ " to " ++ devname ++ " is not possible\n"))
  else
    let chk : Int × mdu_disk_info_t :=
      if array.active_disks < array.raid_disks then
        let a := avail_scan K w s fd array.active_disks K.MAX_DISKS 0 0 disc
        let avail := marked_table array.raid_disks a.1
        (if w.enough array.level array.raid_disks array.layout 1 avail = 0 then 1 else 0, a.2)
      else (0, disc)
    if chk.1 ≠ 0 then
      let s := s.pr_err (devname ++
        " has failed so using --add cannot work and might destroy\n")
      let s := s.pr_err ("data on " ++ dv.devname ++
        ".  You should stop the array and re-assemble it.\n")
      (some (-1), chk.2, s)
    else (none, chk.2, s)

/-- The loop of lines 717-725 from slot `j` on (`fuel = max_devs - j`): the
slot number at which it stops and `disc` afterwards. -/
def find_free_slot (w : World) (s : State) (fd : Int) :
    Nat → Int → mdu_disk_info_t → Int × mdu_disk_info_t
  | 0, j, disc => (j, disc)
  | fuel + 1, j, disc =>
    let r := get_disk_info w s fd j disc
    if r.1 = false then (j, r.2)
    else if r.2.major = 0 ∧ r.2.minor = 0 then (j, r.2)
    else if r.2.state &&& 8 ≠ 0 then (j, r.2)
    else find_free_slot w s fd fuel (j + 1) r.2

/-- The loop of lines 746-760 from slot `j` on (`fuel = max_devs - j`): the
indices `disc2.raid_disk` at which `used[...] = 1` is executed, in order. -/
def used_scan (w : World) (s : State) (fd : Int) (raid_disks : Int) :
    Nat → Int → List Int
  | 0, _ => []
  | fuel + 1, j =>
    match w.ioctl_GET_DISK_INFO s fd j with
    | none => used_scan w s fd raid_disks fuel (j + 1)
    | some disc2 =>
      if disc2.major = 0 ∧ disc2.minor = 0 then used_scan w s fd raid_disks fuel (j + 1)
      else if disc2.state &&& 8 ≠ 0 then used_scan w s fd raid_disks fuel (j + 1)
      else if disc2.raid_disk < 0 then used_scan w s fd raid_disks fuel (j + 1)
      else if disc2.raid_disk > raid_disks then used_scan w s fd raid_disks fuel (j + 1)
      else disc2.raid_disk :: used_scan w s fd raid_disks fuel (j + 1)

/-- The loop of lines 761-766 from `j` on (`fuel = raid_disks - j`): the first
`j` with `used[j]` zero, if there is one below `raid_disks`, and the value of
the variable `j` when the loop ends. -/
def first_unused (used : List Int) : Nat → Int → Option Int × Int
  | 0, j => (none, j)
  | fuel + 1, j => if j ∈ used then first_unused used fuel (j + 1) else (some j, j)

/-- Lines 709-841 of `Manage_add`: choose the slot, write the superblock,
hand the device to the kernel. -/
def Manage_add_commit (K : Consts) (w : World) (fd tfd : Int) (dv : mddev_dev)
    (tst : supertype) (array : mdu_array_info_t) (verbose : Int) (rdev : Nat)
    (disc : mdu_disk_info_t) (s : State) : Int × supertype × State :=
  let s := s.emit (Event.remove_partitions tfd)
  let f := find_free_slot w s fd (tst.max_devs - array.raid_disks).toNat array.raid_disks disc
  let j := f.1
  let disc : mdu_disk_info_t :=
    { number := j, major := w.major rdev, minor := w.minor rdev,
      raid_disk := f.2.raid_disk, state := 0 }
  let p : (supertype × State) ⊕ (Int × mdu_disk_info_t × supertype × State) :=
    if array.not_persistent = 0 then
      let disc := if dv.writemostly = 1 then
          { disc with state := set_bit disc.state K.MD_DISK_WRITEMOSTLY } else disc
      let o := w.dev_open s dv.devname OFlags.O_RDWR_EXCL_DIRECT
      let s := s.call (Event.dev_open dv.devname OFlags.O_RDWR_EXCL_DIRECT) o.2
      let a := w.add_to_super s tst disc o.1 dv.devname
      let s := s.emit (Event.add_to_super StRole.tst disc o.1 dv.devname)
      let tst := { tst with sb := a.2 }
      if a.1 ≠ 0 then Sum.inl (tst, s)
      else
        let wi := w.write_init_super s tst
        let s := s.emit (Event.write_init_super StRole.tst)
        if wi ≠ 0 then Sum.inl (tst, s) else Sum.inr (j, disc, tst, s)
    else if dv.disposition = 'A' then
      let used := used_scan w s fd array.raid_disks tst.max_devs.toNat 0
      let u := first_unused used array.raid_disks.toNat 0
      match u.1 with
      | some k =>
        Sum.inr (u.2,
          { disc with raid_disk := k, state := set_bit disc.state K.MD_DISK_SYNC }, tst, s)
      | none => Sum.inr (u.2, disc, tst, s)
    else Sum.inr (j, disc, tst, s)
  match p with
  | Sum.inl (tst, s) => (-1, tst, s)
  | Sum.inr (j, disc, tst, s) =>
    let disc := if dv.writemostly = 1 then
        { disc with state := set_bit disc.state K.MD_DISK_WRITEMOSTLY } else disc
    if tst.external then
      let devnum := w.fd2devnum s fd
      let container_fd := w.open_dev_excl s devnum
      let s := s.emit (Event.open_dev_excl devnum)
      if container_fd < 0 then
        let s := s.pr_err ("add failed for " ++ dv.devname ++
          ": could not get exclusive access to container\n")
        (-1, { tst with sb := none }, s.emit (Event.free_super StRole.tst))
      else
        let o := w.dev_open s dv.devname OFlags.O_RDWR_EXCL_DIRECT
        let s := s.call (Event.dev_open dv.devname OFlags.O_RDWR_EXCL_DIRECT) o.2
        let tst := if w.mdmon_running s tst.container_dev then
            { tst with update_tail := true } else tst
        let a := w.add_to_super s tst disc o.1 dv.devname
        let s := s.emit (Event.add_to_super StRole.tst disc o.1 dv.devname)
        let tst := { tst with sb := a.2 }
        if a.1 ≠ 0 then
          (-1, tst, (s.emit (Event.close o.1)).emit (Event.close container_fd))
        else
          let s := if tst.update_tail then s.emit (Event.flush_metadata_updates StRole.tst)
                   else s.emit (Event.sync_metadata StRole.tst)
          match w.sysfs_read s container_fd (-1) [] with
          | none =>
            let s := s.pr_err ("add failed for " ++ dv.devname ++ ": sysfs_read failed\n")
            let s := s.emit (Event.close container_fd)
            (-1, { tst with sb := none }, s.emit (Event.free_super StRole.tst))
          | some sra =>
            let sra := { sra with level := K.LEVEL_CONTAINER }
            let new_mdi := w.getinfo_super tst
            let new_mdi := { new_mdi with
              disk := { new_mdi.disk with major := disc.major, minor := disc.minor },
              recovery_start := 0 }
            let tst := { tst with sb := none }
            let s := s.emit (Event.free_super StRole.tst)
            let r := w.sysfs_add_disk s sra new_mdi 0
            let s := s.emit (Event.sysfs_add_disk sra new_mdi 0)
            if r ≠ 0 then
              let s := s.pr_err ("add new device to external metadata failed for " ++
                dv.devname ++ "\n")
              (-1, tst, s.emit (Event.close container_fd))
            else
              let s := s.emit (Event.ping_monitor_by_id devnum)
              let s := s.emit (Event.close container_fd)
              let s := if verbose ≥ 0 then s.pr_err ("added " ++ dv.devname ++ "\n") else s
              (1, tst, s)
    else
      let tst := { tst with sb := none }
      let s := s.emit (Event.free_super StRole.tst)
      let r := w.ioctl_ADD_NEW_DISK s fd disc
      let s := s.call (Event.ioctl_ADD_NEW_DISK fd disc) r.2
      if r.1 ≠ 0 then
        (-1, tst, s.pr_err ("add new device failed for " ++ dv.devname ++ " as " ++
          fmt_d j ++ ": " ++ w.strerror s.errno ++ "\n"))
      else
        let s := if verbose ≥ 0 then s.pr_err ("added " ++ dv.devname ++ "\n") else s
        (1, tst, s)

/-- The contents of the local `disc` of `Manage_add` before anything is
stored in it. -/
def uninit_disc (w : World) : mdu_disk_info_t :=
  { number := w.uninit_int, major := w.uninit_int, minor := w.uninit_int,
    raid_disk := w.uninit_int, state := w.uninit_int.toNat }

/-- Lines 640-841 of `Manage_add`, what follows the size check of lines
630-638: the re-add attempt, the refusals, the commit. -/
def Manage_add_proceed (K : Consts) (w : World) (fd tfd : Int) (dv : mddev_dev)
    (tst : supertype) (array : mdu_array_info_t) (verbose : Int) (devname : String)
    (update : Option String) (rdev : Nat) (disc : mdu_disk_info_t) (s : State) :
    Int × supertype × State :=
  let r := Manage_add_readd K w fd tfd dv tst array verbose devname update rdev disc s
  match r.1 with
  | some rv => (rv, tst, r.2.2)
  | none => Manage_add_commit K w fd tfd dv tst array verbose rdev r.2.1 r.2.2

/-- Lines 589-841, the branch of `Manage_add` for an array with persistent or
external metadata: the template superblock, the size check, the rest. -/
def Manage_add_persistent (K : Consts) (w : World) (fd tfd : Int) (dv : mddev_dev)
    (tst : supertype) (array : mdu_array_info_t) (verbose : Int) (devname : String)
    (update : Option String) (rdev : Nat) (array_size : Nat) (ldsize : Nat) (s : State) :
    Int × supertype × State :=
  let t := Manage_add_template w fd tst (uninit_disc w) s
  let tst := t.1
  let disc := t.2.1
  let s := t.2.2
  let checked : Int × supertype × State :=
    if w.avail_size tst (ldsize / 512) < array_size then
      if dv.disposition = 'M' then (0, tst, s)
      else (-1, tst, s.pr_err (dv.devname ++ " not large enough to join array\n"))
    else Manage_add_proceed K w fd tfd dv tst array verbose devname update rdev disc s
  if tst.sb.isNone ∧ dv.disposition ≠ 'a' then checked
  else if tst.sb.isNone then
    (-1, tst, s.pr_err ("cannot load array metadata from " ++ devname ++ "\n"))
  else checked

/-- Lines 567-841 of `Manage_add`, what follows the geometry check: the
direct hot-add of lines 567-580, or the branch for persistent or external
metadata, or the one for an array without metadata. -/
def Manage_add_strategy (K : Consts) (w : World) (fd tfd : Int) (dv : mddev_dev)
    (tst : supertype) (array : mdu_array_info_t) (verbose : Int) (devname : String)
    (update : Option String) (rdev : Nat) (array_size : Nat) (ldsize : Nat) (s : State) :
    Int × supertype × State :=
  if tst.external = false ∧ array.major_version = 0 ∧
      Int.tmod (w.md_get_version s fd) 100 < 2 then
    let r := w.ioctl_HOT_ADD_DISK s fd rdev
    let s := s.call (Event.ioctl_HOT_ADD_DISK fd rdev) r.2
    if r.1 = 0 then
      let s := if verbose ≥ 0 then s.pr_err ("hot added " ++ dv.devname ++ "\n") else s
      (1, tst, s)
    else
      (-1, tst, s.pr_err ("hot add failed for " ++ dv.devname ++ ": " ++
        w.strerror s.errno ++ "\n"))
  else if array.not_persistent = 0 ∨ tst.external = true then
    Manage_add_persistent K w fd tfd dv tst array verbose devname update rdev
      array_size ldsize s
  else if ldsize / 512 < array_size then
    (-1, tst, s.pr_err (dv.devname ++ " not large enough to join array\n"))
  else
    Manage_add_commit K w fd tfd dv tst array verbose rdev (uninit_disc w) s

/-- The warning of lines 561-565. -/
def geometry_warning (dv : mddev_dev) (devname : String) : String :=
  dv.devname ++ " is larger than " ++ devname ++
    " can effectively use.\n       Adding anyway as --force was given.\n"

/-- The function `Manage_add`: 1 added, 0 skipped, -1 failed; with the array's
`struct supertype` as the call leaves it. -/
def Manage_add (K : Consts) (w : World) (fd tfd : Int) (dv : mddev_dev) (tst : supertype)
    (array : mdu_array_info_t) (force verbose : Int) (devname : String)
    (update : Option String) (rdev : Nat) (array_size : Nat) (s : State) :
    Int × supertype × State :=
  match w.get_dev_size s tfd dv.devname with
  | none => if dv.disposition = 'M' then (0, tst, s) else (-1, tst, s)
  | some ldsize =>
    let geom := w.validate_geometry s tst array.level array.layout array.raid_disks
      (ldsize >>> 9)
    if geom = 0 ∧ force = 0 then
      (-1, tst, s.pr_err (dv.devname ++ " is larger than " ++ devname ++
        " can effectively use.\n       Add --force is you really want to add this device.\n"))
    else
      let s := if geom = 0 then s.pr_err (geometry_warning dv devname) else s
      Manage_add_strategy K w fd tfd dv tst array verbose devname update rdev
        array_size ldsize s

/-- Lines 646-660 of `Manage_add` on their own: the candidate's own superblock
is loaded and, when there is one, the re-add is attempted.  The value is `rv`
(0 when no attempt is made). -/
def Manage_add_try_re_add (K : Consts) (w : World) (fd tfd : Int) (dv : mddev_dev)
    (tst : supertype) (array : mdu_array_info_t) (verbose : Int) (devname : String)
    (update : Option String) (rdev : Nat) (s : State) : Int × State :=
  let pre : Option supertype × State :=
    if array.not_persistent = 0 then
      let d := w.dup_super tst
      let l := w.load_super s d tfd
      (some { d with sb := l.2 }, s.emit (Event.load_super StRole.dev_st tfd))
    else (none, s)
  match pre.1 with
  | some dev_st =>
    if dev_st.sb.isSome then
      let r := attempt_re_add K w fd tfd dv dev_st tst rdev update devname verbose array pre.2
      (r.1, r.2.emit (Event.free_super StRole.dev_st))
    else (0, pre.2)
  | none => (0, pre.2)

/-! ## `Manage_remove` (lines 843-946) -/

/-- The function `Manage_remove`: 1 removed, -1 failed. -/
def Manage_remove (K : Consts) (w : World) (tst : supertype) (fd : Int) (dv : mddev_dev)
    (sysfd : Int) (rdev : Nat) (verbose : Int) (devname : String) (s : State) :
    Int × State :=
  let held : (Int × State) ⊕ (Int × State) :=
    if tst.external then
      let dnum := w.fd2devnum s fd
      let lfd := w.open_dev_excl s dnum
      let s := s.emit (Event.open_dev_excl dnum)
      if lfd < 0 then
        Sum.inl (-1, s.pr_err "Cannot get exclusive access  to container - odd\n")
      else if dv.devname = "detached" ∨ sysfd ≥ 0 then Sum.inr (lfd, s)
      else
        let u := w.sysfs_unique_holder s dnum rdev
        let s : State := { s with errno := u.2 }
        if u.1 then Sum.inr (lfd, s)
        else
          let s := s.pr_err (dv.devname ++ " is " ++
            (if s.errno = K.EEXIST then "still in use" else "not a member") ++
            ", cannot remove.\n")
          Sum.inl (-1, s.emit (Event.close lfd))
    else Sum.inr (-1, s)
  match held with
  | Sum.inl r => r
  | Sum.inr (lfd, s) =>
    let e : Int × State :=
      if sysfd ≥ 0 then
        let n := w.write s sysfd "remove"
        let s := s.call (Event.write sysfd "remove") n.2
        (if n.1 ≠ 6 then -1 else 0, s)
      else
        let r := w.ioctl_HOT_REMOVE_DISK s fd rdev
        let s := s.call (Event.ioctl_HOT_REMOVE_DISK fd rdev) r.2
        if r.1 ≠ 0 ∧ s.errno = K.ENODEV then
          match w.sysfs_read s fd 0 ["GET_DEVS"] with
          | none => (-1, s)
          | some sra =>
            match sra.devs.find? (fun d => decide (d.major = w.major rdev ∧
                d.minor = w.minor rdev)) with
            | some d =>
              let x := w.sysfs_set_str s sra.sys_name (some d.sys_name) "state" "remove"
              (x.1, s.call (Event.sysfs_set_str sra.sys_name (some d.sys_name) "state"
                "remove") x.2)
            | none => (-1, s)
        else (r.1, s)
    let s := e.2
    if e.1 ≠ 0 then
      let s := s.pr_err ("hot remove failed for " ++ dv.devname ++ ": " ++
        w.strerror s.errno ++ "\n")
      let s := if lfd ≥ 0 then s.emit (Event.close lfd) else s
      (-1, s)
    else
      let named : Option State :=
        if tst.external then
          match w.devnum2devname s (w.fd2devnum s fd) with
          | none => none
          | some name => some (s.emit (Event.ping_manager name))
        else some s
      match named with
      | none => (-1, s.pr_err "unable to get container name\n")
      | some s =>
        let s := if lfd ≥ 0 then s.emit (Event.close lfd) else s
        let s := if verbose ≥ 0 then
            s.pr_err ("hot removed " ++ dv.devname ++ " from " ++ devname ++ "\n")
          else s
        (1, s)

/-! ## `Manage_subdevs` (lines 948-1215) -/

/-- The variables of `Manage_subdevs` that live across the rounds of its
loop. -/
structure LoopVars where
  tst : supertype
  stb : stat_t
  tfd : Int
  sysfd : Int
  count : Int
  frozen : Int
deriving DecidableEq, Repr

/-- What does not change during a call of `Manage_subdevs`: its arguments and
what it reads before the loop. -/
structure LoopEnv where
  devname : String
  fd : Int
  verbose : Int
  update : Option String
  force : Int
  array : mdu_array_info_t
  array_size : Nat
  subarray : Option String
  info : mdinfo

/-- Would the loop expand this entry: a symbolic name with a disposition that
is accepted for it. -/
def symbolic (dv : mddev_dev) : Bool :=
  ((dv.devname = "failed" ∨ dv.devname = "faulty") ∧ dv.disposition = 'r') ∨
  (dv.devname = "detached" ∧ (dv.disposition = 'r' ∨ dv.disposition = 'f')) ∨
  (dv.devname = "missing" ∧ dv.disposition = 'A')

/-- The outcome of lines 1005-1046 for one entry. -/
inductive Resolved where
  | concrete
  | abort (s : State)
  | skip (s : State)
  | expand (ins : List mddev_dev) (s : State)
deriving DecidableEq, Repr

/-- The list that `conf_get_devs` returned with every disposition set to 'M'
(lines 1040-1042). -/
def mark_missing (pool : List mddev_dev) : List mddev_dev :=
  pool.map (fun d => { d with disposition := 'M' })

/-- Lines 1005-1046: the symbolic names.  `expand ins` links the entries `ins`
between `dv` and its successor `next`, as `add_faulty`, `add_detached` and
lines 1043-1044 do. -/
def resolve_symbolic (K : Consts) (w : World) (fd : Int) (dv : mddev_dev) (s : State) :
    Resolved :=
  if dv.devname = "failed" ∨ dv.devname = "faulty" then
    if dv.disposition ≠ 'r' then
      Resolved.abort (s.pr_err (dv.devname ++ " only meaningful with -r, not -" ++
        String.singleton dv.disposition ++ "\n"))
    else Resolved.expand (add_faulty K w [] fd 'r' s) s
  else if dv.devname = "detached" then
    if dv.disposition ≠ 'r' ∧ dv.disposition ≠ 'f' then
      Resolved.abort (s.pr_err (dv.devname ++ " only meaningful with -r of -f, not -" ++
        String.singleton dv.disposition ++ "\n"))
    else
      let r := add_detached K w [] fd dv.disposition s
      Resolved.expand r.1 r.2
  else if dv.devname = "missing" then
    if dv.disposition ≠ 'A' then
      Resolved.abort (s.pr_err "'missing' only meaningful with --re-add\n")
    else
      match w.conf_get_devs s with
      | [] => Resolved.skip (s.pr_err "no devices to scan for missing members.")
      | d :: pool => Resolved.expand (mark_missing (d :: pool)) s
  else Resolved.concrete

/-- How one round of the loop ends for a concrete entry: `goto abort`, or on
to the next entry. -/
inductive Step where
  | abort (v : LoopVars) (s : State)
  | next (v : LoopVars) (s : State)
deriving DecidableEq, Repr

/-- Lines 1048-1114: find the device number (`stb.st_rdev`) or the sysfs state
file (`sysfd`) of a concrete entry.  `Sum.inl` ends the round. -/
def locate_device (K : Consts) (w : World) (e : LoopEnv) (dv : mddev_dev) (v : LoopVars)
    (s : State) : Step ⊕ (LoopVars × State) :=
  if '/' ∉ dv.devname.data ∧ ':' ∉ dv.devname.data ∧ dv.devname.length < 50 then
    if dv.disposition ≠ 'r' ∧ dv.disposition ≠ 'f' then
      Sum.inl (Step.abort v (s.pr_err (dv.devname ++ " only meaningful with -r or -f, not -" ++
        String.singleton dv.disposition ++ "\n")))
    else
      let dname := "dev-" ++ dv.devname
      let sysfd := w.sysfs_open s (w.fd2devnum s e.fd) dname "block/dev"
      let s := s.emit (Event.sysfs_open (w.fd2devnum s e.fd) dname "block/dev")
      let r : Bool × LoopVars × State :=
        if sysfd ≥ 0 then
          let g := w.sysfs_fd_get_str s sysfd 20
          let f : Bool × stat_t :=
            if g.1 > 0 then
              match w.sscanf_dev g.2 with
              | some (mj, mn) => (true, { v.stb with st_rdev := w.makedev mj mn })
              | none => (false, v.stb)
            else (false, v.stb)
          (f.1, { v with stb := f.2, sysfd := -1 }, s.emit (Event.close sysfd))
        else (false, { v with sysfd := sysfd }, s)
      if r.1 = false then
        let sysfd := w.sysfs_open r.2.2 (w.fd2devnum r.2.2 e.fd) dname "state"
        let s := r.2.2.emit (Event.sysfs_open (w.fd2devnum r.2.2 e.fd) dname "state")
        let v := { r.2.1 with sysfd := sysfd }
        if sysfd < 0 then
          Sum.inl (Step.abort v (s.pr_err (dv.devname ++
            " does not appear to be a component of " ++ e.devname ++ "\n")))
        else Sum.inr (v, s)
      else Sum.inr (r.2.1, r.2.2)
  else
    let o := w.dev_open s dv.devname OFlags.O_RDONLY
    let s := s.call (Event.dev_open dv.devname OFlags.O_RDONLY) o.2
    let v := { v with tfd := o.1 }
    let ls : Option stat_t × State :=
      if o.1 < 0 ∧ dv.disposition = 'r' then
        let l := w.lstat s dv.devname
        (l.1, { s with errno := l.2 })
      else (none, s)
    let r : Step ⊕ (LoopVars × State) :=
      match ls.1 with
      | some st => Sum.inr ({ v with stb := st }, ls.2)
      | none =>
        let s := ls.2
        let fs : Option stat_t × State :=
          if o.1 < 0 then (none, s)
          else
            let f := w.fstat s o.1
            (f.1, { s with errno := f.2 })
        match fs.1 with
        | none =>
          let s := if o.1 ≥ 0 then fs.2.emit (Event.close o.1) else fs.2
          if dv.disposition = 'M' then Sum.inl (Step.next v s)
          else Sum.inl (Step.abort v (s.pr_err ("cannot find " ++ dv.devname ++ ": " ++
            w.strerror s.errno ++ "\n")))
        | some st => Sum.inr ({ v with stb := st, tfd := -1 }, fs.2.emit (Event.close o.1))
    match r with
    | Sum.inl st => Sum.inl st
    | Sum.inr (v, s) =>
      if v.stb.st_mode &&& K.S_IFMT ≠ K.S_IFBLK then
        if dv.disposition = 'M' then Sum.inl (Step.next v s)
        else Sum.inl (Step.abort v (s.pr_err (dv.devname ++ " is not a block device.\n")))
      else Sum.inr (v, s)

/-- Lines 1115-1203: the `switch` on the disposition of a concrete entry. -/
def apply_disposition (K : Consts) (w : World) (e : LoopEnv) (dv : mddev_dev) (v : LoopVars)
    (s : State) : Step :=
  if dv.disposition = 'a' ∨ dv.disposition = 'A' ∨ dv.disposition = 'M' then
    if e.subarray.isSome then
      Step.abort v (s.pr_err ("Cannot add disks to a 'member' array, perform this" ++
        " operation on the parent container\n"))
    else
      let o := w.dev_open s dv.devname OFlags.O_RDONLY_EXCL
      let s := s.call (Event.dev_open dv.devname OFlags.O_RDONLY_EXCL) o.2
      let r : Int × State :=
        if o.1 ≥ 0 then
          let s := s.emit (Event.close o.1)
          let o2 := w.dev_open s dv.devname OFlags.O_RDONLY
          (o2.1, s.call (Event.dev_open dv.devname OFlags.O_RDONLY) o2.2)
        else (o.1, s)
      let tfd := r.1
      let s := r.2
      let v := { v with tfd := tfd }
      if tfd < 0 then
        if dv.disposition = 'M' then Step.next v s
        else Step.abort v (s.pr_err ("Cannot open " ++ dv.devname ++ ": " ++
          w.strerror s.errno ++ "\n"))
      else
        let fz : Int × State :=
          if v.frozen = 0 then
            (if w.sysfs_freeze_array s e.info.sys_name = 1 then 1 else -1,
              s.emit (Event.sysfs_freeze_array e.info.sys_name))
          else (v.frozen, s)
        let v := { v with frozen := fz.1 }
        let a := Manage_add K w e.fd tfd dv v.tst e.array e.force e.verbose e.devname
          e.update v.stb.st_rdev e.array_size fz.2
        let s := a.2.2.emit (Event.close tfd)
        let v := { v with tst := a.2.1, tfd := -1 }
        if a.1 < 0 then Step.abort v s
        else if a.1 > 0 then Step.next { v with count := v.count + 1 } s
        else Step.next v s
  else if dv.disposition = 'r' then
    let r : Int × State :=
      if e.subarray.isSome then
        (-1, s.pr_err ("Cannot remove disks from a 'member' array, perform this" ++
          " operation on the parent container\n"))
      else Manage_remove K w v.tst e.fd dv v.sysfd v.stb.st_rdev e.verbose e.devname s
    let s := if v.sysfd ≥ 0 then r.2.emit (Event.close v.sysfd) else r.2
    let v := { v with sysfd := -1 }
    if r.1 < 0 then Step.abort v s
    else if r.1 > 0 then Step.next { v with count := v.count + 1 } s
    else Step.next v s
  else if dv.disposition = 'f' then
    let r : Int × State :=
      if v.sysfd ≥ 0 then
        let n := w.write s v.sysfd "faulty"
        (if n.1 ≠ 6 then 1 else 0, s.call (Event.write v.sysfd "faulty") n.2)
      else
        let x := w.ioctl_SET_DISK_FAULTY s e.fd v.stb.st_rdev
        (x.1, s.call (Event.ioctl_SET_DISK_FAULTY e.fd v.stb.st_rdev) x.2)
    let s := r.2
    if r.1 ≠ 0 then
      let s := s.pr_err ("set device faulty failed for " ++ dv.devname ++ ":  " ++
        w.strerror s.errno ++ "\n")
      let s := if v.sysfd ≥ 0 then s.emit (Event.close v.sysfd) else s
      Step.abort v s
    else
      let s := if v.sysfd ≥ 0 then s.emit (Event.close v.sysfd) else s
      let v := { v with sysfd := -1, count := v.count + 1 }
      let s := if e.verbose ≥ 0 then
          s.pr_err ("set " ++ dv.devname ++ " faulty in " ++ e.devname ++ "\n")
        else s
      Step.next v s
  else
    Step.abort v (s.pr_err ("internal error - devmode[" ++ dv.devname ++ "]=" ++
      fmt_d dv.disposition.toNat ++ "\n"))

/-- Lines 1048-1203: one round of the loop for a concrete entry. -/
def concrete_step (K : Consts) (w : World) (e : LoopEnv) (dv : mddev_dev) (v : LoopVars)
    (s : State) : Step :=
  match locate_device K w e dv v s with
  | Sum.inl st => st
  | Sum.inr (v, s) => apply_disposition K w e dv v s

/-! ### Why the loop ends

The facts the termination proof of `Manage_subdevs_loop` needs: the entries
an expansion links in are never symbolic themselves. -/

/-- The text of `sprintf(buf, "%d:%d", ...)` holds a colon, so it differs from
every text without one. -/
theorem fmt_dev_ne_of_no_colon (a b : Int) (t : String) (h : ':' ∉ t.data) :
    fmt_dev a b ≠ t := by
  intro heq
  apply h
  rw [← heq]
  simp [fmt_dev]

/-- An entry named by `sprintf(buf, "%d:%d", ...)` is not symbolic. -/
theorem symbolic_new_dev (w : World) (a b : Int) (disp : Char) :
    symbolic (new_dev w a b disp) = false := by
  have h1 := fmt_dev_ne_of_no_colon a b "failed" (by decide)
  have h2 := fmt_dev_ne_of_no_colon a b "faulty" (by decide)
  have h3 := fmt_dev_ne_of_no_colon a b "detached" (by decide)
  have h4 := fmt_dev_ne_of_no_colon a b "missing" (by decide)
  simp [symbolic, new_dev, h1, h2, h3, h4]

/-- No entry that `add_faulty` links in is symbolic. -/
theorem symbolic_add_faulty_scan (w : World) (s : State) (fd : Int) (disp : Char)
    (fuel i : Nat) (rem : Int) :
    ∀ x ∈ add_faulty_scan w s fd disp fuel i rem, symbolic x = false := by
  induction fuel generalizing i rem with
  | zero => simp [add_faulty_scan]
  | succ n ih =>
    intro x hx
    unfold add_faulty_scan at hx
    split at hx
    · split at hx
      · exact ih _ _ x hx
      · split at hx
        · exact ih _ _ x hx
        · split at hx
          · exact ih _ _ x hx
          · rcases List.mem_cons.mp hx with h | h
            · rw [h]; exact symbolic_new_dev _ _ _ _
            · exact ih _ _ x h
    · simp at hx

/-- No entry that `add_detached` links in is symbolic. -/
theorem symbolic_add_detached_scan (K : Consts) (w : World) (fd : Int) (disp : Char)
    (fuel i : Nat) (rem : Int) (s : State) :
    ∀ x ∈ (add_detached_scan K w fd disp fuel i rem s).1, symbolic x = false := by
  induction fuel generalizing i rem s with
  | zero => simp [add_detached_scan]
  | succ n ih =>
    intro x hx
    unfold add_detached_scan at hx
    split at hx
    · split at hx
      · exact ih _ _ _ x hx
      · split at hx
        · exact ih _ _ _ x hx
        · split at hx
          · exact ih _ _ _ x hx
          · simp only at hx
            split at hx
            · exact ih _ _ _ x hx
            · split at hx
              · exact ih _ _ _ x hx
              · rcases List.mem_cons.mp hx with h | h
                · rw [h]; exact symbolic_new_dev _ _ _ _
                · exact ih _ _ _ x h
    · simp at hx

/-- An expansion happens at a symbolic entry and links in none. -/
theorem resolve_symbolic_expand (K : Consts) (w : World) (fd : Int) (dv : mddev_dev)
    (s s1 : State) (ins : List mddev_dev)
    (h : resolve_symbolic K w fd dv s = Resolved.expand ins s1) :
    symbolic dv = true ∧ ∀ x ∈ ins, symbolic x = false := by
  unfold resolve_symbolic at h
  split at h
  · rename_i hn
    split at h
    · simp at h
    · rename_i hd
      simp only [Resolved.expand.injEq] at h
      refine ⟨by simp [symbolic, hn, not_not.mp hd], ?_⟩
      rw [← h.1]
      unfold add_faulty
      split
      · simp
      · simpa using symbolic_add_faulty_scan _ _ _ _ _ _ _
  · split at h
    · rename_i hn
      split at h
      · simp at h
      · rename_i hd
        simp only [Resolved.expand.injEq] at h
        refine ⟨?_, ?_⟩
        · have : dv.disposition = 'r' ∨ dv.disposition = 'f' := by
            by_contra hc
            exact hd ⟨fun h1 => hc (Or.inl h1), fun h2 => hc (Or.inr h2)⟩
          simp [symbolic, hn, this]
        · rw [← h.1]
          unfold add_detached
          split
          · simp
          · simpa using symbolic_add_detached_scan _ _ _ _ _ _ _ _
    · split at h
      · rename_i hn
        split at h
        · simp at h
        · rename_i hd
          split at h
          · simp at h
          · simp only [Resolved.expand.injEq] at h
            refine ⟨by simp [symbolic, hn, not_not.mp hd], ?_⟩
            rw [← h.1]
            intro x hx
            simp only [mark_missing, List.mem_map] at hx
            obtain ⟨y, -, rfl⟩ := hx
            simp [symbolic]
      · simp at h

/-- The result of the loop of `Manage_subdevs`. -/
structure LoopResult where
  aborted : Bool
  devlist : List mddev_dev
  vars : LoopVars
  s : State
deriving DecidableEq, Repr

/-- The loop `for (dv = devlist; dv; dv = dv->next)` of lines 1002-1204, at
the entry that heads `rest`; `before` are the entries already passed.  The
loop ends because an expansion replaces a symbolic entry by entries that are
not symbolic. -/
def Manage_subdevs_loop (K : Consts) (w : World) (e : LoopEnv) :
    List mddev_dev → List mddev_dev → LoopVars → State → LoopResult
  | before, [], v, s => { aborted := false, devlist := before, vars := v, s := s }
  | before, dv :: next, v, s =>
    match h : resolve_symbolic K w e.fd dv s with
    | Resolved.abort s1 =>
      { aborted := true, devlist := before ++ dv :: next, vars := v, s := s1 }
    | Resolved.skip s1 => Manage_subdevs_loop K w e (before ++ [dv]) next v s1
    | Resolved.expand ins s1 => Manage_subdevs_loop K w e (before ++ [dv]) (ins ++ next) v s1
    | Resolved.concrete =>
      match concrete_step K w e dv v s with
      | Step.abort v1 s1 =>
        { aborted := true, devlist := before ++ dv :: next, vars := v1, s := s1 }
      | Step.next v1 s1 => Manage_subdevs_loop K w e (before ++ [dv]) next v1 s1
termination_by before rest => (rest.countP symbolic, rest.length)
decreasing_by
  · simp_wf
    by_cases hs : symbolic dv = true
    · left; simp [List.countP_cons, hs]
    · have hc : List.countP symbolic (dv :: next) = List.countP symbolic next := by
        simp [List.countP_cons, hs]
      rw [hc]
      right; simp
  · simp_wf
    have hx := resolve_symbolic_expand K w e.fd dv s s1 ins h
    left
    have h0 : List.countP symbolic ins = 0 := by
      rw [List.countP_eq_zero]
      intro x hxm
      simp [hx.2 x hxm]
    simp [List.countP_append, List.countP_cons, h0, hx.1]
  · simp_wf
    by_cases hs : symbolic dv = true
    · left; simp [List.countP_cons, hs]
    · have hc : List.countP symbolic (dv :: next) = List.countP symbolic next := by
        simp [List.countP_cons, hs]
      rw [hc]
      right; simp

/-- The conversion of an `int` product to `unsigned long long` in
`array_size = array.size * 2`: the product wraps as a 32-bit `int` and is
then taken modulo 2^64. -/
def int_to_u64 (x : Int) : Nat :=
  (((x + 2147483648) % 4294967296 - 2147483648) % 18446744073709551616).toNat

/-- The result of `Manage_subdevs`: the return value, the device list as the
call leaves it, the final value of `count` and the state. -/
structure SubdevsResult where
  rv : Int
  devlist : List mddev_dev
  count : Int
  s : State
deriving DecidableEq, Repr

/-- The value of `array_size` after lines 990-992. -/
def component_size (w : World) (fd : Int) (array : mdu_array_info_t) (s : State) : Nat :=
  if w.get_component_size s fd = 0 then int_to_u64 (array.size * 2)
  else w.get_component_size s fd

/-- What the loop of `Manage_subdevs` is run with: the arguments and what
lines 979-999 read. -/
def loop_env (w : World) (devname : String) (fd verbose : Int) (update : Option String)
    (force : Int) (array : mdu_array_info_t) (subarray : Option String) (s : State) : LoopEnv :=
  { devname := devname, fd := fd, verbose := verbose, update := update, force := force,
    array := array, array_size := component_size w fd array s, subarray := subarray,
    info := w.sysfs_init s fd 0 }

/-- The variables of `Manage_subdevs` when its loop starts. -/
def loop_vars0 (w : World) (tst : supertype) : LoopVars :=
  { tst := tst, stb := { st_mode := w.uninit_int.toNat, st_rdev := 0 }, tfd := -1, sysfd := -1,
    count := 0, frozen := 0 }

/-- Lines 1205-1214 of `Manage_subdevs`: unfreeze the array if the loop froze
it, and the return value. -/
def Manage_subdevs_end (w : World) (e : LoopEnv) (test : Int) (r : LoopResult) :
    SubdevsResult :=
  let s1 := if r.vars.frozen > 0 then
      r.s.call (Event.sysfs_set_str e.info.sys_name none "sync_action" "idle")
        (w.sysfs_set_str r.s e.info.sys_name none "sync_action" "idle").2
    else r.s
  if r.aborted then { rv := 1, devlist := r.devlist, count := r.vars.count, s := s1 }
  else if test ≠ 0 ∧ r.vars.count = 0 then
    { rv := 2, devlist := r.devlist, count := r.vars.count, s := s1 }
  else { rv := 0, devlist := r.devlist, count := r.vars.count, s := s1 }

/-- The function `Manage_subdevs`. -/
def Manage_subdevs (K : Consts) (w : World) (devname : String) (fd : Int)
    (devlist : List mddev_dev) (verbose test : Int) (update : Option String) (force : Int)
    (s : State) : SubdevsResult :=
  match w.ioctl_GET_ARRAY_INFO s fd with
  | none =>
    { rv := 1, devlist := devlist, count := 0,
      s := s.pr_err ("Cannot get array info for " ++ devname ++ "\n") }
  | some array =>
    match w.super_by_fd s fd with
    | none =>
      { rv := 1, devlist := devlist, count := 0,
        s := s.pr_err ("unsupport array - version " ++ fmt_d array.major_version ++ "." ++
          fmt_d array.minor_version ++ "\n") }
    | some (tst, subarray) =>
      let e := loop_env w devname fd verbose update force array subarray s
      Manage_subdevs_end w e test (Manage_subdevs_loop K w e [] devlist (loop_vars0 w tst) s)

/-- The loop of `Manage_subdevs`, started at the first configuration, gets
to the second: each constructor but the first is one round that goes on to
the next entry. -/
inductive Reaches (K : Consts) (w : World) (e : LoopEnv) :
    List mddev_dev × List mddev_dev × LoopVars × State →
    List mddev_dev × List mddev_dev × LoopVars × State → Prop where
  | here (x : List mddev_dev × List mddev_dev × LoopVars × State) : Reaches K w e x x
  | skip (before next : List mddev_dev) (dv : mddev_dev) (v : LoopVars) (s s1 : State)
      (y : List mddev_dev × List mddev_dev × LoopVars × State)
      (h : resolve_symbolic K w e.fd dv s = Resolved.skip s1)
      (hy : Reaches K w e (before ++ [dv], next, v, s1) y) :
      Reaches K w e (before, dv :: next, v, s) y
  | expand (before next ins : List mddev_dev) (dv : mddev_dev) (v : LoopVars) (s s1 : State)
      (y : List mddev_dev × List mddev_dev × LoopVars × State)
      (h : resolve_symbolic K w e.fd dv s = Resolved.expand ins s1)
      (hy : Reaches K w e (before ++ [dv], ins ++ next, v, s1) y) :
      Reaches K w e (before, dv :: next, v, s) y
  | next (before next : List mddev_dev) (dv : mddev_dev) (v v1 : LoopVars) (s s1 : State)
      (y : List mddev_dev × List mddev_dev × LoopVars × State)
      (h : resolve_symbolic K w e.fd dv s = Resolved.concrete)
      (hs : concrete_step K w e dv v s = Step.next v1 s1)
      (hy : Reaches K w e (before ++ [dv], next, v1, s1) y) :
      Reaches K w e (before, dv :: next, v, s) y

/-- A symbolic name with a disposition that is not accepted for it. -/
def bad_symbolic (dv : mddev_dev) : Prop :=
  ((dv.devname = "failed" ∨ dv.devname = "faulty") ∧ dv.disposition ≠ 'r') ∨
  (dv.devname = "detached" ∧ dv.disposition ≠ 'r' ∧ dv.disposition ≠ 'f') ∨
  (dv.devname = "missing" ∧ dv.disposition ≠ 'A')

/-- Lines 1131-1139 of `Manage_subdevs` on their own: the candidate is opened
exclusively and, when that works, closed and opened again without `O_EXCL`.
The value is `tfd`. -/
def open_candidate (w : World) (dv : mddev_dev) (s : State) : Int × State :=
  let o := w.dev_open s dv.devname OFlags.O_RDONLY_EXCL
  let s := s.call (Event.dev_open dv.devname OFlags.O_RDONLY_EXCL) o.2
  if o.1 ≥ 0 then
    let s := s.emit (Event.close o.1)
    let o2 := w.dev_open s dv.devname OFlags.O_RDONLY
    (o2.1, s.call (Event.dev_open dv.devname OFlags.O_RDONLY) o2.2)
  else (o.1, s)

/-- Lines 1147-1152 of `Manage_subdevs` on their own: the array is frozen
before the first add.  The value is `frozen`. -/
def freeze_once (w : World) (e : LoopEnv) (frozen : Int) (s : State) : Int × State :=
  if frozen = 0 then
    (if w.sysfs_freeze_array s e.info.sys_name = 1 then 1 else -1,
      s.emit (Event.sysfs_freeze_array e.info.sys_name))
  else (frozen, s)

/-- The call of `Manage_add` at line 1153, after lines 1131-1152. -/
def add_call (K : Consts) (w : World) (e : LoopEnv) (dv : mddev_dev) (v : LoopVars)
    (s : State) : Int × supertype × State :=
  Manage_add K w e.fd (open_candidate w dv s).1 dv v.tst e.array e.force e.verbose e.devname
    e.update v.stb.st_rdev e.array_size (freeze_once w e v.frozen (open_candidate w dv s).2).2

/-- Lines 1186-1188 of `Manage_subdevs` on their own: the device is marked
faulty through its sysfs state file or by `SET_DISK_FAULTY`.  The value is 0
when that worked. -/
def mark_faulty (w : World) (e : LoopEnv) (v : LoopVars) (s : State) : Int × State :=
  if v.sysfd ≥ 0 then
    let n := w.write s v.sysfd "faulty"
    (if n.1 ≠ 6 then 1 else 0, s.call (Event.write v.sysfd "faulty") n.2)
  else
    let x := w.ioctl_SET_DISK_FAULTY s e.fd v.stb.st_rdev
    (x.1, s.call (Event.ioctl_SET_DISK_FAULTY e.fd v.stb.st_rdev) x.2)

/-! ## Words of the claims -/

/-- What `GET_DISK_INFO` reports of slot `i` when the slot is occupied: the
call succeeds and the device number is not 0:0. -/
def slot_info (w : World) (s : State) (fd : Int) (i : Nat) : Option disk_reply :=
  match w.ioctl_GET_DISK_INFO s fd i with
  | none => none
  | some d => if d.major = 0 ∧ d.minor = 0 then none else some d

/-- Is slot `i` occupied. -/
def occupied_slot (w : World) (s : State) (fd : Int) (i : Nat) : Bool :=
  (slot_info w s fd i).isSome

/-- Is slot `i` occupied with the faulty bit of its state set. -/
def faulty_slot (w : World) (s : State) (fd : Int) (i : Nat) : Bool :=
  match slot_info w s fd i with
  | none => false
  | some d => decide (d.state &&& 1 ≠ 0)

/-- The device number `(major, minor)` that slot `i` reports. -/
def slot_dev (w : World) (s : State) (fd : Int) (i : Nat) : Int × Int :=
  match slot_info w s fd i with
  | none => (0, 0)
  | some d => (d.major, d.minor)

/-- The occupied faulty slots below `n`, in ascending order. -/
def faulty_slots (w : World) (s : State) (fd : Int) (n : Nat) : List Nat :=
  (List.range n).filter (faulty_slot w s fd)

/-- The number of occupied slots below `n`. -/
def occupied_count (w : World) (s : State) (fd : Int) (n : Nat) : Nat :=
  ((List.range n).filter (occupied_slot w s fd)).length

/-- The entry that names the device of slot `i` as "major:minor". -/
def slot_entry (w : World) (s : State) (fd : Int) (disp : Char) (i : Nat) : mddev_dev :=
  new_dev w (slot_dev w s fd i).1 (slot_dev w s fd i).2 disp

/-- The events of `log` that are `STOP_ARRAY` calls. -/
def is_stop_array : Event → Bool
  | Event.ioctl_STOP_ARRAY _ => true
  | _ => false

/-- The events of `log` that are `usleep` calls. -/
def is_usleep : Event → Bool
  | Event.usleep _ => true
  | _ => false

/-- The calls that add a device to an array or write a superblock. -/
def is_add_or_sb_write : Event → Bool
  | Event.ioctl_ADD_NEW_DISK _ _ => true
  | Event.ioctl_HOT_ADD_DISK _ _ => true
  | Event.sysfs_add_disk _ _ _ => true
  | Event.add_to_super _ _ _ _ => true
  | Event.write_init_super _ => true
  | Event.store_super _ _ => true
  | Event.update_super _ _ => true
  | _ => false

/-- The calls that change the membership of an array, its superblocks or the
partitions of a device: every call the claims name as state-mutating. -/
def is_mutating : Event → Bool
  | Event.ioctl_ADD_NEW_DISK _ _ => true
  | Event.ioctl_HOT_ADD_DISK _ _ => true
  | Event.ioctl_HOT_REMOVE_DISK _ _ => true
  | Event.ioctl_SET_DISK_FAULTY _ _ => true
  | Event.sysfs_add_disk _ _ _ => true
  | Event.sysfs_set_str _ (some _) _ _ => true
  | Event.write _ _ => true
  | Event.add_to_super _ _ _ _ => true
  | Event.write_init_super _ => true
  | Event.store_super _ _ => true
  | Event.update_super _ _ => true
  | Event.load_super _ _ => true
  | Event.load_container _ _ => true
  | Event.remove_partitions _ => true
  | _ => false

/-- Is the event a message (`pr_err` or `fprintf(stderr, ...)`). -/
def is_message : Event → Bool
  | Event.pr_err _ => true
  | Event.fprintf_stderr _ => true
  | _ => false

/-- The state `s1` continues the run of `s`: its log is the log of `s`
followed by events that all satisfy `P`. -/
def Extends (P : Event → Prop) (s s1 : State) : Prop :=
  ∃ extra, s1.log = s.log ++ extra ∧ ∀ e ∈ extra, P e

/-- The number of `STOP_ARRAY` calls in a log. -/
def stop_attempts (log : List Event) : Nat := log.countP is_stop_array

/-- The events of `n` rounds of the loop of lines 316-321 that find the
array busy: a `STOP_ARRAY` call and a sleep of 200000 microseconds each. -/
def busy_rounds (fd : Int) : Nat → List Event
  | 0 => []
  | n + 1 => Event.ioctl_STOP_ARRAY fd :: Event.usleep 200000 :: busy_rounds fd n

/-- The event is neither a `STOP_ARRAY` call nor a sleep. -/
def quiet (e : Event) : Prop := is_stop_array e = false ∧ is_usleep e = false

/-- The member with device number `d` can be opened as a block device that
has this device number, and its hot-remove succeeds, whenever either is
tried. -/
def removable (K : Consts) (w : World) (fd : Int) (d : Int × Int) : Prop :=
  (∀ st : State, (w.dev_open st (fmt_dev d.1 d.2) OFlags.O_RDONLY).1 ≥ 0) ∧
  (∀ st st1 : State, ∃ stt : stat_t,
    (w.fstat st1 (w.dev_open st (fmt_dev d.1 d.2) OFlags.O_RDONLY).1).1 = some stt ∧
    stt.st_rdev = w.makedev d.1 d.2 ∧ stt.st_mode &&& K.S_IFMT = K.S_IFBLK) ∧
  (∀ st : State, (w.ioctl_HOT_REMOVE_DISK st fd (w.makedev d.1 d.2)).1 = 0)

/-- Does `GET_DISK_INFO` succeed for slot `n` and report it empty (device
number 0:0). -/
def slot_reported_empty (w : World) (s : State) (fd : Int) (n : Int) : Bool :=
  match w.ioctl_GET_DISK_INFO s fd n with
  | none => false
  | some d => decide (d.major = 0 ∧ d.minor = 0)

/-- Is slot `k` free for a new device: `GET_DISK_INFO` fails for it, or
reports the device number 0:0, or reports the removed bit (8) set. -/
def slot_free (w : World) (s : State) (fd : Int) (k : Int) : Bool :=
  match w.ioctl_GET_DISK_INFO s fd k with
  | none => true
  | some d => decide ((d.major = 0 ∧ d.minor = 0) ∨ d.state &&& 8 ≠ 0)

/-- The `mdu_disk_info_t` that a call hands to the kernel or to the metadata
handler. -/
def event_disc : Event → Option mdu_disk_info_t
  | Event.ioctl_ADD_NEW_DISK _ d => some d
  | Event.add_to_super _ d _ _ => some d
  | _ => none

/-- The calls by which lines 709-841 of `Manage_add` add a device. -/
def is_commit_call : Event → Bool
  | Event.remove_partitions _ => true
  | Event.add_to_super _ _ _ _ => true
  | Event.write_init_super _ => true
  | Event.ioctl_ADD_NEW_DISK _ _ => true
  | Event.sysfs_add_disk _ _ _ => true
  | _ => false

/-- The calls by which lines 590-618 of `Manage_add` look for a template
superblock. -/
def is_template_call : Event → Bool
  | Event.dev_open _ _ => true
  | Event.load_super _ _ => true
  | Event.load_container _ _ => true
  | Event.close _ => true
  | _ => false

/-- The raid position that slot `i` reports when it is occupied and has the
in-sync bit set. -/
def insync_position (K : Consts) (w : World) (s : State) (fd : Int) (i : Nat) : Option Int :=
  match w.ioctl_GET_DISK_INFO s fd i with
  | none => none
  | some d =>
    if (d.major = 0 ∧ d.minor = 0) ∨ d.state &&& (1 <<< K.MD_DISK_SYNC) = 0 then none
    else some d.raid_disk

/-- The raid positions of the occupied in-sync slots below `n`, in slot
order. -/
def insync_positions (K : Consts) (w : World) (s : State) (fd : Int) (n : Nat) : List Int :=
  (List.range n).filterMap (insync_position K w s fd)

/-- What the end of `Manage_subdevs` (lines 1205-1206, 1212-1213) issues: the
write of "idle" to `sync_action` when the array was frozen. -/
def idle_tail (w : World) (s : State) (fd : Int) (frozen : Int) : List Event :=
  if frozen > 0 then
    [Event.sysfs_set_str (w.sysfs_init s fd 0).sys_name none "sync_action" "idle"]
  else []

/-! ## Concrete worlds for the examples -/

/-- The constants as Linux and mdadm define them. -/
def linux : Consts :=
  { MAX_DISKS := 4096, MD_DISK_FAULTY := 0, MD_DISK_ACTIVE := 1, MD_DISK_SYNC := 2,
    MD_DISK_WRITEMOSTLY := 9, EBUSY := 16, ENOMEM := 12, EROFS := 30, ENODEV := 19,
    ENXIO := 6, EEXIST := 17, LEVEL_CONTAINER := -100, NoMdDev := 8388608,
    S_IFMT := 61440, S_IFBLK := 24576 }

/-- An `mdinfo` with nothing in it. -/
def mdinfo0 : mdinfo :=
  { level := 0, major_version := 0, minor_version := 0, text_version := "", sys_name := "md0",
    disk := { number := 0, major := 0, minor := 0, raid_disk := 0, state := 0 },
    recovery_start := 0, devs := [] }

/-- The state at the start of a run. -/
def s0 : State := { log := [], errno := 0 }

/-- A world in which nothing is there: every lookup fails, every open fails,
every ioctl fails with ENODEV.  The examples change the fields they need. -/
def World.nothing : World :=
  { strerror := fun e => "errno " ++ fmt_d e
    uninit_int := 0
    major := fun r => (r / 256 : Nat)
    minor := fun r => (r % 256 : Nat)
    makedev := fun mj mn => (mj * 256 + mn).toNat
    is_subarray := fun v => decide (v.data.head? = some '/' ∨ v.data.head? = some '-')
    devname2devnum := fun _ => -1
    get_linux_version := 3002000
    enough := fun _ _ _ _ _ => 1
    sscanf_dev := fun _ => none
    md_get_version := fun _ _ => 9003
    fd2devnum := fun _ _ => 0
    open_excl := fun _ _ => -1
    open_dev_excl := fun _ _ => -1
    dev_open := fun _ _ _ => (-1, 2)
    sysfs_open := fun _ _ _ _ => -1
    sysfs_fd_get_str := fun _ _ _ => (-1, "")
    write := fun s _ _ => (-1, 9)
    lstat := fun _ _ => (none, 2)
    fstat := fun _ _ => (none, 9)
    stat_rc := fun _ _ => 0
    check_env := fun _ _ => false
    readlink := fun _ _ _ => (-1, "")
    map_by_devnum := fun _ _ => none
    map_dev := fun _ _ _ _ => none
    devnum2devname := fun _ _ => none
    get_dev_size := fun _ _ _ => none
    get_component_size := fun _ _ => 0
    conf_get_devs := fun _ => []
    mdstat_read := fun _ => []
    mdmon_running := fun _ _ => false
    sysfs_read := fun _ _ _ _ => none
    sysfs_set_str := fun _ _ _ _ _ => (-1, 2)
    sysfs_init := fun _ _ _ => mdinfo0
    sysfs_freeze_array := fun _ _ => 0
    sysfs_add_disk := fun _ _ _ _ => -1
    sysfs_unique_holder := fun _ _ _ => (false, 2)
    super_by_fd := fun _ _ => none
    dup_super := fun st => { st with sb := none, update_tail := false }
    ioctl_GET_ARRAY_INFO := fun _ _ => none
    ioctl_GET_DISK_INFO := fun _ _ _ => none
    ioctl_STOP_MD := fun _ _ => (-1, 19)
    ioctl_RUN_ARRAY := fun _ _ => (-1, 19)
    ioctl_STOP_ARRAY := fun _ _ => (-1, 19)
    ioctl_HOT_ADD_DISK := fun _ _ _ => (-1, 19)
    ioctl_ADD_NEW_DISK := fun _ _ _ => (-1, 19)
    ioctl_HOT_REMOVE_DISK := fun _ _ _ => (-1, 19)
    ioctl_SET_DISK_FAULTY := fun _ _ _ => (-1, 19)
    validate_geometry := fun _ _ _ _ _ _ => 1
    avail_size := fun _ n => n
    getinfo_super := fun _ => mdinfo0
    uuid_from_super := fun _ => { u0 := 0, u1 := 0, u2 := 0, u3 := 0 }
    load_container := fun _ _ _ => none
    load_super := fun _ _ _ => (1, none)
    add_to_super := fun _ st _ _ _ => (1, st.sb)
    write_init_super := fun _ _ => 1
    update_super := fun _ st _ => (1, st.sb)
    store_super := fun _ _ _ => 1 }

/-- The array info of a four-disk raid5 with persistent version-1 metadata. -/
def array4 : mdu_array_info_t :=
  { major_version := 1, minor_version := 2, level := 5, size := 1000, nr_disks := 4,
    raid_disks := 4, not_persistent := 0, layout := 2, active_disks := 3 }

/-- The slots of a four-disk array whose member 8:16 (slot 1) is faulty and
whose other members are active and in sync. -/
def slots4 (i : Int) : Option disk_reply :=
  if i = 0 then some { major := 8, minor := 0, raid_disk := 0, state := 6 }
  else if i = 1 then some { major := 8, minor := 16, raid_disk := 1, state := 1 }
  else if i = 2 then some { major := 8, minor := 32, raid_disk := 2, state := 6 }
  else if i = 3 then some { major := 8, minor := 48, raid_disk := 3, state := 6 }
  else none

/-- The four-disk array of `slots4` as the kernel reports it. -/
def world_faulty1 : World :=
  { World.nothing with
    ioctl_GET_ARRAY_INFO := fun _ _ => some array4
    ioctl_GET_DISK_INFO := fun _ _ i => slots4 i }

/-- The array of `slots4` with an array info that counts one disk only, as
when members were added after `GET_ARRAY_INFO` was answered. -/
def world_short_count : World :=
  { World.nothing with
    ioctl_GET_ARRAY_INFO := fun _ _ => some { array4 with nr_disks := 1 }
    ioctl_GET_DISK_INFO := fun _ _ i => slots4 i }

/-- Two faulty slots that report the same device number. -/
def slots_twin (i : Int) : Option disk_reply :=
  if i = 0 then some { major := 8, minor := 16, raid_disk := 0, state := 1 }
  else if i = 1 then some { major := 8, minor := 16, raid_disk := 1, state := 1 }
  else none

/-- An array whose slots are `slots_twin`. -/
def world_twin : World :=
  { World.nothing with
    ioctl_GET_ARRAY_INFO := fun _ _ => some { array4 with nr_disks := 2 }
    ioctl_GET_DISK_INFO := fun _ _ i => slots_twin i }

/-- A two-disk raid1 without persistent metadata. -/
def array_nometa : mdu_array_info_t :=
  { major_version := 0, minor_version := 90, level := 1, size := 1000, nr_disks := 2,
    raid_disks := 2, not_persistent := 1, layout := 0, active_disks := 2 }

/-- A two-disk raid1 with version-0.90 metadata. -/
def array_v090 : mdu_array_info_t :=
  { array_nometa with not_persistent := 0 }

/-- The handle of a native metadata format with no superblock loaded. -/
def tst_native : supertype :=
  { external := false, max_devs := 27, sb := none, update_tail := false, container_dev := 0 }

/-- The candidate `/dev/sdc` given to `--add`. -/
def dv_sdc : mddev_dev :=
  { devname := "/dev/sdc", disposition := 'a', writemostly := 0, used := 0 }

/-- A current kernel (md driver 0.90.3) with an array that has no member yet
reported: the candidate has 2000 sectors, the geometry is accepted and
`ADD_NEW_DISK` succeeds. -/
def world_add : World :=
  { World.nothing with
    get_dev_size := fun _ _ _ => some 1024000
    ioctl_ADD_NEW_DISK := fun _ _ _ => (0, 0)
    ioctl_HOT_ADD_DISK := fun _ _ _ => (0, 0) }

/-- The world `world_add` on a kernel whose md driver is 0.90.1. -/
def world_old_md : World :=
  { world_add with md_get_version := fun _ _ => 9001 }

/-- The world `world_add` with a metadata handler that finds the candidate
too large for the geometry of the array. -/
def world_big : World :=
  { world_add with validate_geometry := fun _ _ _ _ _ _ => 0 }

/-- The world `world_add` with a metadata handler whose array identity is
the number of the loaded image. -/
def world_uuid : World :=
  { world_add with uuid_from_super := fun st => { u0 := st.sb.getD 0, u1 := 0, u2 := 0, u3 := 0 } }

/-- A plain array that can be opened exclusively and is busy for the first
three `STOP_ARRAY` calls. -/
def world_stop : World :=
  { World.nothing with
    open_excl := fun _ _ => 5
    ioctl_STOP_ARRAY := fun st _ => if stop_attempts st.log < 3 then (-1, 16) else (0, 0) }

/-- A plain array that can be opened exclusively and stays busy. -/
def world_busy : World :=
  { World.nothing with
    open_excl := fun _ _ => 5
    ioctl_STOP_ARRAY := fun _ _ => (-1, 16) }

/-- What sysfs reports of the container md127. -/
def mdinfo_container : mdinfo :=
  { mdinfo0 with
    major_version := -1, minor_version := -2, text_version := "imsm", sys_name := "md127" }

/-- The container md127 with the active member array md126. -/
def world_container : World :=
  { World.nothing with
    open_excl := fun _ _ => 5
    fd2devnum := fun _ _ => 127
    devname2devnum := fun n => if n = "md127/0" then 127 else -1
    sysfs_read := fun _ _ _ _ => some mdinfo_container
    mdstat_read := fun _ => [{ dev := "md126", metadata_version := some "external:/md127/0" }]
    ioctl_STOP_ARRAY := fun _ _ => (0, 0) }

/-- The array of `world_faulty1` with native metadata; every name opens as the
block device 8:16 and `HOT_REMOVE_DISK` succeeds. -/
def world_remove : World :=
  { world_faulty1 with
    super_by_fd := fun _ _ => some (tst_native, none)
    dev_open := fun _ _ _ => (6, 0)
    fstat := fun _ _ => (some { st_mode := 24576, st_rdev := 2064 }, 0)
    ioctl_HOT_REMOVE_DISK := fun _ _ _ => (0, 0) }

/-- The world `world_remove` with the array info of `world_short_count`. -/
def world_short_remove : World :=
  { world_remove with
    ioctl_GET_ARRAY_INFO := fun _ _ => some { array4 with nr_disks := 1 } }

/-- The entry "faulty" given to `--remove`. -/
def dv_faulty_r : mddev_dev :=
  { devname := "faulty", disposition := 'r', writemostly := 0, used := 0 }

/-- The entry "faulty" given to `--add`. -/
def dv_faulty_a : mddev_dev :=
  { devname := "faulty", disposition := 'a', writemostly := 0, used := 0 }

/-- The entry `/dev/sdb` given to `--remove`. -/
def dv_sdb_r : mddev_dev :=
  { devname := "/dev/sdb", disposition := 'r', writemostly := 0, used := 0 }

/-- What the superblock of a former member records: slot 1, raid position 1,
active and in sync. -/
def mdi_member : mdinfo :=
  { mdinfo0 with disk := { number := 1, major := 8, minor := 16, raid_disk := 1, state := 6 } }

/-- The world `world_add` with the slots of `slots4` and a candidate whose
superblock records slot 1, which another device holds. -/
def world_occupied : World :=
  { world_add with
    getinfo_super := fun _ => mdi_member
    ioctl_GET_DISK_INFO := fun _ _ i => slots4 i }

/-- The slots of `slots4` with slot 1 empty, as the kernel reports an empty
slot. -/
def slots4_gap (i : Int) : Option disk_reply :=
  if i = 1 then some { major := 0, minor := 0, raid_disk := -1, state := 8 } else slots4 i

/-- A kernel that is out of memory when the former member of slot 1 is handed
back: `ADD_NEW_DISK` fails with ENOMEM. -/
def world_readd_nomem : World :=
  { world_add with
    getinfo_super := fun _ => mdi_member
    ioctl_GET_DISK_INFO := fun _ _ i => slots4_gap i
    ioctl_ADD_NEW_DISK := fun _ _ _ => (-1, 12) }

/-- The candidate `/dev/sdc` given to `--re-add`. -/
def dv_sdc_A : mddev_dev :=
  { devname := "/dev/sdc", disposition := 'A', writemostly := 0, used := 0 }

/-- The entry "missing" given to `--re-add`. -/
def dv_missing_A : mddev_dev :=
  { devname := "missing", disposition := 'A', writemostly := 0, used := 0 }

/-- The world `world_remove` with a configuration file that names two
devices. -/
def world_pool : World :=
  { world_remove with conf_get_devs := fun _ => [dv_sdb_r, dv_sdc] }

/-- The array of `slots4` with a spare 8:64 in slot 4 and a removed device
still reported in slot 5. -/
def slots6 (i : Int) : Option disk_reply :=
  if i = 4 then some { major := 8, minor := 64, raid_disk := -1, state := 0 }
  else if i = 5 then some { major := 8, minor := 80, raid_disk := -1, state := 8 }
  else slots4 i

/-- The world `world_add` with the slots of `slots6`. -/
def world_slots6 : World :=
  { world_add with ioctl_GET_DISK_INFO := fun _ _ i => slots6 i }

/-- A two-disk array whose only member, 8:0 in slot 0, is reported active and
in sync at raid position 2. -/
def slots_edge (i : Int) : Option disk_reply :=
  if i = 0 then some { major := 8, minor := 0, raid_disk := 2, state := 6 } else none

/-- The world `world_add` with the slots of `slots_edge`. -/
def world_edge : World :=
  { world_add with ioctl_GET_DISK_INFO := fun _ _ i => slots_edge i }

/-- A completely dead array: every slot is reported empty, so no member can
supply a template superblock; the candidate carries a superblock of its own
(slot 1, active and in sync) and the kernel takes it back. -/
def world_dead : World :=
  { world_add with
    getinfo_super := fun _ => mdi_member
    ioctl_GET_DISK_INFO := fun _ _ _ => some { major := 0, minor := 0, raid_disk := -1, state := 8 }
    load_super := fun _ _ _ => (0, some 1) }

/-- The redundancy test of a raid5: enough while at most one member is
missing. -/
def enough_raid5 (raid_disks : Int) (avail : List Nat) : Int :=
  if raid_disks ≤ avail.sum + 1 then 1 else 0

/-- The slots of a failed four-disk raid5: 8:0 in sync in slot 0, slot 1
empty, 8:48 and 8:64 faulty in slots 2 and 3. -/
def slots_failed (i : Int) : Option disk_reply :=
  if i = 0 then some { major := 8, minor := 0, raid_disk := 0, state := 6 }
  else if i = 1 then some { major := 0, minor := 0, raid_disk := -1, state := 8 }
  else if i = 2 then some { major := 8, minor := 48, raid_disk := 2, state := 1 }
  else if i = 3 then some { major := 8, minor := 64, raid_disk := 3, state := 1 }
  else none

/-- The array info of the raid5 of `slots_failed`. -/
def array_failed : mdu_array_info_t :=
  { array4 with nr_disks := 3, active_disks := 1 }

/-- The failed raid5 of `slots_failed`; the candidate carries no superblock. -/
def world_failed : World :=
  { world_add with
    ioctl_GET_DISK_INFO := fun _ _ i => slots_failed i
    enough := fun _ raid_disks _ _ avail => enough_raid5 raid_disks avail }

/-- The failed raid5 of `slots_failed`; the candidate is the former member
of slot 1 and the kernel refuses to take it back: `ADD_NEW_DISK` fails with
EBUSY. -/
def world_failed_readd : World :=
  { world_failed with
    getinfo_super := fun _ => mdi_member
    load_super := fun _ _ _ => (0, some 1)
    ioctl_ADD_NEW_DISK := fun _ _ _ => (-1, 16) }

/-- The world `world_remove` with an array that can be frozen; the size of a
candidate cannot be read, so `Manage_add` fails for 'a' and skips for 'M'. -/
def world_add_fail : World :=
  { world_remove with sysfs_freeze_array := fun _ _ => 1 }

/-- The candidate `/dev/sdc` as an entry that "missing" expanded to. -/
def dv_sdc_M : mddev_dev :=
  { devname := "/dev/sdc", disposition := 'M', writemostly := 0, used := 0 }

/-! # Theorems -/

/-! ## The conversion `%d:%d` is injective -/

theorem digitChar_inj : ∀ a, a < 10 → ∀ b, b < 10 → digitChar a = digitChar b → a = b := by
  decide

/-- A digit character is neither the colon nor the minus sign. -/
theorem digitChar_ne_colon : ∀ a, a < 10 → digitChar a ≠ ':' ∧ digitChar a ≠ '-' := by
  decide

/-- Every character of a decimal expansion is a digit. -/
theorem decRev_digits (fuel n : Nat) : ∀ c ∈ decRev fuel n, ∃ d, d < 10 ∧ c = digitChar d := by
  induction fuel generalizing n with
  | zero => simp [decRev]
  | succ f ih =>
    intro c hc
    unfold decRev at hc
    split at hc
    · simp at hc; exact ⟨n, by assumption, hc⟩
    · rcases List.mem_cons.mp hc with h | h
      · exact ⟨n % 10, Nat.mod_lt _ (by decide), h⟩
      · exact ih _ c h

/-- A decimal expansion with fuel left is not empty. -/
theorem decRev_ne_nil (fuel n : Nat) (h : 0 < fuel) : decRev fuel n ≠ [] := by
  cases fuel with
  | zero => omega
  | succ f => unfold decRev; split <;> simp

/-- With enough fuel the decimal expansion determines the number. -/
theorem decRev_inj (f1 : Nat) : ∀ f2 n m, n < f1 → m < f2 → decRev f1 n = decRev f2 m → n = m := by
  induction f1 with
  | zero => intro f2 n m h; omega
  | succ f ih =>
    intro f2 n m hn hm heq
    cases f2 with
    | zero => omega
    | succ g =>
      unfold decRev at heq
      by_cases h1 : n < 10 <;> by_cases h2 : m < 10 <;> simp only [h1, h2, if_true, if_false] at heq
      · simp at heq; exact digitChar_inj n h1 m h2 heq
      · simp at heq
        exact absurd heq.2 (decRev_ne_nil g _ (by omega))
      · simp at heq
        exact absurd heq.2 (decRev_ne_nil f _ (by omega))
      · simp only [List.cons.injEq] at heq
        have hd := digitChar_inj _ (Nat.mod_lt n (by decide)) _ (Nat.mod_lt m (by decide)) heq.1
        have ht := ih g (n / 10) (m / 10) (by omega) (by omega) heq.2
        omega

/-- The unsigned conversion is injective. -/
theorem fmt_u_inj (n m : Nat) (h : fmt_u n = fmt_u m) : n = m := by
  unfold fmt_u at h
  exact decRev_inj _ _ _ _ (by omega) (by omega) (List.reverse_injective h)

/-- The unsigned conversion writes digits only. -/
theorem fmt_u_digits (n : Nat) : ∀ c ∈ fmt_u n, ∃ d, d < 10 ∧ c = digitChar d := by
  intro c hc
  unfold fmt_u at hc
  exact decRev_digits _ _ c (List.mem_reverse.mp hc)

/-- The unsigned conversion writes no minus sign. -/
theorem fmt_u_no_minus (n : Nat) : '-' ∉ fmt_u n := by
  intro h
  obtain ⟨d, hd, he⟩ := fmt_u_digits n _ h
  exact (digitChar_ne_colon d hd).2 he.symm

/-- The unsigned conversion writes at least one character. -/
theorem fmt_u_ne_nil (n : Nat) : fmt_u n ≠ [] := by
  unfold fmt_u
  simp
  exact decRev_ne_nil _ _ (by omega)

/-- The conversion `%d` writes no colon. -/
theorem fmt_d_chars_no_colon (i : Int) : ':' ∉ fmt_d_chars i := by
  intro h
  cases i with
  | ofNat n =>
    obtain ⟨d, hd, he⟩ := fmt_u_digits n _ h
    exact (digitChar_ne_colon d hd).1 he.symm
  | negSucc n =>
    simp only [fmt_d_chars, List.mem_cons] at h
    rcases h with h | h
    · exact absurd h (by decide)
    · obtain ⟨d, hd, he⟩ := fmt_u_digits _ _ h
      exact (digitChar_ne_colon d hd).1 he.symm

/-- The conversion `%d` is injective. -/
theorem fmt_d_chars_inj (i j : Int) (h : fmt_d_chars i = fmt_d_chars j) : i = j := by
  cases i with
  | ofNat n =>
    cases j with
    | ofNat m => simp only [fmt_d_chars] at h; rw [fmt_u_inj n m h]
    | negSucc m =>
      simp only [fmt_d_chars] at h
      exact absurd (h ▸ List.mem_cons_self '-' _ : '-' ∈ fmt_u n) (fmt_u_no_minus n)
  | negSucc n =>
    cases j with
    | ofNat m =>
      simp only [fmt_d_chars] at h
      exact absurd (h ▸ List.mem_cons_self '-' _ : '-' ∈ fmt_u m) (fmt_u_no_minus m)
    | negSucc m =>
      simp only [fmt_d_chars, List.cons.injEq, true_and] at h
      have := fmt_u_inj _ _ h
      have : n = m := by omega
      rw [this]

/-- Two texts cut at the first separator agree on both sides of it. -/
theorem split_at_sep {α : Type} (c : α) : ∀ (l1 l3 l2 l4 : List α), c ∉ l1 → c ∉ l3 →
    l1 ++ c :: l2 = l3 ++ c :: l4 → l1 = l3 ∧ l2 = l4 := by
  intro l1
  induction l1 with
  | nil =>
    intro l3 l2 l4 _ h3 h
    cases l3 with
    | nil => simpa using h
    | cons x xs =>
      simp only [List.nil_append, List.cons_append, List.cons.injEq] at h
      exact absurd (h.1 ▸ List.mem_cons_self _ _) h3
  | cons y ys ih =>
    intro l3 l2 l4 h1 h3 h
    cases l3 with
    | nil =>
      simp only [List.nil_append, List.cons_append, List.cons.injEq] at h
      exact absurd (h.1 ▸ List.mem_cons_self _ _) h1
    | cons x xs =>
      simp only [List.cons_append, List.cons.injEq] at h
      have := ih xs l2 l4 (fun hc => h1 (List.mem_cons_of_mem _ hc))
        (fun hc => h3 (List.mem_cons_of_mem _ hc)) h.2
      exact ⟨by rw [h.1, this.1], this.2⟩

/-- The text "major:minor" determines the device number. -/
theorem fmt_dev_inj (a b c d : Int) (h : fmt_dev a b = fmt_dev c d) : a = c ∧ b = d := by
  have h1 : (fmt_dev a b).data = (fmt_dev c d).data := congrArg String.data h
  have := split_at_sep ':' _ _ _ _ (fmt_d_chars_no_colon a) (fmt_d_chars_no_colon c) h1
  exact ⟨fmt_d_chars_inj _ _ this.1, fmt_d_chars_inj _ _ this.2⟩


/-! ## C1: `add_faulty` -/

theorem faulty_slot_occupied (w : World) (s : State) (fd : Int) (i : Nat)
    (h : faulty_slot w s fd i = true) : occupied_slot w s fd i = true := by
  unfold faulty_slot at h
  unfold occupied_slot
  split at h
  · simp at h
  · rename_i d hd; simp [hd]

/-- When the count of remaining disks covers the occupied slots still to be
scanned, the loop of `add_faulty` links in the entries of exactly the faulty
slots of that range, in order. -/
theorem add_faulty_scan_eq (w : World) (s : State) (fd : Int) (disp : Char) (fuel : Nat) :
    ∀ (i : Nat) (rem : Int),
    (((List.range' i fuel).filter (occupied_slot w s fd)).length : Int) ≤ rem →
    add_faulty_scan w s fd disp fuel i rem =
      ((List.range' i fuel).filter (faulty_slot w s fd)).map (slot_entry w s fd disp) := by
  induction fuel with
  | zero => intro i rem _; simp [add_faulty_scan]
  | succ n ih =>
    intro i rem hcov
    rw [List.range'_succ] at hcov ⊢
    unfold add_faulty_scan
    by_cases hrem : rem > 0
    · simp only [hrem, if_true]
      cases hg : w.ioctl_GET_DISK_INFO s fd i with
      | none =>
        have ho : occupied_slot w s fd i = false := by simp [occupied_slot, slot_info, hg]
        have hf : faulty_slot w s fd i = false := by simp [faulty_slot, slot_info, hg]
        simp only [List.filter_cons, ho, hf] at hcov ⊢
        exact ih _ _ (by simpa using hcov)
      | some d =>
        by_cases hz : d.major = 0 ∧ d.minor = 0
        · have ho : occupied_slot w s fd i = false := by simp [occupied_slot, slot_info, hg, hz]
          have hf : faulty_slot w s fd i = false := by simp [faulty_slot, slot_info, hg, hz]
          simp only [List.filter_cons, ho, hf, hz] at hcov ⊢
          simp only [and_self, if_true]
          exact ih _ _ (by simpa using hcov)
        · have ho : occupied_slot w s fd i = true := by simp [occupied_slot, slot_info, hg, hz]
          simp only [List.filter_cons, ho, if_true, List.length_cons] at hcov
          have hcov' : (((List.range' (i + 1) n).filter (occupied_slot w s fd)).length : Int)
              ≤ rem - 1 := by push_cast at hcov; omega
          by_cases hs : d.state &&& 1 = 0
          · have hf : faulty_slot w s fd i = false := by
              simp [faulty_slot, slot_info, hg, hz, hs]
            simp only [List.filter_cons, hf, hz, hs, if_false, if_true]
            exact ih _ _ hcov'
          · have hf : faulty_slot w s fd i = true := by
              have hs1 := hs
              rw [Nat.and_one_is_mod] at hs1
              simp [faulty_slot, slot_info, hg, hz]
              omega
            have he : slot_entry w s fd disp i = new_dev w d.major d.minor disp := by
              simp [slot_entry, slot_dev, slot_info, hg, hz]
            simp only [List.filter_cons, hf, hz, hs, if_false, if_true, List.map_cons, he]
            rw [ih _ _ hcov']
    · simp only [hrem, if_false]
      have hlen : ((i :: List.range' (i + 1) n).filter (occupied_slot w s fd)).length = 0 := by
        have : (0 : Int) ≤ ((i :: List.range' (i + 1) n).filter (occupied_slot w s fd)).length :=
          Int.natCast_nonneg _
        omega
      have hnil := List.length_eq_zero.mp hlen
      have : (i :: List.range' (i + 1) n).filter (faulty_slot w s fd) = [] := by
        rw [List.filter_eq_nil_iff] at hnil ⊢
        intro a ha hfa
        exact hnil a ha (faulty_slot_occupied w s fd a hfa)
      rw [this]; rfl


/-- The faulty slots are listed in ascending order, each once. -/
theorem faulty_slots_ascending (w : World) (s : State) (fd : Int) (n : Nat) :
    (faulty_slots w s fd n).Pairwise (fun i j => i < j) := by
  unfold faulty_slots
  exact List.Pairwise.filter _ (List.pairwise_lt_range n)

/-- C1 (amended): when `GET_ARRAY_INFO` succeeds and its `nr_disks` is at least
the number of occupied slots below `MAX_DISKS`, `add_faulty(dv, fd, 'r')` links
in, right behind `dv`, one entry per occupied faulty slot below `MAX_DISKS`, in
ascending slot order, each with disposition 'r' and the name "major:minor" of
its slot, and the old successors of `dv` follow unchanged; the names are
pairwise distinct when the faulty slots report pairwise distinct device
numbers. -/
theorem add_faulty_inserts_faulty_slots (K : Consts) (w : World) (s : State) (fd : Int)
    (next : List mddev_dev) (array : mdu_array_info_t)
    (hinfo : w.ioctl_GET_ARRAY_INFO s fd = some array)
    (hcov : (occupied_count w s fd K.MAX_DISKS : Int) ≤ array.nr_disks) :
    add_faulty K w next fd 'r' s =
        (faulty_slots w s fd K.MAX_DISKS).map (slot_entry w s fd 'r') ++ next ∧
    (faulty_slots w s fd K.MAX_DISKS).Pairwise (fun i j => i < j) ∧
    (∀ i ∈ faulty_slots w s fd K.MAX_DISKS,
      (slot_entry w s fd 'r' i).disposition = 'r' ∧
      (slot_entry w s fd 'r' i).devname =
        fmt_dev (slot_dev w s fd i).1 (slot_dev w s fd i).2) ∧
    ((∀ i ∈ faulty_slots w s fd K.MAX_DISKS, ∀ j ∈ faulty_slots w s fd K.MAX_DISKS,
        slot_dev w s fd i = slot_dev w s fd j → i = j) →
      ((faulty_slots w s fd K.MAX_DISKS).map
        (fun i => (slot_entry w s fd 'r' i).devname)).Nodup) := by
  refine ⟨?_, faulty_slots_ascending w s fd _, fun i _ => ⟨rfl, rfl⟩, ?_⟩
  · unfold add_faulty
    rw [hinfo]
    simp only
    rw [add_faulty_scan_eq w s fd 'r' K.MAX_DISKS 0 array.nr_disks
      (by rw [← List.range_eq_range']; exact hcov), ← List.range_eq_range']
    rfl
  · intro hdist
    have hnd : (faulty_slots w s fd K.MAX_DISKS).Nodup :=
      (faulty_slots_ascending w s fd _).imp (fun h => Nat.ne_of_lt h)
    refine List.Nodup.map_on ?_ hnd
    intro i hi j hj hname
    have h := fmt_dev_inj _ _ _ _ hname
    exact hdist i hi j hj (Prod.ext h.1 h.2)

/-- C1, an instance: on the four-disk array with the faulty member 8:16 the
single entry "8:16" with disposition 'r' is linked in before the old
successor. -/
theorem add_faulty_inserts_faulty_slots_witness :
    (world_faulty1.ioctl_GET_ARRAY_INFO s0 3 = some array4 ∧
      (occupied_count world_faulty1 s0 3 linux.MAX_DISKS : Int) ≤ array4.nr_disks) ∧
    add_faulty linux world_faulty1 [⟨"/dev/sdz", 'r', 0, 0⟩] 3 'r' s0 =
      [⟨"8:16", 'r', 0, 0⟩, ⟨"/dev/sdz", 'r', 0, 0⟩] := by
  have hc : (occupied_count world_faulty1 s0 3 linux.MAX_DISKS : Int) ≤ array4.nr_disks := by
    decide
  refine ⟨⟨rfl, hc⟩, ?_⟩
  rw [(add_faulty_inserts_faulty_slots linux world_faulty1 s0 3 [⟨"/dev/sdz", 'r', 0, 0⟩]
    array4 rfl hc).1]
  decide

/-- C1 as stated fails: with `GET_ARRAY_INFO` answering `nr_disks = 1` the scan
ends after the first occupied slot, so the occupied faulty slot 1 gets no
entry; and two faulty slots that report the same device number get the same
name. -/
theorem add_faulty_misses_slot_beyond_nr_disks :
    ((world_short_count.ioctl_GET_ARRAY_INFO s0 3).isSome = true ∧
      faulty_slot world_short_count s0 3 1 = true ∧
      add_faulty linux world_short_count [] 3 'r' s0 = []) ∧
    ((world_twin.ioctl_GET_ARRAY_INFO s0 3).isSome = true ∧
      faulty_slot world_twin s0 3 0 = true ∧ faulty_slot world_twin s0 3 1 = true ∧
      (add_faulty linux world_twin [] 3 'r' s0).map (fun e => e.devname) =
        ["8:16", "8:16"]) := by
  decide

/-! ## Runs that continue a run -/

theorem Extends.refl (P : Event → Prop) (s : State) : Extends P s s :=
  ⟨[], by simp, by simp⟩

/-- Continuations compose. -/
theorem Extends.trans {P : Event → Prop} {s s1 s2 : State} (h1 : Extends P s s1)
    (h2 : Extends P s1 s2) : Extends P s s2 := by
  obtain ⟨a, ha, pa⟩ := h1
  obtain ⟨b, hb, pb⟩ := h2
  refine ⟨a ++ b, by rw [hb, ha, List.append_assoc], ?_⟩
  intro e he
  rcases List.mem_append.mp he with h | h
  · exact pa e h
  · exact pb e h

/-- One more recorded call that satisfies `P`. -/
theorem Extends.emit {P : Event → Prop} {s s1 : State} (e : Event)
    (h1 : Extends P s s1) (h : P e) : Extends P s (s1.emit e) :=
  h1.trans ⟨[e], rfl, by simpa using h⟩

/-- One more recorded call that sets `errno` and satisfies `P`. -/
theorem Extends.call {P : Event → Prop} {s s1 : State} (e : Event) (err : Int)
    (h1 : Extends P s s1) (h : P e) : Extends P s (s1.call e err) :=
  h1.trans ⟨[e], rfl, by simpa using h⟩

/-- One more message. -/
theorem Extends.pr_err {P : Event → Prop} {s s1 : State} (msg : String)
    (h1 : Extends P s s1) (h : P (Event.pr_err msg)) : Extends P s (s1.pr_err msg) :=
  Extends.emit _ h1 h

/-- Setting `errno` records nothing. -/
theorem Extends.errno {P : Event → Prop} {s s1 : State} (err : Int)
    (h1 : Extends P s s1) : Extends P s { s1 with errno := err } :=
  h1.trans ⟨[], by simp, by simp⟩

/-- The search for a template superblock opens, loads and closes; it adds no
device and writes no superblock. -/
theorem load_template_scan_log (w : World) (fd : Int) (fuel : Nat) :
    ∀ (j : Int) (tst : supertype) (disc : mdu_disk_info_t) (s : State),
    Extends (fun e => is_add_or_sb_write e = false) s
      (load_template_scan w fd fuel j tst disc s).2.2 := by
  induction fuel with
  | zero => intro j tst disc s; exact Extends.refl _ _
  | succ n ih =>
    intro j tst disc s
    unfold load_template_scan
    simp only
    split
    · exact ih _ _ _ _
    · split
      · exact ih _ _ _ _
      · split
        · exact ih _ _ _ _
        · split
          · exact ih _ _ _ _
          · split
            · refine Extends.trans ?_ (ih _ _ _ _)
              exact Extends.call _ _ (Extends.refl _ _) rfl
            · split
              · refine Extends.trans ?_ (ih _ _ _ _)
                exact Extends.emit _ (Extends.emit _ (Extends.call _ _ (Extends.refl _ _) rfl)
                  rfl) rfl
              · exact Extends.emit _ (Extends.emit _ (Extends.call _ _ (Extends.refl _ _) rfl)
                  rfl) rfl

/-- Lines 590-618 add no device and write no superblock. -/
theorem Manage_add_template_log (w : World) (fd : Int) (tst : supertype)
    (disc : mdu_disk_info_t) (s : State) :
    Extends (fun e => is_add_or_sb_write e = false) s
      (Manage_add_template w fd tst disc s).2.2 := by
  unfold Manage_add_template
  split
  · exact Extends.refl _ _
  · split
    · exact Extends.emit _ (Extends.refl _ _) rfl
    · exact load_template_scan_log _ _ _ _ _ _ _

/-! ## C2, C3, C4: `Manage_add` -/

/-- C2 (amended): on a persistent or externally-managed array, with force = 0,
disposition 'a' or 'A', a readable device size, and the direct hot-add of
lines 567-580 not taken (the array is externally managed, or its
major_version is not 0, or the md driver's patch level is 2 or more): if
avail_size(ldsize/512) is below array_size then `Manage_add` returns -1 and
issues no add call and no superblock write; if it equals array_size (and the
geometry is valid and a template superblock is loaded or the disposition is
'A') the size check lets the candidate through: the result is that of lines
640-841. -/
theorem Manage_add_too_small_rejected (K : Consts) (w : World) (fd tfd : Int) (dv : mddev_dev)
    (tst : supertype) (array : mdu_array_info_t) (force verbose : Int) (devname : String)
    (update : Option String) (rdev : Nat) (array_size : Nat) (s : State) (ldsize : Nat)
    (hpers : array.not_persistent = 0 ∨ tst.external = true)
    (hforce : force = 0)
    (hdisp : dv.disposition = 'a' ∨ dv.disposition = 'A')
    (hsize : w.get_dev_size s tfd dv.devname = some ldsize)
    (hnohot : ¬ (tst.external = false ∧ array.major_version = 0 ∧
      Int.tmod (w.md_get_version s fd) 100 < 2)) :
    (w.avail_size (Manage_add_template w fd tst (uninit_disc w) s).1 (ldsize / 512)
        < array_size →
      (Manage_add K w fd tfd dv tst array force verbose devname update rdev array_size s).1
          = -1 ∧
      Extends (fun e => is_add_or_sb_write e = false) s
        (Manage_add K w fd tfd dv tst array force verbose devname update rdev array_size
          s).2.2) ∧
    (w.avail_size (Manage_add_template w fd tst (uninit_disc w) s).1 (ldsize / 512)
        = array_size →
      w.validate_geometry s tst array.level array.layout array.raid_disks (ldsize >>> 9) ≠ 0 →
      ((Manage_add_template w fd tst (uninit_disc w) s).1.sb.isSome = true ∨
        dv.disposition = 'A') →
      Manage_add K w fd tfd dv tst array force verbose devname update rdev array_size s =
        Manage_add_proceed K w fd tfd dv (Manage_add_template w fd tst (uninit_disc w) s).1
          array verbose devname update rdev
          (Manage_add_template w fd tst (uninit_disc w) s).2.1
          (Manage_add_template w fd tst (uninit_disc w) s).2.2) := by
  have hM : dv.disposition ≠ 'M' := by
    rcases hdisp with h | h <;> rw [h] <;> decide
  constructor
  · intro hsmall
    unfold Manage_add
    rw [hsize]
    simp only [hforce, and_true]
    by_cases hg : w.validate_geometry s tst array.level array.layout array.raid_disks
        (ldsize >>> 9) = 0
    · simp only [hg, if_true]
      exact ⟨by first | rfl | trivial, Extends.pr_err _ (Extends.refl _ _) rfl⟩
    · simp only [hg, if_false]
      unfold Manage_add_strategy
      rw [if_neg hnohot, if_pos hpers]
      unfold Manage_add_persistent
      simp only [hsmall, if_true, hM, if_false]
      have ht := Manage_add_template_log w fd tst (uninit_disc w) s
      split
      · exact ⟨rfl, Extends.pr_err _ ht rfl⟩
      · split
        · exact ⟨rfl, Extends.pr_err _ ht rfl⟩
        · exact ⟨rfl, Extends.pr_err _ ht rfl⟩
  · intro heq hg hsb
    unfold Manage_add
    rw [hsize]
    simp only [hg, false_and, if_false]
    unfold Manage_add_strategy
    rw [if_neg hnohot, if_pos hpers]
    unfold Manage_add_persistent
    simp only [heq, lt_irrefl, if_false]
    rcases hsb with h | h
    · simp [h]
      intro _ hn
      simp [hn] at h
    · have : dv.disposition ≠ 'a' := by rw [h]; decide
      simp [this]
      intro h1 h2
      exact absurd h2 h1


/-- C3 (amended): the force flag overrides the geometry validation only.  With
force set, a candidate for which `validate_geometry` fails is not rejected:
`Manage_add` emits the warning "Adding anyway as --force was given" and goes
on to choose the add strategy.  The size check of lines 630-638 does not look
at the flag: a candidate whose avail_size is below the component size is
rejected there, with -1, or 0 for disposition 'M'. -/
theorem Manage_add_force_overrides_geometry_only (K : Consts) (w : World) (fd tfd : Int)
    (dv : mddev_dev) (tst : supertype) (array : mdu_array_info_t) (force verbose : Int)
    (devname : String) (update : Option String) (rdev : Nat) (array_size : Nat) (s : State)
    (ldsize : Nat)
    (hforce : force ≠ 0)
    (hsize : w.get_dev_size s tfd dv.devname = some ldsize) :
    (w.validate_geometry s tst array.level array.layout array.raid_disks (ldsize >>> 9) = 0 →
      Manage_add K w fd tfd dv tst array force verbose devname update rdev array_size s =
        Manage_add_strategy K w fd tfd dv tst array verbose devname update rdev array_size
          ldsize (s.pr_err (geometry_warning dv devname))) ∧
    (∀ s1 : State,
      w.avail_size (Manage_add_template w fd tst (uninit_disc w) s1).1 (ldsize / 512)
        < array_size →
      ((Manage_add_template w fd tst (uninit_disc w) s1).1.sb.isSome = true ∨
        dv.disposition ≠ 'a') →
      (Manage_add_persistent K w fd tfd dv tst array verbose devname update rdev array_size
        ldsize s1).1 = if dv.disposition = 'M' then 0 else -1) := by
  constructor
  · intro hg
    unfold Manage_add
    rw [hsize]
    simp [hg, hforce]
  · intro s1 hsmall hsb
    unfold Manage_add_persistent
    simp only [hsmall, if_true]
    rcases hsb with h | h
    · have hn : (Manage_add_template w fd tst (uninit_disc w) s1).1.sb.isNone = false := by
        cases hx : (Manage_add_template w fd tst (uninit_disc w) s1).1.sb <;> simp_all
      simp only [hn, Bool.false_eq_true, false_and, if_false]
      split <;> rfl
    · split
      · split <;> rfl
      · rename_i hc
        split
        · rename_i hn
          exact absurd ⟨hn, h⟩ hc
        · split <;> rfl

/-- C4 (amended): the direct hot-add is chosen by the metadata version and the
md driver, not by `not_persistent`.  For every array that is not externally
managed, has major_version 0 and sits on an md driver whose version modulo
100 is below 2, and every candidate whose size can be read and that passes
geometry validation, `Manage_add` issues exactly one `HOT_ADD_DISK` call and
nothing else but messages; it returns 1 when the call succeeds and -1 when it
fails, and leaves the metadata handle as it was. -/
theorem Manage_add_direct_hot_add (K : Consts) (w : World) (fd tfd : Int) (dv : mddev_dev)
    (tst : supertype) (array : mdu_array_info_t) (force verbose : Int) (devname : String)
    (update : Option String) (rdev : Nat) (array_size : Nat) (s : State) (ldsize : Nat)
    (hsize : w.get_dev_size s tfd dv.devname = some ldsize)
    (hgeom : w.validate_geometry s tst array.level array.layout array.raid_disks
      (ldsize >>> 9) ≠ 0)
    (hext : tst.external = false)
    (hmajor : array.major_version = 0)
    (hver : Int.tmod (w.md_get_version s fd) 100 < 2) :
    (Manage_add K w fd tfd dv tst array force verbose devname update rdev array_size s).1 =
      (if (w.ioctl_HOT_ADD_DISK s fd rdev).1 = 0 then 1 else -1) ∧
    (Manage_add K w fd tfd dv tst array force verbose devname update rdev array_size s).2.1 =
      tst ∧
    ∃ msgs, (∀ e ∈ msgs, is_message e = true) ∧
      (Manage_add K w fd tfd dv tst array force verbose devname update rdev array_size
        s).2.2.log = s.log ++ Event.ioctl_HOT_ADD_DISK fd rdev :: msgs := by
  unfold Manage_add
  rw [hsize]
  simp only [hgeom, false_and, if_false]
  unfold Manage_add_strategy
  rw [if_pos ⟨hext, hmajor, hver⟩]
  simp only
  by_cases hr : (w.ioctl_HOT_ADD_DISK s fd rdev).1 = 0
  · simp only [hr, if_true]
    refine ⟨trivial, trivial, ?_⟩
    by_cases hv : verbose ≥ 0
    · exact ⟨[Event.pr_err ("hot added " ++ dv.devname ++ "\n")], by simp [is_message],
        by simp [hv, State.pr_err, State.emit, State.call]⟩
    · exact ⟨[], by simp, by simp [hv, State.call]⟩
  · simp only [hr, if_false]
    exact ⟨trivial, trivial, [Event.pr_err ("hot add failed for " ++ dv.devname ++ ": " ++
      w.strerror (w.ioctl_HOT_ADD_DISK s fd rdev).2 ++ "\n")], by simp [is_message],
      by simp [State.pr_err, State.emit, State.call]⟩


/-- C2, an instance: on the version-0.90 array with a current md driver the
2000-sector candidate is refused for an array of 4000-sector components. -/
theorem Manage_add_too_small_rejected_witness :
    (Manage_add linux world_add 3 4 dv_sdc { tst_native with sb := some 7 } array_v090 0 0
      "/dev/md0" none 2080 4000 s0).1 = -1 :=
  ((Manage_add_too_small_rejected linux world_add 3 4 dv_sdc { tst_native with sb := some 7 }
    array_v090 0 0 "/dev/md0" none 2080 4000 s0 1024000 (Or.inl rfl) rfl (Or.inl rfl) rfl
    (by decide)).1 (by decide)).1

/-- C2 as stated fails: on a persistent version-0.90 array whose md driver is
0.90.1, with force = 0 and disposition 'a', a candidate whose avail_size (2000)
is below the component size (4000) is hot-added and `Manage_add` returns 1. -/
theorem Manage_add_old_driver_hot_adds_small_device :
    array_v090.not_persistent = 0 ∧ dv_sdc.disposition = 'a' ∧
    world_old_md.avail_size tst_native (1024000 / 512) < 4000 ∧
    Manage_add linux world_old_md 3 4 dv_sdc tst_native array_v090 0 0 "/dev/md0" none 2080
        4000 s0 =
      (1, tst_native,
        { log := [Event.ioctl_HOT_ADD_DISK 3 2080, Event.pr_err "hot added /dev/sdc\n"],
          errno := 0 }) := by
  decide

/-- C3, an instance: with force set a candidate that fails the geometry
validation is added after the warning. -/
theorem Manage_add_force_overrides_geometry_only_witness :
    Manage_add linux world_big 3 4 dv_sdc tst_native array_nometa 1 0 "/dev/md0" none 2080
        2000 s0 =
      (1, tst_native,
        { log := [Event.pr_err (geometry_warning dv_sdc "/dev/md0"),
            Event.remove_partitions 4, Event.free_super StRole.tst,
            Event.ioctl_ADD_NEW_DISK 3
              { number := 2, major := 8, minor := 32, raid_disk := 0, state := 0 },
            Event.pr_err "added /dev/sdc\n"],
          errno := 0 }) := by
  rw [(Manage_add_force_overrides_geometry_only linux world_big 3 4 dv_sdc tst_native
    array_nometa 1 0 "/dev/md0" none 2080 2000 s0 1024000 (by decide) rfl).1 rfl]
  decide

/-- C3 as stated fails: with force set, a candidate whose avail_size (2000) is
below the component size (4000) is rejected by the size check: `Manage_add`
returns -1 and adds nothing. -/
theorem Manage_add_force_does_not_override_size :
    world_add.avail_size { tst_native with sb := some 7 } (1024000 / 512) < 4000 ∧
    Manage_add linux world_add 3 4 dv_sdc { tst_native with sb := some 7 } array_v090 1 0
        "/dev/md0" none 2080 4000 s0 =
      (-1, { tst_native with sb := some 7 },
        { log := [Event.pr_err "/dev/sdc not large enough to join array\n"], errno := 0 }) := by
  decide

/-- C4, an instance: on an md driver 0.90.1 the version-0 array gets the
candidate 8:32 by one `HOT_ADD_DISK` call. -/
theorem Manage_add_direct_hot_add_witness :
    (Manage_add linux world_old_md 3 4 dv_sdc tst_native array_nometa 0 0 "/dev/md0" none
      2080 2000 s0).1 = 1 :=
  (Manage_add_direct_hot_add linux world_old_md 3 4 dv_sdc tst_native array_nometa 0 0
    "/dev/md0" none 2080 2000 s0 1024000 rfl (by decide) rfl rfl (by decide)).1

/-- C4 as stated fails: on a current md driver (0.90.3) a non-persistent array
that is not externally managed gets the candidate 8:32, whose size reads and
whose geometry is valid, by `remove_partitions` and `ADD_NEW_DISK`; no
`HOT_ADD_DISK` call is issued. -/
theorem Manage_add_nonpersistent_uses_add_new_disk :
    array_nometa.not_persistent = 1 ∧ tst_native.external = false ∧
    Manage_add linux world_add 3 4 dv_sdc tst_native array_nometa 0 0 "/dev/md0" none 2080
        2000 s0 =
      (1, tst_native,
        { log := [Event.remove_partitions 4, Event.free_super StRole.tst,
            Event.ioctl_ADD_NEW_DISK 3
              { number := 2, major := 8, minor := 32, raid_disk := 0, state := 0 },
            Event.pr_err "added /dev/sdc\n"],
          errno := 0 }) := by
  decide


/-! ## C5: `attempt_re_add` -/

/-- C5: when the target's superblock is loaded and the array identity read
from the candidate's superblock differs from the one read from the target's,
`attempt_re_add` returns 0 and leaves the state as it was: no `update_super`,
`store_super`, `remove_partitions` or `ADD_NEW_DISK` call (no call at all) is
issued. -/
theorem attempt_re_add_uuid_mismatch (K : Consts) (w : World) (fd tfd : Int) (dv : mddev_dev)
    (dev_st tst : supertype) (rdev : Nat) (update : Option String) (devname : String)
    (verbose : Int) (array : mdu_array_info_t) (s : State)
    (hsb : tst.sb.isSome = true)
    (huuid : w.uuid_from_super dev_st ≠ w.uuid_from_super tst) :
    attempt_re_add K w fd tfd dv dev_st tst rdev update devname verbose array s = (0, s) := by
  unfold attempt_re_add
  simp only [hsb, if_true]
  rw [if_neg]
  intro h
  exact huuid h.2.2.symm


/-- C5, an instance: a candidate whose superblock names array 1 offered to
array 2 is left alone. -/
theorem attempt_re_add_uuid_mismatch_witness :
    attempt_re_add linux world_uuid 3 4 dv_sdc { tst_native with sb := some 1 }
        { tst_native with sb := some 2 } 2080 none "/dev/md0" 0 array4 s0 = (0, s0) :=
  attempt_re_add_uuid_mismatch linux world_uuid 3 4 dv_sdc { tst_native with sb := some 1 }
    { tst_native with sb := some 2 } 2080 none "/dev/md0" 0 array4 s0 rfl (by decide)

/-! ## C6, C7: `Manage_runstop` -/

theorem Extends.ite {P : Event → Prop} {s a b : State} {c : Prop} [Decidable c]
    (h1 : Extends P s a) (h2 : Extends P s b) : Extends P s (if c then a else b) := by
  split
  · exact h1
  · exact h2

/-- The function `remove_devices` only unlinks. -/
theorem remove_devices_quiet (w : World) (devnum : Int) (path : Option String) (s : State) :
    Extends quiet s (remove_devices w devnum path s) := by
  unfold remove_devices
  cases path with
  | none => exact Extends.refl _ _
  | some p =>
    simp only
    generalize (if devnum ≥ 0 then "/dev/md" ++ fmt_d devnum
      else "/dev/md_d" ++ fmt_d (-1 - devnum)) = base
    generalize List.range 16 = l
    induction l generalizing s with
    | nil => exact Extends.refl _ _
    | cons a l ih =>
      simp only [List.foldl_cons]
      refine Extends.trans ?_ (ih _)
      unfold remove_devices_part
      exact Extends.ite (Extends.emit _ (Extends.refl _ _) ⟨rfl, rfl⟩) (Extends.refl _ _)

/-- The `STOP_ARRAY` loop when the call is busy `n` times and then succeeds,
with more than `n` attempts allowed. -/
theorem stop_array_retry_success (K : Consts) (w : World) (fd : Int) (hfd : fd ≥ 0) (n : Nat) :
    ∀ (count : Nat) (err : Int) (s : State), n < count →
    (∀ st : State, stop_attempts st.log < stop_attempts s.log + n →
      (w.ioctl_STOP_ARRAY st fd).1 < 0 ∧ (w.ioctl_STOP_ARRAY st fd).2 = K.EBUSY) →
    (∀ st : State, stop_attempts st.log = stop_attempts s.log + n →
      (w.ioctl_STOP_ARRAY st fd).1 = 0) →
    (stop_array_retry K w fd count err s).1 = 0 ∧
    (stop_array_retry K w fd count err s).2.log =
      s.log ++ busy_rounds fd n ++ [Event.ioctl_STOP_ARRAY fd] := by
  induction n with
  | zero =>
    intro count err s hc _ hsucc
    cases count with
    | zero => omega
    | succ c =>
      unfold stop_array_retry
      have h0 := hsucc s (by simp)
      simp [hfd, h0, State.call, busy_rounds]
  | succ n ih =>
    intro count err s hc hbusy hsucc
    cases count with
    | zero => omega
    | succ c =>
      unfold stop_array_retry
      have hb := hbusy s (by omega)
      simp only [hfd, if_true, State.call, hb.1, hb.2, and_self]
      have hat : stop_attempts (s.log ++ [Event.ioctl_STOP_ARRAY fd] ++ [Event.usleep 200000])
          = stop_attempts s.log + 1 := by
        simp [stop_attempts, List.countP_append, is_stop_array]
      have := ih c (w.ioctl_STOP_ARRAY s fd).1
        (State.emit { log := s.log ++ [Event.ioctl_STOP_ARRAY fd], errno := K.EBUSY }
          (Event.usleep 200000)) (by omega)
        (fun st h => hbusy st (by simp only [State.emit] at h; rw [hat] at h; omega))
        (fun st h => hsucc st (by simp only [State.emit] at h; rw [hat] at h; omega))
      refine ⟨this.1, ?_⟩
      rw [this.2]
      simp [State.emit, busy_rounds]

/-- The `STOP_ARRAY` loop when the call is busy every time: `count` attempts,
each followed by the sleep, and `errno` left at EBUSY. -/
theorem stop_array_retry_busy (K : Consts) (w : World) (fd : Int) (hfd : fd ≥ 0)
    (hbusy : ∀ st : State,
      (w.ioctl_STOP_ARRAY st fd).1 < 0 ∧ (w.ioctl_STOP_ARRAY st fd).2 = K.EBUSY) :
    ∀ (count : Nat) (err : Int) (s : State), 0 < count →
    (stop_array_retry K w fd count err s).1 < 0 ∧
    (stop_array_retry K w fd count err s).2.errno = K.EBUSY ∧
    (stop_array_retry K w fd count err s).2.log = s.log ++ busy_rounds fd count := by
  intro count
  induction count with
  | zero => intro err s h; omega
  | succ c ih =>
    intro err s _
    unfold stop_array_retry
    have hb := hbusy s
    simp only [hfd, if_true, State.call, hb.1, hb.2, and_self]
    cases c with
    | zero => simp [stop_array_retry, State.emit, busy_rounds, hb.1]
    | succ c =>
      have := ih (w.ioctl_STOP_ARRAY s fd).1
        (State.emit { log := s.log ++ [Event.ioctl_STOP_ARRAY fd], errno := K.EBUSY }
          (Event.usleep 200000)) (by omega)
      refine ⟨this.1, this.2.1, ?_⟩
      rw [this.2.2]
      simp [State.emit, busy_rounds]

/-- The descriptor with which the `STOP_ARRAY` loop is entered is open. -/
theorem Manage_runstop_prepare_fd (K : Consts) (w : World) (devname : String)
    (fd verbose : Int) (s : State) (fd1 devnum : Int) (mdi : Option mdinfo) (s1 : State)
    (h : Manage_runstop_prepare K w devname fd verbose s = StopPrep.go fd1 devnum mdi s1) :
    fd1 ≥ 0 := by
  unfold Manage_runstop_prepare at h
  simp only at h
  split at h
  · simp at h
  · rename_i hc
    simp only [not_or, not_lt] at hc
    split at h
    · simp only [StopPrep.go.injEq] at h
      rw [← h.1]; exact hc.1
    · split at h
      · split at h
        · simp at h
        · split at h
          · simp at h
          · rename_i hf
            simp only [StopPrep.go.injEq] at h
            rw [← h.1]; exact not_lt.mp hf
      · split at h
        · split at h
          · simp at h
          · simp only [StopPrep.go.injEq] at h
            rw [← h.1]; exact hc.1
        · simp only [StopPrep.go.injEq] at h
          rw [← h.1]; exact hc.1

/-- After a successful `STOP_ARRAY` the function returns 0 and neither
sleeps nor stops again. -/
theorem Manage_runstop_finish_stopped (K : Consts) (w : World) (devname : String)
    (verbose fd devnum : Int) (mdi : Option mdinfo) (s : State) :
    (Manage_runstop_finish K w devname verbose fd devnum mdi 0 s).1 = 0 ∧
    Extends quiet s (Manage_runstop_finish K w devname verbose fd devnum mdi 0 s).2 := by
  unfold Manage_runstop_finish
  simp only [ne_eq, not_true_eq_false, and_false, if_false, true_and]
  repeat' first
    | exact Extends.refl _ _
    | exact ⟨rfl, rfl⟩
    | refine Extends.emit _ ?_ ?_
    | refine Extends.pr_err _ ?_ ?_
    | refine Extends.ite ?_ ?_
    | refine Extends.trans ?_ (remove_devices_quiet _ _ _ _)
    | split


/-- A stop request on an md driver 0.90.0 or later runs lines 214-358. -/
theorem Manage_runstop_stop_branch (K : Consts) (w : World) (devname : String)
    (fd runstop verbose will_retry : Int) (s : State)
    (hrun : runstop < 0) (hver : ¬ w.md_get_version s fd < 9000) :
    Manage_runstop K w devname fd runstop verbose will_retry s =
      match Manage_runstop_prepare K w devname fd
          (if will_retry ≠ 0 ∧ verbose = 0 then -1 else verbose) s with
      | StopPrep.done rv s => (rv, s)
      | StopPrep.go fd devnum mdi s =>
        Manage_runstop_finish K w devname
          (if will_retry ≠ 0 ∧ verbose = 0 then -1 else verbose) fd devnum mdi
          (stop_array_retry K w fd 25 0 s).1 (stop_array_retry K w fd 25 0 s).2 := by
  unfold Manage_runstop
  have h1 : ¬ runstop > 0 := by omega
  simp only [hver, and_false, if_false, h1, hrun, if_true]

/-- C6: a stop request that reaches the `STOP_ARRAY` loop with the exclusive
descriptor `fd1` in state `s1`.  If the call fails with EBUSY on its first
`n < 25` attempts and succeeds on the next, the loop issues `n` failing calls,
each followed by a sleep of 200000 microseconds, then the successful call;
`Manage_runstop` returns 0 and neither sleeps nor calls `STOP_ARRAY` again.
If the call fails with EBUSY on every attempt, the loop issues exactly 25
calls (each followed by the sleep), `Manage_runstop` returns 1 and, when
`verbose` (as lowered by `will_retry`) is at least 0, prints the failure and
the busy-specific hint. -/
theorem Manage_runstop_stop_retry (K : Consts) (w : World) (devname : String)
    (fd runstop verbose will_retry : Int) (s : State)
    (fd1 devnum : Int) (mdi : Option mdinfo) (s1 : State)
    (hrun : runstop < 0) (hver : ¬ w.md_get_version s fd < 9000)
    (hprep : Manage_runstop_prepare K w devname fd
        (if will_retry ≠ 0 ∧ verbose = 0 then -1 else verbose) s =
      StopPrep.go fd1 devnum mdi s1) :
    (∀ n : Nat, n < 25 →
      (∀ st : State, stop_attempts st.log < stop_attempts s1.log + n →
        (w.ioctl_STOP_ARRAY st fd1).1 < 0 ∧ (w.ioctl_STOP_ARRAY st fd1).2 = K.EBUSY) →
      (∀ st : State, stop_attempts st.log = stop_attempts s1.log + n →
        (w.ioctl_STOP_ARRAY st fd1).1 = 0) →
      (Manage_runstop K w devname fd runstop verbose will_retry s).1 = 0 ∧
      ∃ rest, (Manage_runstop K w devname fd runstop verbose will_retry s).2.log =
          s1.log ++ busy_rounds fd1 n ++ Event.ioctl_STOP_ARRAY fd1 :: rest ∧
        ∀ e ∈ rest, quiet e) ∧
    ((∀ st : State,
        (w.ioctl_STOP_ARRAY st fd1).1 < 0 ∧ (w.ioctl_STOP_ARRAY st fd1).2 = K.EBUSY) →
      (Manage_runstop K w devname fd runstop verbose will_retry s).1 = 1 ∧
      (Manage_runstop K w devname fd runstop verbose will_retry s).2.log =
        s1.log ++ busy_rounds fd1 25 ++
          (if (if will_retry ≠ 0 ∧ verbose = 0 then -1 else verbose) ≥ 0 then
            [Event.pr_err ("failed to stop array " ++ devname ++ ": " ++
                w.strerror K.EBUSY ++ "\n"),
              Event.fprintf_stderr
                "Perhaps a running process, mounted filesystem or active volume group?\n"]
          else [])) := by
  have hfd := Manage_runstop_prepare_fd K w devname fd _ s fd1 devnum mdi s1 hprep
  rw [Manage_runstop_stop_branch K w devname fd runstop verbose will_retry s hrun hver, hprep]
  simp only
  constructor
  · intro n hn hbusy hsucc
    have hl := stop_array_retry_success K w fd1 hfd n 25 0 s1 hn hbusy hsucc
    rw [hl.1]
    have hf := Manage_runstop_finish_stopped K w devname
      (if will_retry ≠ 0 ∧ verbose = 0 then -1 else verbose) fd1 devnum mdi
      (stop_array_retry K w fd1 25 0 s1).2
    refine ⟨hf.1, ?_⟩
    obtain ⟨rest, hr, hq⟩ := hf.2
    refine ⟨rest, ?_, hq⟩
    rw [hr, hl.2]
    simp
  · intro hbusy
    have hl := stop_array_retry_busy K w fd1 hfd hbusy 25 0 s1 (by decide)
    unfold Manage_runstop_finish
    have hne : (stop_array_retry K w fd1 25 0 s1).1 ≠ 0 := by omega
    simp only [hfd, hne, ne_eq, not_false_eq_true, and_self, if_true]
    by_cases hv : (if will_retry ≠ 0 ∧ verbose = 0 then -1 else verbose) ≥ 0
    · simp only [hv, if_true, State.pr_err, State.emit, hl.2.1, hl.2.2]
      simp
    · simp only [hv, if_false, hl.2.2]
      simp

/-- C7: a stop request (`runstop < 0`, md driver 0.90.0 or later, exclusive
access obtained) on a device that sysfs reports as a container, when mdstat
lists an array whose metadata version is "external:" followed by a subarray
reference that names this container: `Manage_runstop` returns 1, names the
first such member in its message when `verbose` (as lowered by `will_retry`)
is at least 0, and issues no `STOP_ARRAY` call. -/
theorem Manage_runstop_container_with_member (K : Consts) (w : World) (devname : String)
    (fd runstop verbose will_retry : Int) (s : State) (mdi : mdinfo)
    (hrun : runstop < 0) (hver : ¬ w.md_get_version s fd < 9000)
    (hopen : w.open_excl (s.emit (Event.close fd)) devname ≥ 0 ∧
      w.fd2devnum ((s.emit (Event.close fd)).emit (Event.open_excl devname))
        (w.open_excl (s.emit (Event.close fd)) devname) = w.fd2devnum s fd)
    (hmdi : w.sysfs_read ((s.emit (Event.close fd)).emit (Event.open_excl devname))
      (w.open_excl (s.emit (Event.close fd)) devname) (-1) ["GET_LEVEL", "GET_VERSION"] =
        some mdi)
    (hcont : mdi.major_version = -1 ∧ mdi.minor_version = -2 ∧
      w.is_subarray mdi.text_version = false)
    (hmember : ∃ m ∈ w.mdstat_read
        (((s.emit (Event.close fd)).emit (Event.open_excl devname)).emit
          (Event.ping_monitor mdi.sys_name)),
      is_member_of w (w.fd2devnum s fd) m = true) :
    ∃ m ∈ w.mdstat_read
        (((s.emit (Event.close fd)).emit (Event.open_excl devname)).emit
          (Event.ping_monitor mdi.sys_name)),
      is_member_of w (w.fd2devnum s fd) m = true ∧
      (Manage_runstop K w devname fd runstop verbose will_retry s).1 = 1 ∧
      (Manage_runstop K w devname fd runstop verbose will_retry s).2.log =
        s.log ++ [Event.close fd, Event.open_excl devname, Event.ping_monitor mdi.sys_name] ++
          (if (if will_retry ≠ 0 ∧ verbose = 0 then -1 else verbose) ≥ 0 then
            [Event.pr_err ("Cannot stop container " ++ devname ++ ": member " ++ m.dev ++
              " still active\n")]
          else []) ∧
      stop_attempts (Manage_runstop K w devname fd runstop verbose will_retry s).2.log =
        stop_attempts s.log := by
  obtain ⟨m0, hm0, hp0⟩ := hmember
  have hfind : ∃ m, (w.mdstat_read
        (((s.emit (Event.close fd)).emit (Event.open_excl devname)).emit
          (Event.ping_monitor mdi.sys_name))).find? (is_member_of w (w.fd2devnum s fd))
        = some m := by
    cases hx : (w.mdstat_read
        (((s.emit (Event.close fd)).emit (Event.open_excl devname)).emit
          (Event.ping_monitor mdi.sys_name))).find? (is_member_of w (w.fd2devnum s fd)) with
    | some m => exact ⟨m, rfl⟩
    | none =>
      rw [List.find?_eq_none] at hx
      exact absurd hp0 (by simpa using hx m0 hm0)
  obtain ⟨m, hm⟩ := hfind
  refine ⟨m, List.mem_of_find?_eq_some hm, List.find?_some hm, ?_⟩
  rw [Manage_runstop_stop_branch K w devname fd runstop verbose will_retry s hrun hver]
  unfold Manage_runstop_prepare
  have hno : ¬ (w.open_excl (s.emit (Event.close fd)) devname < 0 ∨
      w.fd2devnum ((s.emit (Event.close fd)).emit (Event.open_excl devname))
        (w.open_excl (s.emit (Event.close fd)) devname) ≠ w.fd2devnum s fd) := by
    intro h
    rcases h with h | h
    · omega
    · exact h hopen.2
  simp only [hno, if_false, hmdi, hcont.1, hcont.2.1, hcont.2.2, Bool.false_eq_true,
    and_false, and_self, if_true, hm]
  by_cases hv : (if will_retry ≠ 0 ∧ verbose = 0 then -1 else verbose) ≥ 0
  · simp only [hv, if_true]
    simp [State.pr_err, State.emit, stop_attempts, List.countP_append, is_stop_array]
  · simp only [hv, if_false]
    simp [State.pr_err, State.emit, stop_attempts, List.countP_append, is_stop_array]


/-- C6, two instances: an array that is busy for three attempts is stopped
at the fourth, and one that stays busy is given up. -/
theorem Manage_runstop_stop_retry_witness :
    (Manage_runstop linux world_stop "/dev/md0" 3 (-1) 0 0 s0).1 = 0 ∧
    (Manage_runstop linux world_busy "/dev/md0" 3 (-1) 0 0 s0).1 = 1 :=
  ⟨((Manage_runstop_stop_retry linux world_stop "/dev/md0" 3 (-1) 0 0 s0 5 0 none
      { log := [Event.close 3, Event.open_excl "/dev/md0"], errno := 0 }
      (by decide) (by decide) (by decide)).1 3 (by decide)
      (fun st h => by
        have h3 : stop_attempts st.log < 3 := h
        simp [world_stop, h3, linux])
      (fun st h => by
        have h3 : stop_attempts st.log = 3 := h
        simp [world_stop, h3])).1,
   ((Manage_runstop_stop_retry linux world_busy "/dev/md0" 3 (-1) 0 0 s0 5 0 none
      { log := [Event.close 3, Event.open_excl "/dev/md0"], errno := 0 }
      (by decide) (by decide) (by decide)).2
      (fun st => by simp [world_busy, linux])).1⟩

/-- C7, an instance: the container md127 with the active member md126 is not
stopped. -/
theorem Manage_runstop_container_with_member_witness :
    ∃ m : mdstat_ent, m.dev = "md126" ∧
      (Manage_runstop linux world_container "/dev/md127" 3 (-1) 0 0 s0).1 = 1 ∧
      stop_attempts (Manage_runstop linux world_container "/dev/md127" 3 (-1) 0 0 s0).2.log
        = 0 := by
  obtain ⟨m, hm, _, h1, _, h3⟩ := Manage_runstop_container_with_member linux world_container
    "/dev/md127" 3 (-1) 0 0 s0 mdinfo_container
    (by decide) (by decide) (by decide) rfl (by decide)
    ⟨{ dev := "md126", metadata_version := some "external:/md127/0" }, by decide, by decide⟩
  refine ⟨m, ?_, h1, h3⟩
  have : m = { dev := "md126", metadata_version := some "external:/md127/0" } := by
    simpa [world_container] using hm
  rw [this]

/-! ## The loop of `Manage_subdevs`, round by round -/

theorem loop_nil (K : Consts) (w : World) (e : LoopEnv) (before : List mddev_dev)
    (v : LoopVars) (s : State) :
    Manage_subdevs_loop K w e before [] v s =
      { aborted := false, devlist := before, vars := v, s := s } := by
  rw [Manage_subdevs_loop]

/-- A round that ends in `goto abort` at a symbolic name. -/
theorem loop_abort_symbolic (K : Consts) (w : World) (e : LoopEnv)
    (before next : List mddev_dev) (dv : mddev_dev) (v : LoopVars) (s s1 : State)
    (h : resolve_symbolic K w e.fd dv s = Resolved.abort s1) :
    Manage_subdevs_loop K w e before (dv :: next) v s =
      { aborted := true, devlist := before ++ dv :: next, vars := v, s := s1 } := by
  rw [Manage_subdevs_loop]
  split <;> simp_all

/-- A round that skips a symbolic name. -/
theorem loop_skip (K : Consts) (w : World) (e : LoopEnv)
    (before next : List mddev_dev) (dv : mddev_dev) (v : LoopVars) (s s1 : State)
    (h : resolve_symbolic K w e.fd dv s = Resolved.skip s1) :
    Manage_subdevs_loop K w e before (dv :: next) v s =
      Manage_subdevs_loop K w e (before ++ [dv]) next v s1 := by
  rw [Manage_subdevs_loop]
  split <;> simp_all

/-- A round that expands a symbolic name. -/
theorem loop_expand (K : Consts) (w : World) (e : LoopEnv)
    (before next ins : List mddev_dev) (dv : mddev_dev) (v : LoopVars) (s s1 : State)
    (h : resolve_symbolic K w e.fd dv s = Resolved.expand ins s1) :
    Manage_subdevs_loop K w e before (dv :: next) v s =
      Manage_subdevs_loop K w e (before ++ [dv]) (ins ++ next) v s1 := by
  rw [Manage_subdevs_loop]
  split <;> simp_all

/-- A round that handles a concrete entry and goes on. -/
theorem loop_next (K : Consts) (w : World) (e : LoopEnv)
    (before next : List mddev_dev) (dv : mddev_dev) (v v1 : LoopVars) (s s1 : State)
    (h : resolve_symbolic K w e.fd dv s = Resolved.concrete)
    (hs : concrete_step K w e dv v s = Step.next v1 s1) :
    Manage_subdevs_loop K w e before (dv :: next) v s =
      Manage_subdevs_loop K w e (before ++ [dv]) next v1 s1 := by
  rw [Manage_subdevs_loop]
  split <;> simp_all

/-- A round that ends in `goto abort` at a concrete entry. -/
theorem loop_abort_step (K : Consts) (w : World) (e : LoopEnv)
    (before next : List mddev_dev) (dv : mddev_dev) (v v1 : LoopVars) (s s1 : State)
    (h : resolve_symbolic K w e.fd dv s = Resolved.concrete)
    (hs : concrete_step K w e dv v s = Step.abort v1 s1) :
    Manage_subdevs_loop K w e before (dv :: next) v s =
      { aborted := true, devlist := before ++ dv :: next, vars := v1, s := s1 } := by
  rw [Manage_subdevs_loop]
  split <;> simp_all

/-- The loop run from a configuration is the loop run from any configuration
it reaches. -/
theorem reaches_loop (K : Consts) (w : World) (e : LoopEnv)
    (x y : List mddev_dev × List mddev_dev × LoopVars × State) (h : Reaches K w e x y) :
    Manage_subdevs_loop K w e x.1 x.2.1 x.2.2.1 x.2.2.2 =
      Manage_subdevs_loop K w e y.1 y.2.1 y.2.2.1 y.2.2.2 := by
  induction h with
  | here x => rfl
  | skip before next dv v s s1 y h _ ih => rw [← ih]; exact loop_skip K w e before next dv v s s1 h
  | expand before next ins dv v s s1 y h _ ih =>
    rw [← ih]; exact loop_expand K w e before next ins dv v s s1 h
  | next before next dv v v1 s s1 y h hs _ ih =>
    rw [← ih]; exact loop_next K w e before next dv v v1 s s1 h hs

/-- A symbolic name with a wrong disposition is answered by a message and
`goto abort`. -/
theorem resolve_bad_symbolic (K : Consts) (w : World) (fd : Int) (dv : mddev_dev) (s : State)
    (h : bad_symbolic dv) :
    ∃ msg, resolve_symbolic K w fd dv s = Resolved.abort (s.pr_err msg) := by
  unfold resolve_symbolic
  rcases h with ⟨hn, hd⟩ | ⟨hn, hd1, hd2⟩ | ⟨hn, hd⟩
  · simp only [hn, if_true, hd, ne_eq, not_false_eq_true]
    exact ⟨_, rfl⟩
  · have h1 : ¬ (dv.devname = "failed" ∨ dv.devname = "faulty") := by rw [hn]; decide
    simp only [h1, if_false, hn, if_true, hd1, hd2, ne_eq, not_false_eq_true, and_self]
    exact ⟨_, rfl⟩
  · have h1 : ¬ (dv.devname = "failed" ∨ dv.devname = "faulty") := by rw [hn]; decide
    have h2 : ¬ dv.devname = "detached" := by rw [hn]; decide
    simp only [h1, if_false, h2, hn, if_true, hd, ne_eq, not_false_eq_true]
    exact ⟨_, rfl⟩



/-- The text "major:minor" holds a colon. -/
theorem fmt_dev_has_colon (a b : Int) : ':' ∈ (fmt_dev a b).data := by
  simp [fmt_dev]

/-- An entry named "major:minor" is concrete. -/
theorem resolve_new_dev (K : Consts) (w : World) (fd : Int) (a b : Int) (disp : Char)
    (s : State) : resolve_symbolic K w fd (new_dev w a b disp) s = Resolved.concrete := by
  have h1 := fmt_dev_ne_of_no_colon a b "failed" (by decide)
  have h2 := fmt_dev_ne_of_no_colon a b "faulty" (by decide)
  have h3 := fmt_dev_ne_of_no_colon a b "detached" (by decide)
  have h4 := fmt_dev_ne_of_no_colon a b "missing" (by decide)
  simp [resolve_symbolic, new_dev, h1, h2, h3, h4]

/-- The `switch` for disposition 'r' on a native array when `HOT_REMOVE_DISK`
succeeds. -/
theorem apply_remove (K : Consts) (w : World) (e : LoopEnv) (dv : mddev_dev) (v : LoopVars)
    (s : State) (hdisp : dv.disposition = 'r') (hsub : e.subarray = none)
    (hext : v.tst.external = false) (hsys : v.sysfd < 0)
    (hrm : (w.ioctl_HOT_REMOVE_DISK s e.fd v.stb.st_rdev).1 = 0) :
    apply_disposition K w e dv v s =
      Step.next { v with sysfd := -1, count := v.count + 1 }
        (if e.verbose ≥ 0 then
          (s.call (Event.ioctl_HOT_REMOVE_DISK e.fd v.stb.st_rdev)
            (w.ioctl_HOT_REMOVE_DISK s e.fd v.stb.st_rdev).2).pr_err
            ("hot removed " ++ dv.devname ++ " from " ++ e.devname ++ "\n")
        else s.call (Event.ioctl_HOT_REMOVE_DISK e.fd v.stb.st_rdev)
            (w.ioctl_HOT_REMOVE_DISK s e.fd v.stb.st_rdev).2) := by
  have hnsys : ¬ v.sysfd ≥ 0 := by omega
  have h1 : ¬ (dv.disposition = 'a' ∨ dv.disposition = 'A' ∨ dv.disposition = 'M') := by
    rw [hdisp]; decide
  unfold apply_disposition
  simp only [h1, if_false, hdisp, if_true, hsub, Option.isSome_none, Bool.false_eq_true]
  unfold Manage_remove
  simp only [hext, Bool.false_eq_true, if_false, hnsys, hrm, ne_eq, not_true_eq_false,
    false_and]
  by_cases hv : e.verbose ≥ 0
  · simp [hv]
  · simp [hv]

/-- One round of the loop for the entry of a removable member. -/
theorem remove_round (K : Consts) (w : World) (e : LoopEnv) (d : Int × Int) (v : LoopVars)
    (s : State) (hd : removable K w e.fd d) (hsub : e.subarray = none)
    (hext : v.tst.external = false) (hsys : v.sysfd < 0) :
    ∃ v1 s1, concrete_step K w e (new_dev w d.1 d.2 'r') v s = Step.next v1 s1 ∧
      v1.count = v.count + 1 ∧ v1.sysfd < 0 ∧ v1.tst = v.tst ∧ v1.frozen = v.frozen ∧
      s1.log.filter is_mutating =
        s.log.filter is_mutating ++ [Event.ioctl_HOT_REMOVE_DISK e.fd (w.makedev d.1 d.2)] := by
  obtain ⟨hopen, hstat, hrm⟩ := hd
  have ho := hopen s
  obtain ⟨stt, hst1, hst2, hst3⟩ := hstat s
    (s.call (Event.dev_open (fmt_dev d.1 d.2) OFlags.O_RDONLY)
      (w.dev_open s (fmt_dev d.1 d.2) OFlags.O_RDONLY).2)
  have hcol := fmt_dev_has_colon d.1 d.2
  have hneg : ¬ (w.dev_open s (fmt_dev d.1 d.2) OFlags.O_RDONLY).1 < 0 := by omega
  have hloc : ∃ s2, locate_device K w e (new_dev w d.1 d.2 'r') v s =
      Sum.inr ({ v with stb := stt, tfd := -1 }, s2) ∧
      s2.log.filter is_mutating = s.log.filter is_mutating := by
    refine ⟨State.emit (State.mk (s.log ++ [Event.dev_open (fmt_dev d.1 d.2) OFlags.O_RDONLY])
        (w.fstat (s.call (Event.dev_open (fmt_dev d.1 d.2) OFlags.O_RDONLY)
          (w.dev_open s (fmt_dev d.1 d.2) OFlags.O_RDONLY).2)
          (w.dev_open s (fmt_dev d.1 d.2) OFlags.O_RDONLY).1).2)
        (Event.close (w.dev_open s (fmt_dev d.1 d.2) OFlags.O_RDONLY).1), ?_, ?_⟩
    · unfold locate_device
      simp only [new_dev, hcol, not_true_eq_false, and_false, false_and, if_false, hneg, hst1,
        hst3, ne_eq, not_true_eq_false]
      rfl
    · simp [State.call, State.emit, is_mutating]
  obtain ⟨s2, hloc, hs2⟩ := hloc
  have happ := apply_remove K w e (new_dev w d.1 d.2 'r') { v with stb := stt, tfd := -1 } s2
    rfl hsub hext hsys (by simp only [hst2]; exact hrm _)
  unfold concrete_step
  rw [hloc]
  simp only
  refine ⟨_, _, happ, rfl, by simp, rfl, rfl, ?_⟩
  by_cases hv : e.verbose ≥ 0
  · simp [hv, State.call, State.emit, State.pr_err, is_mutating, hst2, hs2]
  · simp [hv, State.call, State.emit, State.pr_err, is_mutating, hst2, hs2]

/-- The entries of the members `l` are removed one after the other. -/
theorem remove_rounds (K : Consts) (w : World) (e : LoopEnv) (hsub : e.subarray = none)
    (l : List (Int × Int)) :
    ∀ (before : List mddev_dev) (v : LoopVars) (s : State),
    (∀ d ∈ l, removable K w e.fd d) → v.tst.external = false → v.sysfd < 0 →
    ∃ r, Manage_subdevs_loop K w e before (l.map (fun d => new_dev w d.1 d.2 'r')) v s = r ∧
      r.aborted = false ∧ r.devlist = before ++ l.map (fun d => new_dev w d.1 d.2 'r') ∧
      r.vars.count = v.count + l.length ∧ r.vars.frozen = v.frozen ∧
      r.s.log.filter is_mutating = s.log.filter is_mutating ++
        l.map (fun d => Event.ioctl_HOT_REMOVE_DISK e.fd (w.makedev d.1 d.2)) := by
  induction l with
  | nil =>
    intro before v s _ _ _
    exact ⟨_, rfl, by simp [loop_nil]⟩
  | cons d l ih =>
    intro before v s hall hext hsys
    obtain ⟨v1, s1, hstep, hc, hs1, ht, hf, hlog⟩ := remove_round K w e d v s
      (hall d (List.mem_cons_self _ _)) hsub hext hsys
    obtain ⟨r, hr, h1, h2, h3, h4, h5⟩ := ih (before ++ [new_dev w d.1 d.2 'r']) v1 s1
      (fun x hx => hall x (List.mem_cons_of_mem _ hx)) (by rw [ht]; exact hext) hs1
    refine ⟨r, ?_, h1, ?_, ?_, ?_, ?_⟩
    · rw [← hr, List.map_cons]
      exact loop_next K w e before _ _ v v1 s s1 (resolve_new_dev K w e.fd _ _ _ s) hstep
    · rw [h2]; simp
    · rw [h3, hc]; simp; ring
    · rw [h4, hf]
    · rw [h5, hlog]; simp

/-- The result of `Manage_subdevs` is decided by the loop run from any
configuration the loop reaches. -/
theorem Manage_subdevs_at (K : Consts) (w : World) (devname : String) (fd : Int)
    (devlist : List mddev_dev) (verbose test : Int) (update : Option String) (force : Int)
    (s : State) (array : mdu_array_info_t) (tst : supertype) (subarray : Option String)
    (x : List mddev_dev × List mddev_dev × LoopVars × State)
    (hinfo : w.ioctl_GET_ARRAY_INFO s fd = some array)
    (hst : w.super_by_fd s fd = some (tst, subarray))
    (hreach : Reaches K w (loop_env w devname fd verbose update force array subarray s)
      ([], devlist, loop_vars0 w tst, s) x) :
    Manage_subdevs K w devname fd devlist verbose test update force s =
      Manage_subdevs_end w (loop_env w devname fd verbose update force array subarray s) test
        (Manage_subdevs_loop K w (loop_env w devname fd verbose update force array subarray s)
          x.1 x.2.1 x.2.2.1 x.2.2.2) := by
  unfold Manage_subdevs
  rw [hinfo]
  simp only [hst]
  rw [reaches_loop K w _ _ _ hreach]


/-- What `Manage_subdevs` returns and records once its loop has reached a
symbolic name with a wrong disposition. -/
theorem Manage_subdevs_abort_at (K : Consts) (w : World) (devname : String)
    (fd : Int) (devlist : List mddev_dev) (verbose test : Int) (update : Option String)
    (force : Int) (s : State) (array : mdu_array_info_t) (tst : supertype)
    (subarray : Option String) (before next : List mddev_dev) (dv : mddev_dev)
    (v : LoopVars) (s1 : State)
    (hinfo : w.ioctl_GET_ARRAY_INFO s fd = some array)
    (hst : w.super_by_fd s fd = some (tst, subarray))
    (hreach : Reaches K w (loop_env w devname fd verbose update force array subarray s)
      ([], devlist, loop_vars0 w tst, s) (before, dv :: next, v, s1))
    (hbad : bad_symbolic dv) :
    (Manage_subdevs K w devname fd devlist verbose test update force s).rv = 1 ∧
    (Manage_subdevs K w devname fd devlist verbose test update force s).devlist =
      before ++ dv :: next ∧
    ∃ msg, (Manage_subdevs K w devname fd devlist verbose test update force s).s.log =
      s1.log ++ Event.pr_err msg ::
        (if v.frozen > 0 then
          [Event.sysfs_set_str (w.sysfs_init s fd 0).sys_name none "sync_action" "idle"]
        else []) := by
  rw [Manage_subdevs_at K w devname fd devlist verbose test update force s array tst subarray
    _ hinfo hst hreach]
  obtain ⟨msg, hmsg⟩ := resolve_bad_symbolic K w fd dv s1 hbad
  have hl := loop_abort_symbolic K w (loop_env w devname fd verbose update force array
    subarray s) before next dv v s1 (s1.pr_err msg) hmsg
  simp only [hl, Manage_subdevs_end, if_true]
  refine ⟨trivial, trivial, msg, ?_⟩
  by_cases hf : v.frozen > 0
  · simp [hf, State.call, State.pr_err, State.emit, loop_env]
  · simp [hf, State.pr_err, State.emit]

/-- The list `add_faulty` leaves behind `dv` when `nr_disks` covers the
occupied slots. -/
theorem add_faulty_eq (K : Consts) (w : World) (s : State) (fd : Int)
    (next : List mddev_dev) (array : mdu_array_info_t)
    (hinfo : w.ioctl_GET_ARRAY_INFO s fd = some array)
    (hcov : (occupied_count w s fd K.MAX_DISKS : Int) ≤ array.nr_disks) :
    add_faulty K w next fd 'r' s =
      (faulty_slots w s fd K.MAX_DISKS).map (slot_entry w s fd 'r') ++ next := by
  unfold add_faulty
  rw [hinfo]
  simp only
  rw [add_faulty_scan_eq w s fd 'r' K.MAX_DISKS 0 array.nr_disks
    (by rw [← List.range_eq_range']; exact hcov), ← List.range_eq_range']
  rfl

/-! ## C8, C9, C10: `Manage_subdevs` -/

/-- C8 (amended): for a non-external array (array info readable, a native
metadata handler, not a member array) whose `nr_disks` is at least the number
of occupied slots below `MAX_DISKS`, whose list F of occupied faulty slots
below `MAX_DISKS` is not empty, and each of whose faulty members opens as a
block device with its own device number and is removed successfully:
`Manage_subdevs` called with the single entry ("faulty", 'r') issues, as its
only mutating calls, one `HOT_REMOVE_DISK` per member of F with that member's
device number, in slot order; it ends with `count` equal to the length of F
and returns 0, whatever the test flag; the list is the entry followed by the
entries of F. -/
theorem Manage_subdevs_remove_faulty (K : Consts) (w : World) (devname : String) (fd : Int)
    (dv : mddev_dev) (verbose test : Int) (update : Option String) (force : Int) (s : State)
    (array : mdu_array_info_t) (tst : supertype)
    (hname : dv.devname = "faulty") (hdisp : dv.disposition = 'r')
    (hinfo : w.ioctl_GET_ARRAY_INFO s fd = some array)
    (hst : w.super_by_fd s fd = some (tst, none))
    (hext : tst.external = false)
    (hcov : (occupied_count w s fd K.MAX_DISKS : Int) ≤ array.nr_disks)
    (hF : faulty_slots w s fd K.MAX_DISKS ≠ [])
    (hrem : ∀ i ∈ faulty_slots w s fd K.MAX_DISKS, removable K w fd (slot_dev w s fd i)) :
    (Manage_subdevs K w devname fd [dv] verbose test update force s).rv = 0 ∧
    (Manage_subdevs K w devname fd [dv] verbose test update force s).count =
      (faulty_slots w s fd K.MAX_DISKS).length ∧
    (Manage_subdevs K w devname fd [dv] verbose test update force s).devlist =
      dv :: (faulty_slots w s fd K.MAX_DISKS).map (slot_entry w s fd 'r') ∧
    (Manage_subdevs K w devname fd [dv] verbose test update force s).s.log.filter is_mutating =
      s.log.filter is_mutating ++ (faulty_slots w s fd K.MAX_DISKS).map
        (fun i => Event.ioctl_HOT_REMOVE_DISK fd
          (w.makedev (slot_dev w s fd i).1 (slot_dev w s fd i).2)) := by
  have hres : resolve_symbolic K w fd dv s =
      Resolved.expand (((faulty_slots w s fd K.MAX_DISKS).map (slot_dev w s fd)).map
        (fun d => new_dev w d.1 d.2 'r')) s := by
    unfold resolve_symbolic
    simp only [hname, hdisp, or_true, if_true, ne_eq, not_true_eq_false, if_false]
    rw [add_faulty_eq K w s fd [] array hinfo hcov]
    simp [slot_entry, Function.comp_def]
  have hreach : Reaches K w (loop_env w devname fd verbose update force array none s)
      ([], [dv], loop_vars0 w tst, s)
      ([] ++ [dv], ((faulty_slots w s fd K.MAX_DISKS).map (slot_dev w s fd)).map
        (fun d => new_dev w d.1 d.2 'r') ++ [], loop_vars0 w tst, s) :=
    Reaches.expand [] [] _ dv _ s s _ hres (Reaches.here _)
  rw [Manage_subdevs_at K w devname fd [dv] verbose test update force s array tst none
    _ hinfo hst hreach]
  simp only [List.append_nil, List.nil_append]
  obtain ⟨r, hr, h1, h2, h3, h4, h5⟩ := remove_rounds K w
    (loop_env w devname fd verbose update force array none s) rfl
    ((faulty_slots w s fd K.MAX_DISKS).map (slot_dev w s fd)) [dv] (loop_vars0 w tst) s
    (by
      intro d hd
      obtain ⟨i, hi, rfl⟩ := List.mem_map.mp hd
      exact hrem i hi)
    hext (by simp [loop_vars0])
  rw [hr]
  have hlen : (faulty_slots w s fd K.MAX_DISKS).length ≠ 0 := by
    intro h0
    exact hF (List.length_eq_zero.mp h0)
  have hcnt : r.vars.count = (faulty_slots w s fd K.MAX_DISKS).length := by
    rw [h3]; simp [loop_vars0]
  have hfz : ¬ r.vars.frozen > 0 := by rw [h4]; simp [loop_vars0]
  have hc0 : ¬ r.vars.count = 0 := by rw [hcnt]; exact_mod_cast hlen
  simp only [Manage_subdevs_end, hfz, if_false, h1, Bool.false_eq_true, hc0, and_false]
  refine ⟨trivial, hcnt, ?_, ?_⟩
  · rw [h2]; simp [slot_entry, Function.comp_def]
  · rw [h5]; simp [loop_env, Function.comp_def]


/-- In the example worlds the member 8:16 is removable. -/
theorem removable_world_remove (w : World) (hopen : w.dev_open = world_remove.dev_open)
    (hfstat : w.fstat = world_remove.fstat)
    (hmk : w.makedev = world_remove.makedev)
    (hrm : w.ioctl_HOT_REMOVE_DISK = world_remove.ioctl_HOT_REMOVE_DISK) :
    removable linux w 3 (8, 16) := by
  refine ⟨?_, ?_, ?_⟩
  · intro st; rw [hopen]; exact (by decide : (6 : Int) ≥ 0)
  · intro st st1
    refine ⟨{ st_mode := 24576, st_rdev := 2064 }, ?_, ?_, ?_⟩
    · rw [hfstat]; rfl
    · rw [hmk]; decide
    · decide
  · intro st; rw [hrm, hmk]; rfl

/-- C8, an instance: four raid disks, the faulty member 8:16; one hot-remove
of 8:16 (device number 2064), count 1, return value 0 with the test flag
set. -/
theorem Manage_subdevs_remove_faulty_witness :
    (Manage_subdevs linux world_remove "/dev/md0" 3 [dv_faulty_r] 0 1 none 0 s0).rv = 0 ∧
    (Manage_subdevs linux world_remove "/dev/md0" 3 [dv_faulty_r] 0 1 none 0 s0).count = 1 ∧
    (Manage_subdevs linux world_remove "/dev/md0" 3 [dv_faulty_r] 0 1 none 0 s0).s.log.filter
      is_mutating = [Event.ioctl_HOT_REMOVE_DISK 3 2064] := by
  have hF : faulty_slots world_remove s0 3 linux.MAX_DISKS = [1] := by decide
  have h := Manage_subdevs_remove_faulty linux world_remove "/dev/md0" 3 dv_faulty_r 0 1 none 0
    s0 array4 tst_native rfl rfl rfl rfl rfl (by decide) (by rw [hF]; decide)
    (by
      intro i hi
      rw [hF] at hi
      have h1 : i = 1 := by simpa using hi
      rw [h1]
      exact removable_world_remove world_remove rfl rfl rfl rfl)
  rw [hF] at h
  exact ⟨h.1, h.2.1, h.2.2.2⟩

/-- C8 as stated fails: with an array info that counts one disk the faulty
member 8:16 of slot 1, which would open and could be removed, gets no
`HOT_REMOVE_DISK` call; `count` stays 0 and, the test flag being set, the
return value is 2. -/
theorem Manage_subdevs_remove_faulty_misses_member :
    faulty_slot world_short_remove s0 3 1 = true ∧
    slot_dev world_short_remove s0 3 1 = (8, 16) ∧
    removable linux world_short_remove 3 (8, 16) ∧
    Manage_subdevs linux world_short_remove "/dev/md0" 3 [dv_faulty_r] 0 1 none 0 s0 =
      { rv := 2, devlist := [dv_faulty_r], count := 0, s := s0 } := by
  refine ⟨by decide, by decide, removable_world_remove world_short_remove rfl rfl rfl rfl, ?_⟩
  have hres : resolve_symbolic linux world_short_remove 3 dv_faulty_r s0 =
      Resolved.expand [] s0 := by decide
  rw [Manage_subdevs_at linux world_short_remove "/dev/md0" 3 [dv_faulty_r] 0 1 none 0 s0
    { array4 with nr_disks := 1 } tst_native none _ rfl rfl
    (Reaches.expand [] [] [] dv_faulty_r _ s0 s0 _ hres (Reaches.here _))]
  simp only [List.append_nil, List.nil_append]
  rw [loop_nil]
  decide

/-- C9: when the loop of `Manage_subdevs` reaches an entry named "faulty" or
"failed" whose disposition is not 'r', or "detached" whose disposition is
neither 'r' nor 'f', or "missing" whose disposition is not 'A', then
`Manage_subdevs` returns 1, the list is left as it was when the entry was
reached (no expansion), and after that point nothing is issued but the
message and, if the array had been frozen, the write of "idle" to
`sync_action`: no kernel or sysfs membership call for that entry or any
later one. -/
theorem Manage_subdevs_bad_symbolic_aborts (K : Consts) (w : World) (devname : String)
    (fd : Int) (devlist : List mddev_dev) (verbose test : Int) (update : Option String)
    (force : Int) (s : State) (array : mdu_array_info_t) (tst : supertype)
    (subarray : Option String) (before next : List mddev_dev) (dv : mddev_dev)
    (v : LoopVars) (s1 : State)
    (hinfo : w.ioctl_GET_ARRAY_INFO s fd = some array)
    (hst : w.super_by_fd s fd = some (tst, subarray))
    (hreach : Reaches K w (loop_env w devname fd verbose update force array subarray s)
      ([], devlist, loop_vars0 w tst, s) (before, dv :: next, v, s1))
    (hbad : bad_symbolic dv) :
    (Manage_subdevs K w devname fd devlist verbose test update force s).rv = 1 ∧
    (Manage_subdevs K w devname fd devlist verbose test update force s).devlist =
      before ++ dv :: next ∧
    ∃ msg, (Manage_subdevs K w devname fd devlist verbose test update force s).s.log =
      s1.log ++ Event.pr_err msg ::
        (if v.frozen > 0 then
          [Event.sysfs_set_str (w.sysfs_init s fd 0).sys_name none "sync_action" "idle"]
        else []) :=
  Manage_subdevs_abort_at K w devname fd devlist verbose test update force s array tst subarray
    before next dv v s1 hinfo hst hreach hbad

/-- C9, an instance: the entry ("faulty", 'a') aborts the call and stays as
it is. -/
theorem Manage_subdevs_bad_symbolic_aborts_witness :
    (Manage_subdevs linux world_remove "/dev/md0" 3 [dv_faulty_a] 0 0 none 0 s0).rv = 1 ∧
    (Manage_subdevs linux world_remove "/dev/md0" 3 [dv_faulty_a] 0 0 none 0 s0).devlist =
      [dv_faulty_a] := by
  have h := Manage_subdevs_bad_symbolic_aborts linux world_remove "/dev/md0" 3 [dv_faulty_a] 0 0 none 0
    s0 array4 tst_native none [] [] dv_faulty_a _ s0 rfl rfl (Reaches.here _)
    (Or.inl ⟨Or.inr rfl, by decide⟩)
  exact ⟨h.1, h.2.1⟩

/-- C10 (amended): a configuration error aborts `Manage_subdevs` without any
further state-mutating call, but what was done for earlier entries stands.
When the abort is for an unsupported metadata version, no mutating call has
been issued during the call; when it is for a bad symbolic-name/disposition
combination, the mutating calls of the whole call are those issued before
the loop reached the offending entry (none when it is the first entry). -/
theorem Manage_subdevs_config_error_mutates_nothing_more (K : Consts) (w : World)
    (devname : String) (fd : Int) (devlist : List mddev_dev) (verbose test : Int)
    (update : Option String) (force : Int) (s : State) (array : mdu_array_info_t)
    (hinfo : w.ioctl_GET_ARRAY_INFO s fd = some array) :
    (w.super_by_fd s fd = none →
      (Manage_subdevs K w devname fd devlist verbose test update force s).rv = 1 ∧
      (Manage_subdevs K w devname fd devlist verbose test update force s).s.log.filter
        is_mutating = s.log.filter is_mutating) ∧
    (∀ (tst : supertype) (subarray : Option String) (before next : List mddev_dev)
        (dv : mddev_dev) (v : LoopVars) (s1 : State),
      w.super_by_fd s fd = some (tst, subarray) →
      Reaches K w (loop_env w devname fd verbose update force array subarray s)
        ([], devlist, loop_vars0 w tst, s) (before, dv :: next, v, s1) →
      bad_symbolic dv →
      (Manage_subdevs K w devname fd devlist verbose test update force s).rv = 1 ∧
      (Manage_subdevs K w devname fd devlist verbose test update force s).s.log.filter
        is_mutating = s1.log.filter is_mutating) := by
  constructor
  · intro hnone
    unfold Manage_subdevs
    rw [hinfo]
    simp only [hnone]
    simp [State.pr_err, State.emit, is_mutating]
  · intro tst subarray before next dv v s1 hst hreach hbad
    obtain ⟨h1, _, msg, h3⟩ := Manage_subdevs_abort_at K w devname fd devlist
      verbose test update force s array tst subarray before next dv v s1 hinfo hst hreach hbad
    refine ⟨h1, ?_⟩
    rw [h3]
    by_cases hf : v.frozen > 0
    · simp [hf, is_mutating]
    · simp [hf, is_mutating]

/-- C10, an instance: the entry ("faulty", 'a') at the head of the list
aborts the call before anything was mutated. -/
theorem Manage_subdevs_config_error_mutates_nothing_more_witness :
    (Manage_subdevs linux world_remove "/dev/md0" 3 [dv_faulty_a] 0 0 none 0 s0).rv = 1 ∧
    (Manage_subdevs linux world_remove "/dev/md0" 3 [dv_faulty_a] 0 0 none 0 s0).s.log.filter
      is_mutating = [] :=
  (Manage_subdevs_config_error_mutates_nothing_more linux world_remove "/dev/md0" 3
    [dv_faulty_a] 0 0 none 0 s0 array4 rfl).2 tst_native none [] [] dv_faulty_a _ s0 rfl
    (Reaches.here _) (Or.inl ⟨Or.inr rfl, by decide⟩)

/-- C10 as stated fails: the list (`/dev/sdb` to remove, then "faulty" to
add) aborts on the configuration error of its second entry after
`HOT_REMOVE_DISK` was issued, successfully, for the first. -/
theorem Manage_subdevs_config_error_after_mutation :
    (Manage_subdevs linux world_remove "/dev/md0" 3 [dv_sdb_r, dv_faulty_a] 0 0 none 0 s0).rv
      = 1 ∧
    (Manage_subdevs linux world_remove "/dev/md0" 3 [dv_sdb_r, dv_faulty_a] 0 0 none 0
      s0).s.log =
      [Event.dev_open "/dev/sdb" OFlags.O_RDONLY, Event.close 6,
        Event.ioctl_HOT_REMOVE_DISK 3 2064,
        Event.pr_err "hot removed /dev/sdb from /dev/md0\n",
        Event.pr_err "faulty only meaningful with -r, not -a\n"] := by
  have hres : resolve_symbolic linux world_remove 3 dv_sdb_r s0 = Resolved.concrete := by
    decide
  have hstep : concrete_step linux world_remove
      (loop_env world_remove "/dev/md0" 3 0 none 0 array4 none s0) dv_sdb_r
      (loop_vars0 world_remove tst_native) s0 =
      Step.next (LoopVars.mk tst_native (stat_t.mk 24576 2064) (-1) (-1) 1 0)
        (State.mk [Event.dev_open "/dev/sdb" OFlags.O_RDONLY, Event.close 6,
            Event.ioctl_HOT_REMOVE_DISK 3 2064,
            Event.pr_err "hot removed /dev/sdb from /dev/md0\n"] 0) := by
    decide
  rw [Manage_subdevs_at linux world_remove "/dev/md0" 3 [dv_sdb_r, dv_faulty_a] 0 0 none 0 s0
    array4 tst_native none _ rfl rfl
    (Reaches.next [] [dv_faulty_a] dv_sdb_r _ _ s0 _ _ hres hstep (Reaches.here _))]
  simp only [List.nil_append]
  have habort : resolve_symbolic linux world_remove 3 dv_faulty_a
      (State.mk [Event.dev_open "/dev/sdb" OFlags.O_RDONLY, Event.close 6,
        Event.ioctl_HOT_REMOVE_DISK 3 2064,
        Event.pr_err "hot removed /dev/sdb from /dev/md0\n"] 0) =
      Resolved.abort (State.mk [Event.dev_open "/dev/sdb" OFlags.O_RDONLY, Event.close 6,
        Event.ioctl_HOT_REMOVE_DISK 3 2064,
        Event.pr_err "hot removed /dev/sdb from /dev/md0\n",
        Event.pr_err "faulty only meaningful with -r, not -a\n"] 0) := by
    decide
  rw [loop_abort_symbolic linux world_remove
    (loop_env world_remove "/dev/md0" 3 0 none 0 array4 none s0) [dv_sdb_r] [] dv_faulty_a _ _ _
    habort]
  decide

set_option maxHeartbeats 4000000

/-! ## C11: `Manage_subdevs`, the entry "missing" -/

/-- Runs of the loop compose. -/
theorem reaches_trans {K : Consts} {w : World} {e : LoopEnv}
    {x y z : List mddev_dev × List mddev_dev × LoopVars × State}
    (h1 : Reaches K w e x y) (h2 : Reaches K w e y z) : Reaches K w e x z := by
  induction h1 with
  | here x => exact h2
  | skip before next dv v s s1 y h _ ih => exact Reaches.skip before next dv v s s1 z h (ih h2)
  | expand before next ins dv v s s1 y h _ ih =>
    exact Reaches.expand before next ins dv v s s1 z h (ih h2)
  | next before next dv v v1 s s1 y h hs _ ih =>
    exact Reaches.next before next dv v v1 s s1 z h hs (ih h2)

/-- Lines 1027-1046 for an entry ("missing", 'A') when the pool is not
empty. -/
theorem resolve_missing (K : Consts) (w : World) (fd : Int) (dv : mddev_dev) (s : State)
    (hname : dv.devname = "missing") (hdisp : dv.disposition = 'A')
    (hpool : w.conf_get_devs s ≠ []) :
    resolve_symbolic K w fd dv s = Resolved.expand (mark_missing (w.conf_get_devs s)) s := by
  have h1 : ¬ (dv.devname = "failed" ∨ dv.devname = "faulty") := by rw [hname]; decide
  have h2 : ¬ dv.devname = "detached" := by rw [hname]; decide
  unfold resolve_symbolic
  simp only [h1, if_false, h2, hname, if_true, hdisp, ne_eq, not_true_eq_false]
  cases hp : w.conf_get_devs s with
  | nil => exact absurd hp hpool
  | cons d pool => rfl

/-- C11: when the loop of `Manage_subdevs` reaches an entry named "missing"
with disposition 'A' and `conf_get_devs` returns a pool that is not empty,
the round issues nothing and the loop goes on at the first pool entry with
this list: the entries up to and including "missing" (`before ++ [dv]`), then
every pool entry in pool order with its name (and its other fields) unchanged
and its disposition 'M', then the entries that followed "missing" (`next`),
unchanged and in their order.  The result of `Manage_subdevs` is that of the
loop run on from there. -/
theorem Manage_subdevs_missing_expands (K : Consts) (w : World) (devname : String)
    (fd : Int) (devlist : List mddev_dev) (verbose test : Int) (update : Option String)
    (force : Int) (s : State) (array : mdu_array_info_t) (tst : supertype)
    (subarray : Option String) (before next : List mddev_dev) (dv : mddev_dev)
    (v : LoopVars) (s1 : State)
    (hinfo : w.ioctl_GET_ARRAY_INFO s fd = some array)
    (hst : w.super_by_fd s fd = some (tst, subarray))
    (hreach : Reaches K w (loop_env w devname fd verbose update force array subarray s)
      ([], devlist, loop_vars0 w tst, s) (before, dv :: next, v, s1))
    (hname : dv.devname = "missing") (hdisp : dv.disposition = 'A')
    (hpool : w.conf_get_devs s1 ≠ []) :
    Reaches K w (loop_env w devname fd verbose update force array subarray s)
      ([], devlist, loop_vars0 w tst, s)
      (before ++ [dv], mark_missing (w.conf_get_devs s1) ++ next, v, s1) ∧
    (before ++ [dv]) ++ (mark_missing (w.conf_get_devs s1) ++ next) =
      before ++ dv :: ((w.conf_get_devs s1).map
        (fun d => mddev_dev.mk d.devname 'M' d.writemostly d.used) ++ next) ∧
    Manage_subdevs K w devname fd devlist verbose test update force s =
      Manage_subdevs_end w (loop_env w devname fd verbose update force array subarray s) test
        (Manage_subdevs_loop K w (loop_env w devname fd verbose update force array subarray s)
          (before ++ [dv]) (mark_missing (w.conf_get_devs s1) ++ next) v s1) := by
  have hres := resolve_missing K w fd dv s1 hname hdisp hpool
  have hr2 : Reaches K w (loop_env w devname fd verbose update force array subarray s)
      ([], devlist, loop_vars0 w tst, s)
      (before ++ [dv], mark_missing (w.conf_get_devs s1) ++ next, v, s1) :=
    reaches_trans hreach (Reaches.expand before next _ dv v s1 s1 _ hres (Reaches.here _))
  refine ⟨hr2, ?_, ?_⟩
  · simp [mark_missing]
  · exact Manage_subdevs_at K w devname fd devlist verbose test update force s array tst
      subarray _ hinfo hst hr2

/-- C11, an instance: ("missing", 'A') followed by `/dev/sdb`, with a pool of
`/dev/sdb` and `/dev/sdc`: the two pool entries, marked 'M', come between the
two. -/
theorem Manage_subdevs_missing_expands_witness :
    Reaches linux world_pool (loop_env world_pool "/dev/md0" 3 0 none 0 array4 none s0)
      ([], [dv_missing_A, dv_sdb_r], loop_vars0 world_pool tst_native, s0)
      ([dv_missing_A],
        [{ dv_sdb_r with disposition := 'M' }, { dv_sdc with disposition := 'M' }, dv_sdb_r],
        loop_vars0 world_pool tst_native, s0) :=
  (Manage_subdevs_missing_expands linux world_pool "/dev/md0" 3 [dv_missing_A, dv_sdb_r] 0 0
    none 0 s0 array4 tst_native none [] [dv_sdb_r] dv_missing_A _ s0 rfl rfl (Reaches.here _)
    rfl rfl (by decide)).1

/-! ## C12, C13: `Manage_add` without a template, and on a failed array -/

/-- With a readable size, a valid geometry and no direct hot-add, `Manage_add`
on a persistent or externally-managed array is lines 589-841. -/
theorem Manage_add_eq_persistent (K : Consts) (w : World) (fd tfd : Int) (dv : mddev_dev)
    (tst : supertype) (array : mdu_array_info_t) (force verbose : Int) (devname : String)
    (update : Option String) (rdev : Nat) (array_size : Nat) (s : State) (ldsize : Nat)
    (hsize : w.get_dev_size s tfd dv.devname = some ldsize)
    (hgeom : w.validate_geometry s tst array.level array.layout array.raid_disks
      (ldsize >>> 9) ≠ 0)
    (hnohot : ¬ (tst.external = false ∧ array.major_version = 0 ∧
      Int.tmod (w.md_get_version s fd) 100 < 2))
    (hpers : array.not_persistent = 0 ∨ tst.external = true) :
    Manage_add K w fd tfd dv tst array force verbose devname update rdev array_size s =
      Manage_add_persistent K w fd tfd dv tst array verbose devname update rdev array_size
        ldsize s := by
  unfold Manage_add
  rw [hsize]
  simp only [hgeom, false_and, if_false]
  unfold Manage_add_strategy
  rw [if_neg hnohot, if_pos hpers]

/-- C12 (amended): on a persistent or externally-managed array (size readable,
geometry valid, no direct hot-add) for which no template superblock can be
loaded, the absence is fatal exactly for a plain add: with disposition 'a'
`Manage_add` says "cannot load array metadata" and returns -1; with any other
disposition ('A', 'M') it is tolerated and `Manage_add` continues with the
size check of lines 630-638 and, past it, with the re-add of lines 640-841,
the kernel being left to check. -/
theorem Manage_add_missing_template (K : Consts) (w : World) (fd tfd : Int) (dv : mddev_dev)
    (tst : supertype) (array : mdu_array_info_t) (force verbose : Int) (devname : String)
    (update : Option String) (rdev : Nat) (array_size : Nat) (s : State) (ldsize : Nat)
    (hsize : w.get_dev_size s tfd dv.devname = some ldsize)
    (hgeom : w.validate_geometry s tst array.level array.layout array.raid_disks
      (ldsize >>> 9) ≠ 0)
    (hnohot : ¬ (tst.external = false ∧ array.major_version = 0 ∧
      Int.tmod (w.md_get_version s fd) 100 < 2))
    (hpers : array.not_persistent = 0 ∨ tst.external = true)
    (hnone : (Manage_add_template w fd tst (uninit_disc w) s).1.sb = none) :
    (dv.disposition = 'a' →
      Manage_add K w fd tfd dv tst array force verbose devname update rdev array_size s =
        (-1, (Manage_add_template w fd tst (uninit_disc w) s).1,
          (Manage_add_template w fd tst (uninit_disc w) s).2.2.pr_err
            ("cannot load array metadata from " ++ devname ++ "\n"))) ∧
    (dv.disposition ≠ 'a' →
      Manage_add K w fd tfd dv tst array force verbose devname update rdev array_size s =
        if w.avail_size (Manage_add_template w fd tst (uninit_disc w) s).1 (ldsize / 512)
            < array_size then
          if dv.disposition = 'M' then
            (0, (Manage_add_template w fd tst (uninit_disc w) s).1,
              (Manage_add_template w fd tst (uninit_disc w) s).2.2)
          else
            (-1, (Manage_add_template w fd tst (uninit_disc w) s).1,
              (Manage_add_template w fd tst (uninit_disc w) s).2.2.pr_err
                (dv.devname ++ " not large enough to join array\n"))
        else
          Manage_add_proceed K w fd tfd dv (Manage_add_template w fd tst (uninit_disc w) s).1
            array verbose devname update rdev
            (Manage_add_template w fd tst (uninit_disc w) s).2.1
            (Manage_add_template w fd tst (uninit_disc w) s).2.2) := by
  rw [Manage_add_eq_persistent K w fd tfd dv tst array force verbose devname update rdev
    array_size s ldsize hsize hgeom hnohot hpers]
  unfold Manage_add_persistent
  dsimp only
  constructor
  · intro ha
    have h1 : ¬ ((Manage_add_template w fd tst (uninit_disc w) s).1.sb.isNone = true ∧
        dv.disposition ≠ 'a') := fun h => h.2 ha
    rw [if_neg h1, if_pos (by rw [hnone]; rfl)]
  · intro ha
    rw [if_pos ⟨by rw [hnone]; rfl, ha⟩]

/-- C12, an instance: on the dead array the re-add of `/dev/sdc` (disposition
'A') goes on without a template and the kernel takes the device back. -/
theorem Manage_add_missing_template_witness :
    Manage_add linux world_dead 3 4 dv_sdc_A tst_native array_v090 0 0 "/dev/md0" none 2080
        2000 s0 =
      Manage_add_proceed linux world_dead 3 4 dv_sdc_A tst_native array_v090 0 "/dev/md0" none
        2080 (mdu_disk_info_t.mk 26 0 0 (-1) 8) s0 := by
  have h := (Manage_add_missing_template linux world_dead 3 4 dv_sdc_A tst_native array_v090 0 0
    "/dev/md0" none 2080 2000 s0 1024000 rfl (by decide) (by decide) (Or.inl rfl)
    (by decide)).2 (by decide)
  rw [h]
  decide

/-- C12 as stated fails, both ways: on the dead array, whose template cannot
be loaded, a plain add ('a') is refused with -1 and "cannot load array
metadata", while the re-add ('A') is not fatal: the device is handed to the
kernel and `Manage_add` returns 1. -/
theorem Manage_add_missing_template_fatal_for_plain_add :
    array_v090.not_persistent = 0 ∧
    (Manage_add_template world_dead 3 tst_native (uninit_disc world_dead) s0).1.sb = none ∧
    Manage_add linux world_dead 3 4 dv_sdc tst_native array_v090 0 0 "/dev/md0" none 2080
        2000 s0 =
      (-1, tst_native,
        { log := [Event.pr_err "cannot load array metadata from /dev/md0\n"], errno := 0 }) ∧
    Manage_add linux world_dead 3 4 dv_sdc_A tst_native array_v090 0 0 "/dev/md0" none 2080
        2000 s0 =
      (1, tst_native,
        { log := [Event.load_super StRole.dev_st 4, Event.remove_partitions 4,
            Event.ioctl_ADD_NEW_DISK 3
              { number := 1, major := 8, minor := 32, raid_disk := 1, state := 6 },
            Event.pr_err "re-added /dev/sdc\n", Event.free_super StRole.dev_st],
          errno := 0 }) := by
  decide

/-- A run that continues with calls of one kind continues with calls of any
kind that includes it. -/
theorem Extends.mono {P Q : Event → Prop} {s s1 : State} (h : Extends P s s1)
    (hPQ : ∀ e, P e → Q e) : Extends Q s s1 := by
  obtain ⟨extra, h1, h2⟩ := h
  exact ⟨extra, h1, fun e he => hPQ e (h2 e he)⟩

/-- The search for a template superblock opens, loads and closes. -/
theorem load_template_scan_calls (w : World) (fd : Int) (fuel : Nat) :
    ∀ (j : Int) (tst : supertype) (disc : mdu_disk_info_t) (s : State),
    Extends (fun e => is_template_call e = true) s
      (load_template_scan w fd fuel j tst disc s).2.2 := by
  induction fuel with
  | zero => intro j tst disc s; exact Extends.refl _ _
  | succ n ih =>
    intro j tst disc s
    unfold load_template_scan
    simp only
    split
    · exact ih _ _ _ _
    · split
      · exact ih _ _ _ _
      · split
        · exact ih _ _ _ _
        · split
          · exact ih _ _ _ _
          · split
            · refine Extends.trans ?_ (ih _ _ _ _)
              exact Extends.call _ _ (Extends.refl _ _) rfl
            · split
              · refine Extends.trans ?_ (ih _ _ _ _)
                exact Extends.emit _ (Extends.emit _ (Extends.call _ _ (Extends.refl _ _) rfl)
                  rfl) rfl
              · exact Extends.emit _ (Extends.emit _ (Extends.call _ _ (Extends.refl _ _) rfl)
                  rfl) rfl

/-- Lines 590-618 issue none of the calls that add a device. -/
theorem Manage_add_template_no_commit (w : World) (fd : Int) (tst : supertype)
    (disc : mdu_disk_info_t) (s : State) :
    Extends (fun e => is_commit_call e = false) s
      (Manage_add_template w fd tst disc s).2.2 := by
  have h : Extends (fun e => is_template_call e = true) s
      (Manage_add_template w fd tst disc s).2.2 := by
    unfold Manage_add_template
    split
    · exact Extends.refl _ _
    · split
      · exact Extends.emit _ (Extends.refl _ _) rfl
      · exact load_template_scan_calls _ _ _ _ _ _ _
  refine h.mono ?_
  intro e he
  cases e <;> first | rfl | simp [is_template_call] at he

/-- The scan of lines 677-687 collects the raid positions of the occupied
in-sync slots, in slot order, until `active_disks` of them are found. -/
theorem avail_scan_eq (K : Consts) (w : World) (s : State) (fd : Int) (a : Int) (fuel : Nat) :
    ∀ (d : Nat) (found : Int) (disc : mdu_disk_info_t),
    (avail_scan K w s fd a fuel (d : Int) found disc).1 =
      ((List.range' d fuel).filterMap (insync_position K w s fd)).take (a - found).toNat := by
  induction fuel with
  | zero => intro d found disc; simp [avail_scan]
  | succ n ih =>
    intro d found disc
    unfold avail_scan
    by_cases hf : found < a
    · rw [if_pos hf]
      have hk : (a - found).toNat = (a - (found + 1)).toNat + 1 := by omega
      have hc : ((d : Int) + 1) = ((d + 1 : Nat) : Int) := by push_cast; rfl
      dsimp only
      rw [List.range'_succ, List.filterMap_cons]
      cases hd : w.ioctl_GET_DISK_INFO s fd (d : Int) with
      | none =>
        simp only [get_disk_info, hd, if_true, insync_position]
        rw [hc]
        exact ih _ _ _
      | some r =>
        simp only [get_disk_info, hd, Bool.true_eq_false, if_false, insync_position]
        by_cases h0 : r.major = 0 ∧ r.minor = 0
        · simp only [h0, and_self, if_true, true_or]
          rw [hc]
          exact ih _ _ _
        · rw [if_neg h0]
          by_cases hs : r.state &&& (1 <<< K.MD_DISK_SYNC) = 0
          · simp only [hs, if_true, or_true]
            rw [hc]
            exact ih _ _ _
          · rw [if_neg hs, if_neg (by intro hc2; rcases hc2 with hc2 | hc2
                                      · exact h0 hc2
                                      · exact hs hc2)]
            dsimp only
            rw [hk, List.take_succ_cons, hc, ih]
    · rw [if_neg hf]
      have hk : (a - found).toNat = 0 := by omega
      rw [hk, List.take_zero]

/-- The table `avail` of lines 673-687 marks the first `active_disks` of the
raid positions of the occupied in-sync slots. -/
theorem avail_scan_positions (K : Consts) (w : World) (s : State) (fd : Int) (a : Int)
    (disc : mdu_disk_info_t) :
    (avail_scan K w s fd a K.MAX_DISKS 0 0 disc).1 =
      (insync_positions K w s fd K.MAX_DISKS).take a.toNat := by
  have h := avail_scan_eq K w s fd a K.MAX_DISKS 0 0 disc
  simp only [Nat.cast_zero, sub_zero] at h
  rw [h, insync_positions, List.range_eq_range']

/-- Lines 640-698 for a plain add after a re-add attempt that returned 0: the
degraded-array check decides. -/
theorem Manage_add_readd_eq (K : Consts) (w : World) (fd tfd : Int) (dv : mddev_dev)
    (tst : supertype) (array : mdu_array_info_t) (verbose : Int) (devname : String)
    (update : Option String) (rdev : Nat) (disc : mdu_disk_info_t) (s : State)
    (hdisp : dv.disposition = 'a')
    (hre : (Manage_add_try_re_add K w fd tfd dv tst array verbose devname update rdev s).1 = 0) :
    Manage_add_readd K w fd tfd dv tst array verbose devname update rdev disc s =
      if array.active_disks < array.raid_disks ∧
          w.enough array.level array.raid_disks array.layout 1
            (marked_table array.raid_disks
              (avail_scan K w
                (Manage_add_try_re_add K w fd tfd dv tst array verbose devname update rdev s).2
                fd array.active_disks K.MAX_DISKS 0 0 disc).1) = 0 then
        (some (-1),
          (avail_scan K w
            (Manage_add_try_re_add K w fd tfd dv tst array verbose devname update rdev s).2
            fd array.active_disks K.MAX_DISKS 0 0 disc).2,
          ((Manage_add_try_re_add K w fd tfd dv tst array verbose devname update rdev s).2.pr_err
            (devname ++ " has failed so using --add cannot work and might destroy\n")).pr_err
            ("data on " ++ dv.devname ++ ".  You should stop the array and re-assemble it.\n"))
      else
        (none,
          if array.active_disks < array.raid_disks then
            (avail_scan K w
              (Manage_add_try_re_add K w fd tfd dv tst array verbose devname update rdev s).2
              fd array.active_disks K.MAX_DISKS 0 0 disc).2
          else disc,
          (Manage_add_try_re_add K w fd tfd dv tst array verbose devname update rdev s).2) := by
  have hM : ¬ dv.disposition = 'M' := by rw [hdisp]; decide
  have hA : ¬ dv.disposition = 'A' := by rw [hdisp]; decide
  have hstep : Manage_add_readd K w fd tfd dv tst array verbose devname update rdev disc s =
      (let re := Manage_add_try_re_add K w fd tfd dv tst array verbose devname update rdev s
       let s := re.2
       if re.1 ≠ 0 then (some re.1, disc, s)
       else if dv.disposition = 'M' then
         let s := if verbose > 0 then
             s.pr_err ("--re-add for " ++ dv.devname ++ " to " ++ devname ++ " is not possible\n")
           else s
         (some 0, disc, s)
       else if dv.disposition = 'A' then
         (some (-1), disc,
           s.pr_err ("--re-add for " ++ dv.devname ++ " to " ++ devname ++ " is not possible\n"))
       else
         let chk : Int × mdu_disk_info_t :=
           if array.active_disks < array.raid_disks then
             let a := avail_scan K w s fd array.active_disks K.MAX_DISKS 0 0 disc
             let avail := marked_table array.raid_disks a.1
             (if w.enough array.level array.raid_disks array.layout 1 avail = 0 then 1 else 0, a.2)
           else (0, disc)
         if chk.1 ≠ 0 then
           let s := s.pr_err (devname ++
             " has failed so using --add cannot work and might destroy\n")
           let s := s.pr_err ("data on " ++ dv.devname ++
             ".  You should stop the array and re-assemble it.\n")
           (some (-1), chk.2, s)
         else (none, chk.2, s)) := rfl
  rw [hstep]
  dsimp only
  rw [if_neg (by rw [hre]; simp), if_neg hM, if_neg hA]
  by_cases hd : array.active_disks < array.raid_disks
  · simp only [hd, if_true, true_and]
    by_cases he : w.enough array.level array.raid_disks array.layout 1
            (marked_table array.raid_disks
              (avail_scan K w
                (Manage_add_try_re_add K w fd tfd dv tst array verbose devname update rdev s).2
                fd array.active_disks K.MAX_DISKS 0 0 disc).1) = 0
    · simp [he]
    · simp [he]
  · simp [hd]

/-- C13 (amended): a plain add ('a') on a persistent or externally-managed
array (size readable and large enough, geometry valid, no direct hot-add,
template superblock loaded) whose re-add attempt of lines 646-660 returned 0
or was not made.  If `active_disks < raid_disks` and `enough(level,
raid_disks, layout, 1, avail)` is false, where `avail` marks the raid
positions of the first `active_disks` occupied in-sync slots in slot order,
then `Manage_add` returns -1 and issues nothing after the re-add attempt but
its two messages; so it issues no `remove_partitions`, `add_to_super`,
`write_init_super`, `ADD_NEW_DISK` or `sysfs_add_disk` call except those the
re-add attempt itself issued (none, when the attempt issued none).  If
`raid_disks <= active_disks` the check does not refuse: `Manage_add` goes on
to lines 709-841. -/
theorem Manage_add_refuses_failed_array (K : Consts) (w : World) (fd tfd : Int)
    (dv : mddev_dev) (tst : supertype) (array : mdu_array_info_t) (force verbose : Int)
    (devname : String) (update : Option String) (rdev : Nat) (array_size : Nat) (s : State)
    (ldsize : Nat)
    (hdisp : dv.disposition = 'a')
    (hsize : w.get_dev_size s tfd dv.devname = some ldsize)
    (hgeom : w.validate_geometry s tst array.level array.layout array.raid_disks
      (ldsize >>> 9) ≠ 0)
    (hnohot : ¬ (tst.external = false ∧ array.major_version = 0 ∧
      Int.tmod (w.md_get_version s fd) 100 < 2))
    (hpers : array.not_persistent = 0 ∨ tst.external = true)
    (hsb : (Manage_add_template w fd tst (uninit_disc w) s).1.sb.isSome = true)
    (hfit : ¬ w.avail_size (Manage_add_template w fd tst (uninit_disc w) s).1 (ldsize / 512)
      < array_size)
    (hre : (Manage_add_try_re_add K w fd tfd dv (Manage_add_template w fd tst (uninit_disc w) s).1
      array verbose devname update rdev (Manage_add_template w fd tst (uninit_disc w) s).2.2).1
      = 0) :
    (array.active_disks < array.raid_disks →
      w.enough array.level array.raid_disks array.layout 1
        (marked_table array.raid_disks
          ((insync_positions K w
            (Manage_add_try_re_add K w fd tfd dv
              (Manage_add_template w fd tst (uninit_disc w) s).1 array verbose devname update
              rdev (Manage_add_template w fd tst (uninit_disc w) s).2.2).2
            fd K.MAX_DISKS).take array.active_disks.toNat)) = 0 →
      Manage_add K w fd tfd dv tst array force verbose devname update rdev array_size s =
        (-1, (Manage_add_template w fd tst (uninit_disc w) s).1,
          ((Manage_add_try_re_add K w fd tfd dv
              (Manage_add_template w fd tst (uninit_disc w) s).1 array verbose devname update
              rdev (Manage_add_template w fd tst (uninit_disc w) s).2.2).2.pr_err
            (devname ++ " has failed so using --add cannot work and might destroy\n")).pr_err
            ("data on " ++ dv.devname ++
              ".  You should stop the array and re-assemble it.\n")) ∧
      (Extends (fun e => is_commit_call e = false)
          (Manage_add_template w fd tst (uninit_disc w) s).2.2
          (Manage_add_try_re_add K w fd tfd dv
            (Manage_add_template w fd tst (uninit_disc w) s).1 array verbose devname update
            rdev (Manage_add_template w fd tst (uninit_disc w) s).2.2).2 →
        Extends (fun e => is_commit_call e = false) s
          (Manage_add K w fd tfd dv tst array force verbose devname update rdev array_size
            s).2.2)) ∧
    (array.raid_disks ≤ array.active_disks →
      Manage_add K w fd tfd dv tst array force verbose devname update rdev array_size s =
        Manage_add_commit K w fd tfd dv (Manage_add_template w fd tst (uninit_disc w) s).1
          array verbose rdev (Manage_add_template w fd tst (uninit_disc w) s).2.1
          (Manage_add_try_re_add K w fd tfd dv
            (Manage_add_template w fd tst (uninit_disc w) s).1 array verbose devname update
            rdev (Manage_add_template w fd tst (uninit_disc w) s).2.2).2) := by
  have hnn : ¬ ((Manage_add_template w fd tst (uninit_disc w) s).1.sb.isNone = true) := by
    cases hx : (Manage_add_template w fd tst (uninit_disc w) s).1.sb with
    | none => rw [hx] at hsb; simp at hsb
    | some x => simp
  have hM : Manage_add K w fd tfd dv tst array force verbose devname update rdev array_size s =
      Manage_add_proceed K w fd tfd dv (Manage_add_template w fd tst (uninit_disc w) s).1
        array verbose devname update rdev (Manage_add_template w fd tst (uninit_disc w) s).2.1
        (Manage_add_template w fd tst (uninit_disc w) s).2.2 := by
    rw [Manage_add_eq_persistent K w fd tfd dv tst array force verbose devname update rdev
      array_size s ldsize hsize hgeom hnohot hpers]
    unfold Manage_add_persistent
    dsimp only
    rw [if_neg (fun h => hnn h.1), if_neg hnn, if_neg hfit]
  rw [hM]
  unfold Manage_add_proceed
  dsimp only
  rw [Manage_add_readd_eq K w fd tfd dv _ array verbose devname update rdev _ _ hdisp hre]
  constructor
  · intro hdeg hfail
    rw [← avail_scan_positions K w _ fd array.active_disks
      (Manage_add_template w fd tst (uninit_disc w) s).2.1] at hfail
    rw [if_pos ⟨hdeg, hfail⟩]
    refine ⟨rfl, ?_⟩
    intro hquiet
    exact Extends.pr_err _ (Extends.pr_err _
      ((Manage_add_template_no_commit w fd tst (uninit_disc w) s).trans hquiet) rfl) rfl
  · intro hfull
    have hn : ¬ array.active_disks < array.raid_disks := by omega
    rw [if_neg (fun h => hn h.1)]
    simp only [hn, if_false]

/-- C13, an instance: on the failed raid5 (one member of four in sync) the
plain add of a device without superblock is refused and nothing is issued but
the attempt to load its superblock and the two messages. -/
theorem Manage_add_refuses_failed_array_witness :
    Manage_add linux world_failed 3 4 dv_sdc { tst_native with sb := some 7 } array_failed 0 0
        "/dev/md0" none 2080 2000 s0 =
      (-1, { tst_native with sb := some 7 },
        { log := [Event.load_super StRole.dev_st 4,
            Event.pr_err "/dev/md0 has failed so using --add cannot work and might destroy\n",
            Event.pr_err "data on /dev/sdc.  You should stop the array and re-assemble it.\n"],
          errno := 0 }) :=
  ((Manage_add_refuses_failed_array linux world_failed 3 4 dv_sdc
    { tst_native with sb := some 7 } array_failed 0 0 "/dev/md0" none 2080 2000 s0 1024000
    rfl rfl (by decide) (by decide) (Or.inl rfl) rfl (by decide) (by decide)).1
    (by decide) (by decide)).1

/-- C13 as stated fails: the plain add of the former member of slot 1 to the
failed raid5.  The re-add does not apply (the kernel answers EBUSY and
`attempt_re_add` returns 0), `active_disks` (1) is below `raid_disks` (4),
`enough` is false, and `Manage_add` returns -1 from the refusal of lines
692-697; yet `remove_partitions` and `ADD_NEW_DISK` were issued, by the re-add
attempt. -/
theorem Manage_add_refusal_after_kernel_re_add_attempt :
    dv_sdc.disposition = 'a' ∧ array_failed.not_persistent = 0 ∧
    (Manage_add_try_re_add linux world_failed_readd 3 4 dv_sdc { tst_native with sb := some 7 }
      array_failed 0 "/dev/md0" none 2080 s0).1 = 0 ∧
    array_failed.active_disks < array_failed.raid_disks ∧
    world_failed_readd.enough array_failed.level array_failed.raid_disks array_failed.layout 1
      (marked_table array_failed.raid_disks
        ((insync_positions linux world_failed_readd s0 3 linux.MAX_DISKS).take
          array_failed.active_disks.toNat)) = 0 ∧
    Manage_add linux world_failed_readd 3 4 dv_sdc { tst_native with sb := some 7 } array_failed
        0 0 "/dev/md0" none 2080 2000 s0 =
      (-1, { tst_native with sb := some 7 },
        { log := [Event.load_super StRole.dev_st 4, Event.remove_partitions 4,
            Event.ioctl_ADD_NEW_DISK 3
              { number := 1, major := 8, minor := 32, raid_disk := 1, state := 6 },
            Event.free_super StRole.dev_st,
            Event.pr_err "/dev/md0 has failed so using --add cannot work and might destroy\n",
            Event.pr_err "data on /dev/sdc.  You should stop the array and re-assemble it.\n"],
          errno := 16 }) := by
  decide

/-! ## C14, C15: `attempt_re_add`, the kernel re-add -/

/-- Past its checks `attempt_re_add` is lines 482-512 followed, when they
succeed, by lines 513-527. -/
theorem attempt_re_add_eq (K : Consts) (w : World) (fd tfd : Int) (dv : mddev_dev)
    (dev_st tst : supertype) (rdev : Nat) (update : Option String) (devname : String)
    (verbose : Int) (array : mdu_array_info_t) (s : State)
    (hstate : (w.getinfo_super dev_st).disk.state &&& (1 <<< K.MD_DISK_ACTIVE) ≠ 0 ∧
      (w.getinfo_super dev_st).disk.state &&& (1 <<< K.MD_DISK_FAULTY) = 0)
    (huuid : tst.sb.isSome = true → w.uuid_from_super tst = w.uuid_from_super dev_st)
    (hver : ¬ (array.major_version = 1 ∧ w.get_linux_version ≤ 2006018))
    (hslot : slot_reported_empty w s fd (w.getinfo_super dev_st).disk.number = true) :
    attempt_re_add K w fd tfd dv dev_st tst rdev update devname verbose array s =
      if (re_add_update w tfd dv dev_st update s).1 ≠ 0 then re_add_update w tfd dv dev_st update s
      else re_add_kernel K w fd dv verbose (re_add_disc K w dv dev_st rdev)
        (re_add_update w tfd dv dev_st update s).2 := by
  have h1 : (w.getinfo_super dev_st).disk.state &&& (1 <<< K.MD_DISK_ACTIVE) ≠ 0 ∧
      (w.getinfo_super dev_st).disk.state &&& (1 <<< K.MD_DISK_FAULTY) = 0 ∧
      (if tst.sb.isSome = true then w.uuid_from_super tst else w.uuid_from_super dev_st) =
        w.uuid_from_super dev_st := by
    refine ⟨hstate.1, hstate.2, ?_⟩
    by_cases hsb : tst.sb.isSome = true
    · rw [if_pos hsb]; exact huuid hsb
    · rw [if_neg hsb]
  unfold attempt_re_add
  dsimp only
  rw [if_pos h1, if_neg hver]
  unfold slot_reported_empty at hslot
  cases hd : w.ioctl_GET_DISK_INFO s fd (w.getinfo_super dev_st).disk.number with
  | none => rw [hd] at hslot; simp at hslot
  | some d =>
    rw [hd] at hslot
    simp only [decide_eq_true_eq] at hslot
    have h3 : ¬ (d.major ≠ 0 ∨ d.minor ≠ 0) := by
      intro hc
      rcases hc with hc | hc
      · exact hc hslot.1
      · exact hc hslot.2
    dsimp only
    rw [if_neg h3]
    rfl

/-- C14: `attempt_re_add` reaches `ADD_NEW_DISK` only when the candidate's
recorded state has the active bit set and the faulty bit clear, it is not the
case that the array's major_version is 1 and the kernel version is at most
2.6.18, and `GET_DISK_INFO` for the recorded slot number succeeds and reports
0:0.  When one of these fails it returns 0 and leaves the state as it was: no
`ADD_NEW_DISK`, `update_super` or `store_super` call (no call at all) is
issued. -/
theorem attempt_re_add_preconditions (K : Consts) (w : World) (fd tfd : Int) (dv : mddev_dev)
    (dev_st tst : supertype) (rdev : Nat) (update : Option String) (devname : String)
    (verbose : Int) (array : mdu_array_info_t) (s : State)
    (h : ¬ (((w.getinfo_super dev_st).disk.state &&& (1 <<< K.MD_DISK_ACTIVE) ≠ 0 ∧
          (w.getinfo_super dev_st).disk.state &&& (1 <<< K.MD_DISK_FAULTY) = 0) ∧
        ¬ (array.major_version = 1 ∧ w.get_linux_version ≤ 2006018) ∧
        slot_reported_empty w s fd (w.getinfo_super dev_st).disk.number = true)) :
    attempt_re_add K w fd tfd dv dev_st tst rdev update devname verbose array s = (0, s) := by
  unfold attempt_re_add
  dsimp only
  by_cases h1 : (w.getinfo_super dev_st).disk.state &&& (1 <<< K.MD_DISK_ACTIVE) ≠ 0 ∧
      (w.getinfo_super dev_st).disk.state &&& (1 <<< K.MD_DISK_FAULTY) = 0 ∧
      (if tst.sb.isSome = true then w.uuid_from_super tst else w.uuid_from_super dev_st) =
        w.uuid_from_super dev_st
  · rw [if_pos h1]
    by_cases h2 : array.major_version = 1 ∧ w.get_linux_version ≤ 2006018
    · rw [if_pos h2]
    · rw [if_neg h2]
      cases hd : w.ioctl_GET_DISK_INFO s fd (w.getinfo_super dev_st).disk.number with
      | none => rfl
      | some d =>
        dsimp only
        by_cases h3 : d.major ≠ 0 ∨ d.minor ≠ 0
        · rw [if_pos h3]
        · exfalso
          apply h
          refine ⟨⟨h1.1, h1.2.1⟩, h2, ?_⟩
          unfold slot_reported_empty
          rw [hd]
          simp only [decide_eq_true_eq]
          constructor
          · by_contra hc; exact h3 (Or.inl hc)
          · by_contra hc; exact h3 (Or.inr hc)
  · rw [if_neg h1]

/-- C14, an instance: the candidate's superblock records slot 1, which the
kernel reports as held by 8:16; nothing is issued. -/
theorem attempt_re_add_preconditions_witness :
    attempt_re_add linux world_occupied 3 4 dv_sdc { tst_native with sb := some 1 }
        { tst_native with sb := some 2 } 2080 none "/dev/md0" 0 array4 s0 = (0, s0) :=
  attempt_re_add_preconditions linux world_occupied 3 4 dv_sdc { tst_native with sb := some 1 }
    { tst_native with sb := some 2 } 2080 none "/dev/md0" 0 array4 s0 (by decide)

/-- C15: when `attempt_re_add` passes its checks (state active and not faulty,
identities equal or no template loaded, not version 1 on a kernel up to
2.6.18, recorded slot reported empty) and the superblock update of lines
482-512 succeeds, it issues `ADD_NEW_DISK` right after that update with a
`disc` that carries the recorded slot number, the recorded raid position and
the recorded state bits, the write-mostly bit set for `writemostly` 1 and
cleared for 2; the call is followed by messages only.  The result is 1 when
the call succeeds; when it fails with ENOMEM or EROFS the result is 0 for
disposition 'M' and -1 otherwise ('A' in particular); when it fails with any
other error the result is 0. -/
theorem attempt_re_add_kernel_result (K : Consts) (w : World) (fd tfd : Int) (dv : mddev_dev)
    (dev_st tst : supertype) (rdev : Nat) (update : Option String) (devname : String)
    (verbose : Int) (array : mdu_array_info_t) (s : State)
    (hstate : (w.getinfo_super dev_st).disk.state &&& (1 <<< K.MD_DISK_ACTIVE) ≠ 0 ∧
      (w.getinfo_super dev_st).disk.state &&& (1 <<< K.MD_DISK_FAULTY) = 0)
    (huuid : tst.sb.isSome = true → w.uuid_from_super tst = w.uuid_from_super dev_st)
    (hver : ¬ (array.major_version = 1 ∧ w.get_linux_version ≤ 2006018))
    (hslot : slot_reported_empty w s fd (w.getinfo_super dev_st).disk.number = true)
    (hupd : (re_add_update w tfd dv dev_st update s).1 = 0) :
    (re_add_disc K w dv dev_st rdev).number = (w.getinfo_super dev_st).disk.number ∧
    (re_add_disc K w dv dev_st rdev).raid_disk = (w.getinfo_super dev_st).disk.raid_disk ∧
    (re_add_disc K w dv dev_st rdev).state =
      (if dv.writemostly = 1 then
        set_bit (w.getinfo_super dev_st).disk.state K.MD_DISK_WRITEMOSTLY
      else if dv.writemostly = 2 then
        clear_bit (w.getinfo_super dev_st).disk.state K.MD_DISK_WRITEMOSTLY
      else (w.getinfo_super dev_st).disk.state) ∧
    (∃ msgs, (∀ e ∈ msgs, is_message e = true) ∧
      (attempt_re_add K w fd tfd dv dev_st tst rdev update devname verbose array s).2.log =
        (re_add_update w tfd dv dev_st update s).2.log ++
          Event.ioctl_ADD_NEW_DISK fd (re_add_disc K w dv dev_st rdev) :: msgs) ∧
    (attempt_re_add K w fd tfd dv dev_st tst rdev update devname verbose array s).1 =
      (if (w.ioctl_ADD_NEW_DISK (State.mk (re_add_update w tfd dv dev_st update s).2.log 0) fd
          (re_add_disc K w dv dev_st rdev)).1 = 0 then 1
      else if (w.ioctl_ADD_NEW_DISK (State.mk (re_add_update w tfd dv dev_st update s).2.log 0)
            fd (re_add_disc K w dv dev_st rdev)).2 = K.ENOMEM ∨
          (w.ioctl_ADD_NEW_DISK (State.mk (re_add_update w tfd dv dev_st update s).2.log 0)
            fd (re_add_disc K w dv dev_st rdev)).2 = K.EROFS then
        (if dv.disposition = 'M' then 0 else -1)
      else 0) := by
  rw [attempt_re_add_eq K w fd tfd dv dev_st tst rdev update devname verbose array s hstate
    huuid hver hslot]
  simp only [hupd, ne_eq, not_true_eq_false, if_false]
  refine ⟨rfl, rfl, ?_, ?_, ?_⟩
  · unfold re_add_disc
    by_cases h1 : dv.writemostly = 1
    · simp [h1]
    · simp only [h1, if_false]
  · unfold re_add_kernel
    dsimp only
    split
    · split
      · exact ⟨[Event.pr_err ("re-added " ++ dv.devname ++ "\n")], by simp [is_message],
          by simp [State.call, State.pr_err, State.emit]⟩
      · exact ⟨[], by simp, by simp [State.call]⟩
    · split
      · refine ⟨[Event.pr_err ("add new device failed for " ++ dv.devname ++ ": " ++
          w.strerror (w.ioctl_ADD_NEW_DISK
            (State.mk (re_add_update w tfd dv dev_st update s).2.log 0) fd
            (re_add_disc K w dv dev_st rdev)).2 ++ "\n")], by simp [is_message], ?_⟩
        split <;> simp [State.call, State.pr_err, State.emit]
      · exact ⟨[], by simp, by simp [State.call]⟩
  · unfold re_add_kernel
    dsimp only [State.call]
    split
    · rfl
    · split
      · split <;> rfl
      · rfl

/-- C15, an instance: the former member of slot 1 is handed back to a kernel
that answers ENOMEM; the result is -1 for 'A' and 0 for 'M'. -/
theorem attempt_re_add_kernel_result_witness :
    (attempt_re_add linux world_readd_nomem 3 4 dv_sdc_A { tst_native with sb := some 1 }
        tst_native 2080 none "/dev/md0" 0 array_v090 s0).1 = -1 ∧
    (attempt_re_add linux world_readd_nomem 3 4 { dv_sdc_A with disposition := 'M' }
        { tst_native with sb := some 1 } tst_native 2080 none "/dev/md0" 0 array_v090 s0).1 = 0 :=
  ⟨(attempt_re_add_kernel_result linux world_readd_nomem 3 4 dv_sdc_A
      { tst_native with sb := some 1 } tst_native 2080 none "/dev/md0" 0 array_v090 s0
      (by decide) (by decide) (by decide) (by decide) (by decide)).2.2.2.2,
   (attempt_re_add_kernel_result linux world_readd_nomem 3 4 { dv_sdc_A with disposition := 'M' }
      { tst_native with sb := some 1 } tst_native 2080 none "/dev/md0" 0 array_v090 s0
      (by decide) (by decide) (by decide) (by decide) (by decide)).2.2.2.2⟩

/-! ## C16: `Manage_add`, the slot number of a fresh add -/

/-- The loop of lines 717-725 stops at the first free slot at or above the
slot it starts at, or at the end of its range. -/
theorem find_free_slot_spec (w : World) (s : State) (fd : Int) (fuel : Nat) :
    ∀ (j0 : Int) (disc : mdu_disk_info_t),
    j0 ≤ (find_free_slot w s fd fuel j0 disc).1 ∧
    (find_free_slot w s fd fuel j0 disc).1 ≤ j0 + fuel ∧
    (∀ k, j0 ≤ k → k < (find_free_slot w s fd fuel j0 disc).1 → slot_free w s fd k = false) ∧
    ((find_free_slot w s fd fuel j0 disc).1 < j0 + fuel →
      slot_free w s fd (find_free_slot w s fd fuel j0 disc).1 = true) := by
  induction fuel with
  | zero =>
    intro j0 disc
    simp only [find_free_slot]
    refine ⟨le_refl _, by simp, ?_, ?_⟩
    · intro k h1 h2; omega
    · intro h; simp at h
  | succ n ih =>
    intro j0 disc
    unfold find_free_slot
    dsimp only
    cases hd : w.ioctl_GET_DISK_INFO s fd j0 with
    | none =>
      simp only [get_disk_info, hd, if_true]
      refine ⟨le_refl _, by push_cast; omega, fun k h1 h2 => by omega, fun _ => ?_⟩
      simp [slot_free, hd]
    | some d =>
      simp only [get_disk_info, hd, Bool.true_eq_false, if_false]
      by_cases h0 : d.major = 0 ∧ d.minor = 0
      · rw [if_pos h0]
        refine ⟨le_refl _, by push_cast; omega, fun k h1 h2 => by omega, fun _ => ?_⟩
        simp [slot_free, hd, h0]
      · rw [if_neg h0]
        by_cases h8 : d.state &&& 8 ≠ 0
        · rw [if_pos h8]
          refine ⟨le_refl _, by push_cast; omega, fun k h1 h2 => by omega, fun _ => ?_⟩
          simp only [slot_free, hd, decide_eq_true_eq]
          exact Or.inr h8
        · rw [if_neg h8]
          obtain ⟨i1, i2, i3, i4⟩ := ih (j0 + 1)
            { number := j0, major := d.major, minor := d.minor, raid_disk := d.raid_disk,
              state := d.state }
          refine ⟨by omega, by push_cast; omega, ?_, ?_⟩
          · intro k h1 h2
            by_cases hk : k = j0
            · rw [hk]
              simp only [slot_free, hd, decide_eq_false_iff_not]
              intro hc
              rcases hc with hc | hc
              · exact h0 hc
              · exact h8 hc
            · exact i3 k (by omega) h2
          · intro hlt
            exact i4 (by push_cast at hlt; omega)

/-- Every `disc` that lines 709-841 hand to `add_to_super` or `ADD_NEW_DISK`
carries the slot number at which the loop of lines 717-725 stopped. -/
theorem Manage_add_commit_number (K : Consts) (w : World) (fd tfd : Int) (dv : mddev_dev)
    (tst : supertype) (array : mdu_array_info_t) (verbose : Int) (rdev : Nat)
    (disc : mdu_disk_info_t) (s : State) :
    Extends (fun e => ∀ d, event_disc e = some d → d.number =
        (find_free_slot w (s.emit (Event.remove_partitions tfd)) fd
          (tst.max_devs - array.raid_disks).toNat array.raid_disks disc).1) s
      (Manage_add_commit K w fd tfd dv tst array verbose rdev disc s).2.2 := by
  unfold Manage_add_commit
  dsimp only
  generalize find_free_slot w (s.emit (Event.remove_partitions tfd)) fd
          (tst.max_devs - array.raid_disks).toNat array.raid_disks disc = f
  have h0 : Extends (fun e => ∀ d, event_disc e = some d → d.number = f.1) s
      (s.emit (Event.remove_partitions tfd)) :=
    Extends.emit _ (Extends.refl _ _) (by intro d h; simp [event_disc] at h)
  generalize s.emit (Event.remove_partitions tfd) = sR at h0
  split
  · rename_i p tst1 s1 hp
    repeat' split at hp
    all_goals first
      | (simp at hp; done)
      | (simp only [Sum.inl.injEq, Prod.mk.injEq] at hp
         obtain ⟨-, rfl⟩ := hp
         repeat' first
           | exact h0
           | refine Extends.emit _ ?_ ?_
           | refine Extends.call _ _ ?_ ?_
           | (intro d h; simp [event_disc] at h; done)
           | (intro d h; simp only [event_disc, Option.some.injEq] at h; subst h; rfl))
  · rename_i p j1 disc1 tst1 s1 hp
    have hfact : Extends (fun e => ∀ d, event_disc e = some d → d.number = f.1) s s1 ∧
        disc1.number = f.1 := by
      repeat' split at hp
      all_goals first
        | (simp at hp; done)
        | (simp only [Sum.inr.injEq, Prod.mk.injEq] at hp
           obtain ⟨-, rfl, -, rfl⟩ := hp
           refine ⟨?_, rfl⟩
           repeat' first
             | exact h0
             | refine Extends.emit _ ?_ ?_
             | refine Extends.call _ _ ?_ ?_
             | (intro d h; simp [event_disc] at h; done)
             | (intro d h; simp only [event_disc, Option.some.injEq] at h; subst h; rfl))
    obtain ⟨hext, hnum⟩ := hfact
    repeat' first
      | exact hext
      | split
      | (intro d h; simp [event_disc] at h; done)
      | (intro d h; simp only [event_disc, Option.some.injEq] at h; subst h; exact hnum)
      | refine Extends.pr_err _ ?_ ?_
      | refine Extends.emit _ ?_ ?_

/-- C16: the slot number `j` with which lines 709-841 of `Manage_add` add a
device (the `number` of every `disc` handed to `add_to_super` or
`ADD_NEW_DISK`) is where the loop of lines 717-725 stops, and with the slots
as `GET_DISK_INFO` reports them after `remove_partitions`: `raid_disks <= j`;
every slot `k` with `raid_disks <= k < j` is occupied and not marked removed
(not free); and whenever a slot `k` with `raid_disks <= k < max_devs` is
free, slot `j` is free and `j <= k`, so `j` is the lowest free slot of the
range. -/
theorem Manage_add_slot_is_lowest_free (K : Consts) (w : World) (fd tfd : Int)
    (dv : mddev_dev) (tst : supertype) (array : mdu_array_info_t) (verbose : Int) (rdev : Nat)
    (disc : mdu_disk_info_t) (s : State) :
    Extends (fun e => ∀ d, event_disc e = some d → d.number =
        (find_free_slot w (s.emit (Event.remove_partitions tfd)) fd
          (tst.max_devs - array.raid_disks).toNat array.raid_disks disc).1) s
      (Manage_add_commit K w fd tfd dv tst array verbose rdev disc s).2.2 ∧
    array.raid_disks ≤ (find_free_slot w (s.emit (Event.remove_partitions tfd)) fd
      (tst.max_devs - array.raid_disks).toNat array.raid_disks disc).1 ∧
    (∀ k, array.raid_disks ≤ k →
      k < (find_free_slot w (s.emit (Event.remove_partitions tfd)) fd
        (tst.max_devs - array.raid_disks).toNat array.raid_disks disc).1 →
      slot_free w (s.emit (Event.remove_partitions tfd)) fd k = false) ∧
    (∀ k, array.raid_disks ≤ k → k < tst.max_devs →
      slot_free w (s.emit (Event.remove_partitions tfd)) fd k = true →
      slot_free w (s.emit (Event.remove_partitions tfd)) fd
        (find_free_slot w (s.emit (Event.remove_partitions tfd)) fd
          (tst.max_devs - array.raid_disks).toNat array.raid_disks disc).1 = true ∧
      (find_free_slot w (s.emit (Event.remove_partitions tfd)) fd
        (tst.max_devs - array.raid_disks).toNat array.raid_disks disc).1 ≤ k) := by
  obtain ⟨h1, h2, h3, h4⟩ := find_free_slot_spec w (s.emit (Event.remove_partitions tfd)) fd
    (tst.max_devs - array.raid_disks).toNat array.raid_disks disc
  refine ⟨Manage_add_commit_number K w fd tfd dv tst array verbose rdev disc s, h1, h3, ?_⟩
  intro k hk1 hk2 hfree
  have hle : (find_free_slot w (s.emit (Event.remove_partitions tfd)) fd
      (tst.max_devs - array.raid_disks).toNat array.raid_disks disc).1 ≤ k := by
    by_contra hc
    have := h3 k hk1 (by omega)
    rw [this] at hfree
    exact absurd hfree (by decide)
  refine ⟨h4 ?_, hle⟩
  have : ((tst.max_devs - array.raid_disks).toNat : Int) = tst.max_devs - array.raid_disks :=
    Int.toNat_of_nonneg (by omega)
  omega

/-- C16, an instance: four raid disks, a spare in slot 4, a removed device in
slot 5: the new device is added as number 5. -/
theorem Manage_add_slot_is_lowest_free_instance :
    (find_free_slot world_slots6 (s0.emit (Event.remove_partitions 4)) 3
      (tst_native.max_devs - array4.raid_disks).toNat array4.raid_disks
      (uninit_disc world_slots6)).1 = 5 ∧
    (Manage_add_commit linux world_slots6 3 4 dv_sdc tst_native
      { array4 with not_persistent := 1 } 0 2080 (uninit_disc world_slots6) s0).2.2.log =
      [Event.remove_partitions 4, Event.free_super StRole.tst,
        Event.ioctl_ADD_NEW_DISK 3
          { number := 5, major := 8, minor := 32, raid_disk := -1, state := 0 },
        Event.pr_err "added /dev/sdc\n"] := by
  decide

/-! ## C17: `Manage_subdevs`, the first hard failure -/

/-- What `Manage_subdevs` returns and records once a round of its loop ends
in `goto abort` at a concrete entry. -/
theorem Manage_subdevs_abort_step (K : Consts) (w : World) (devname : String)
    (fd : Int) (devlist : List mddev_dev) (verbose test : Int) (update : Option String)
    (force : Int) (s : State) (array : mdu_array_info_t) (tst : supertype)
    (subarray : Option String) (before next : List mddev_dev) (dv : mddev_dev)
    (v v1 : LoopVars) (s1 s2 : State)
    (hinfo : w.ioctl_GET_ARRAY_INFO s fd = some array)
    (hst : w.super_by_fd s fd = some (tst, subarray))
    (hreach : Reaches K w (loop_env w devname fd verbose update force array subarray s)
      ([], devlist, loop_vars0 w tst, s) (before, dv :: next, v, s1))
    (hconc : resolve_symbolic K w fd dv s1 = Resolved.concrete)
    (hstep : concrete_step K w (loop_env w devname fd verbose update force array subarray s)
      dv v s1 = Step.abort v1 s2) :
    (Manage_subdevs K w devname fd devlist verbose test update force s).rv = 1 ∧
    (Manage_subdevs K w devname fd devlist verbose test update force s).devlist =
      before ++ dv :: next ∧
    (Manage_subdevs K w devname fd devlist verbose test update force s).s.log =
      s2.log ++ idle_tail w s fd v1.frozen := by
  rw [Manage_subdevs_at K w devname fd devlist verbose test update force s array tst subarray
    _ hinfo hst hreach]
  have hl := loop_abort_step K w (loop_env w devname fd verbose update force array
    subarray s) before next dv v v1 s1 s2 hconc hstep
  simp only [hl, Manage_subdevs_end, if_true]
  refine ⟨trivial, trivial, ?_⟩
  unfold idle_tail
  by_cases hf : v1.frozen > 0
  · simp [hf, State.call, loop_env]
  · simp [hf]

/-- The `switch` for an add disposition when the candidate opens: the result
of `Manage_add` decides. -/
theorem apply_add_eq (K : Consts) (w : World) (e : LoopEnv) (dv : mddev_dev) (v : LoopVars)
    (s : State)
    (hdisp : dv.disposition = 'a' ∨ dv.disposition = 'A' ∨ dv.disposition = 'M')
    (hsub : e.subarray = none)
    (hopen : (open_candidate w dv s).1 ≥ 0) :
    apply_disposition K w e dv v s =
      if (add_call K w e dv v s).1 < 0 then
        Step.abort
          { v with tst := (add_call K w e dv v s).2.1, tfd := -1,
                   frozen := (freeze_once w e v.frozen (open_candidate w dv s).2).1 }
          ((add_call K w e dv v s).2.2.emit (Event.close (open_candidate w dv s).1))
      else if (add_call K w e dv v s).1 > 0 then
        Step.next
          { v with tst := (add_call K w e dv v s).2.1, tfd := -1,
                   frozen := (freeze_once w e v.frozen (open_candidate w dv s).2).1,
                   count := v.count + 1 }
          ((add_call K w e dv v s).2.2.emit (Event.close (open_candidate w dv s).1))
      else
        Step.next
          { v with tst := (add_call K w e dv v s).2.1, tfd := -1,
                   frozen := (freeze_once w e v.frozen (open_candidate w dv s).2).1 }
          ((add_call K w e dv v s).2.2.emit (Event.close (open_candidate w dv s).1)) := by
  have hstep : apply_disposition K w e dv v s =
      (if e.subarray.isSome then
        Step.abort v (s.pr_err ("Cannot add disks to a 'member' array, perform this" ++
          " operation on the parent container\n"))
      else
        let r := open_candidate w dv s
        let tfd := r.1
        let s := r.2
        let v := { v with tfd := tfd }
        if tfd < 0 then
          if dv.disposition = 'M' then Step.next v s
          else Step.abort v (s.pr_err ("Cannot open " ++ dv.devname ++ ": " ++
            w.strerror s.errno ++ "\n"))
        else
          let fz := freeze_once w e v.frozen s
          let v := { v with frozen := fz.1 }
          let a := Manage_add K w e.fd tfd dv v.tst e.array e.force e.verbose e.devname
            e.update v.stb.st_rdev e.array_size fz.2
          let s := a.2.2.emit (Event.close tfd)
          let v := { v with tst := a.2.1, tfd := -1 }
          if a.1 < 0 then Step.abort v s
          else if a.1 > 0 then Step.next { v with count := v.count + 1 } s
          else Step.next v s) := by
    unfold apply_disposition
    rw [if_pos hdisp]
    rfl
  rw [hstep, hsub]
  have hno : ¬ (open_candidate w dv s).1 < 0 := by omega
  simp only [Option.isSome_none, Bool.false_eq_true, if_false, hno]
  rfl

/-- The `switch` for disposition 'r' on an array that is not a member array:
the result of `Manage_remove` decides. -/
theorem apply_remove_eq (K : Consts) (w : World) (e : LoopEnv) (dv : mddev_dev) (v : LoopVars)
    (s : State) (hdisp : dv.disposition = 'r') (hsub : e.subarray = none) :
    apply_disposition K w e dv v s =
      if (Manage_remove K w v.tst e.fd dv v.sysfd v.stb.st_rdev e.verbose e.devname s).1 < 0 then
        Step.abort { v with sysfd := -1 }
          (if v.sysfd ≥ 0 then
            (Manage_remove K w v.tst e.fd dv v.sysfd v.stb.st_rdev e.verbose e.devname s).2.emit
              (Event.close v.sysfd)
          else (Manage_remove K w v.tst e.fd dv v.sysfd v.stb.st_rdev e.verbose e.devname s).2)
      else if (Manage_remove K w v.tst e.fd dv v.sysfd v.stb.st_rdev e.verbose e.devname s).1 > 0
      then
        Step.next { v with sysfd := -1, count := v.count + 1 }
          (if v.sysfd ≥ 0 then
            (Manage_remove K w v.tst e.fd dv v.sysfd v.stb.st_rdev e.verbose e.devname s).2.emit
              (Event.close v.sysfd)
          else (Manage_remove K w v.tst e.fd dv v.sysfd v.stb.st_rdev e.verbose e.devname s).2)
      else
        Step.next { v with sysfd := -1 }
          (if v.sysfd ≥ 0 then
            (Manage_remove K w v.tst e.fd dv v.sysfd v.stb.st_rdev e.verbose e.devname s).2.emit
              (Event.close v.sysfd)
          else (Manage_remove K w v.tst e.fd dv v.sysfd v.stb.st_rdev e.verbose e.devname
            s).2) := by
  have h1 : ¬ (dv.disposition = 'a' ∨ dv.disposition = 'A' ∨ dv.disposition = 'M') := by
    rw [hdisp]; decide
  unfold apply_disposition
  rw [if_neg h1, if_pos hdisp]
  simp only [hsub, Option.isSome_none, Bool.false_eq_true, if_false]

/-- The `switch` for disposition 'f': the marking decides. -/
theorem apply_faulty_fail (K : Consts) (w : World) (e : LoopEnv) (dv : mddev_dev)
    (v : LoopVars) (s : State) (hdisp : dv.disposition = 'f')
    (hfail : (mark_faulty w e v s).1 ≠ 0) :
    apply_disposition K w e dv v s =
      Step.abort v
        (if v.sysfd ≥ 0 then
          ((mark_faulty w e v s).2.pr_err ("set device faulty failed for " ++ dv.devname ++
            ":  " ++ w.strerror (mark_faulty w e v s).2.errno ++ "\n")).emit
            (Event.close v.sysfd)
        else
          (mark_faulty w e v s).2.pr_err ("set device faulty failed for " ++ dv.devname ++
            ":  " ++ w.strerror (mark_faulty w e v s).2.errno ++ "\n")) := by
  have h1 : ¬ (dv.disposition = 'a' ∨ dv.disposition = 'A' ∨ dv.disposition = 'M') := by
    rw [hdisp]; decide
  have h2 : ¬ dv.disposition = 'r' := by rw [hdisp]; decide
  have hstep : apply_disposition K w e dv v s =
      (let r := mark_faulty w e v s
       let s := r.2
       if r.1 ≠ 0 then
         let s := s.pr_err ("set device faulty failed for " ++ dv.devname ++ ":  " ++
           w.strerror s.errno ++ "\n")
         let s := if v.sysfd ≥ 0 then s.emit (Event.close v.sysfd) else s
         Step.abort v s
       else
         let s := if v.sysfd ≥ 0 then s.emit (Event.close v.sysfd) else s
         let v := { v with sysfd := -1, count := v.count + 1 }
         let s := if e.verbose ≥ 0 then
             s.pr_err ("set " ++ dv.devname ++ " faulty in " ++ e.devname ++ "\n")
           else s
         Step.next v s) := by
    unfold apply_disposition
    rw [if_neg h1, if_neg h2, if_pos hdisp]
    rfl
  rw [hstep]
  dsimp only
  rw [if_pos hfail]

/-- The function `Manage_remove` returns 1 or -1, never 0. -/
theorem Manage_remove_result (K : Consts) (w : World) (tst : supertype) (fd : Int)
    (dv : mddev_dev) (sysfd : Int) (rdev : Nat) (verbose : Int) (devname : String) (s : State) :
    (Manage_remove K w tst fd dv sysfd rdev verbose devname s).1 = 1 ∨
    (Manage_remove K w tst fd dv sysfd rdev verbose devname s).1 = -1 := by
  unfold Manage_remove
  dsimp only
  split
  · rename_i hp
    repeat' split at hp
    all_goals first
      | (simp at hp; done)
      | (simp only [Sum.inl.injEq] at hp; subst hp; right; rfl)
  · repeat' split
    all_goals first
      | (left; rfl)
      | (right; rfl)

/-- Lines 1048-1114 leave `count`, `frozen` and the metadata handle as they
were. -/
theorem locate_device_keeps (K : Consts) (w : World) (e : LoopEnv) (dv : mddev_dev)
    (v v2 : LoopVars) (s s2 : State)
    (h : locate_device K w e dv v s = Sum.inr (v2, s2)) :
    v2.count = v.count ∧ v2.frozen = v.frozen ∧ v2.tst = v.tst := by
  unfold locate_device at h
  dsimp only at h
  split at h
  · repeat' split at h
    all_goals first
      | (simp at h; done)
      | (simp only [Sum.inr.injEq, Prod.mk.injEq] at h
         obtain ⟨rfl, -⟩ := h
         exact ⟨rfl, rfl, rfl⟩)
  · split at h
    · simp at h
    · rename_i v1 s1 hr
      have hk : v1.count = v.count ∧ v1.frozen = v.frozen ∧ v1.tst = v.tst := by
        repeat' split at hr
        all_goals first
          | (simp at hr; done)
          | (simp only [Sum.inr.injEq, Prod.mk.injEq] at hr
             obtain ⟨rfl, -⟩ := hr
             exact ⟨rfl, rfl, rfl⟩)
      split at h
      · split at h <;> simp at h
      · simp only [Sum.inr.injEq, Prod.mk.injEq] at h
        obtain ⟨rfl, -⟩ := h
        exact hk

/-- C17: when the loop of `Manage_subdevs` has reached a concrete entry `dv`
and found its device (lines 1048-1114), a hard failure of that entry ends the
call.  If `Manage_add` (disposition 'a', 'A' or 'M', candidate opened) or
`Manage_remove` (disposition 'r') returns a negative result, or the marking
faulty (disposition 'f') fails, `Manage_subdevs` returns 1, the list stays as
it is, and after the failed call it issues nothing but the message of the
failed marking, the `close` of the handle in use and, if the array had been
frozen, the write of "idle" to `sync_action`: no kernel or sysfs action for a
later entry.  If `Manage_add` returns 0 the loop goes on to the next entry
with `count` as it was before the round.  `Manage_remove` returns 1 or -1,
never 0. -/
theorem Manage_subdevs_aborts_on_hard_failure (K : Consts) (w : World) (devname : String)
    (fd : Int) (devlist : List mddev_dev) (verbose test : Int) (update : Option String)
    (force : Int) (s : State) (array : mdu_array_info_t) (tst : supertype)
    (subarray : Option String) (before next : List mddev_dev) (dv : mddev_dev)
    (v v2 : LoopVars) (s1 s2 : State)
    (hinfo : w.ioctl_GET_ARRAY_INFO s fd = some array)
    (hst : w.super_by_fd s fd = some (tst, subarray))
    (hreach : Reaches K w (loop_env w devname fd verbose update force array subarray s)
      ([], devlist, loop_vars0 w tst, s) (before, dv :: next, v, s1))
    (hconc : resolve_symbolic K w fd dv s1 = Resolved.concrete)
    (hloc : locate_device K w (loop_env w devname fd verbose update force array subarray s)
      dv v s1 = Sum.inr (v2, s2)) :
    ((dv.disposition = 'a' ∨ dv.disposition = 'A' ∨ dv.disposition = 'M') →
      subarray = none → (open_candidate w dv s2).1 ≥ 0 →
      ((add_call K w (loop_env w devname fd verbose update force array subarray s)
          dv v2 s2).1 < 0 →
        (Manage_subdevs K w devname fd devlist verbose test update force s).rv = 1 ∧
        (Manage_subdevs K w devname fd devlist verbose test update force s).devlist =
          before ++ dv :: next ∧
        (Manage_subdevs K w devname fd devlist verbose test update force s).s.log =
          (add_call K w (loop_env w devname fd verbose update force array subarray s)
            dv v2 s2).2.2.log ++ Event.close (open_candidate w dv s2).1 ::
            idle_tail w s fd
              (freeze_once w (loop_env w devname fd verbose update force array subarray s)
                v2.frozen (open_candidate w dv s2).2).1) ∧
      ((add_call K w (loop_env w devname fd verbose update force array subarray s)
          dv v2 s2).1 = 0 →
        v2.count = v.count ∧
        Reaches K w (loop_env w devname fd verbose update force array subarray s)
          ([], devlist, loop_vars0 w tst, s)
          (before ++ [dv], next,
            LoopVars.mk
              (add_call K w (loop_env w devname fd verbose update force array subarray s)
                dv v2 s2).2.1
              v2.stb (-1) v2.sysfd v2.count
              (freeze_once w (loop_env w devname fd verbose update force array subarray s)
                v2.frozen (open_candidate w dv s2).2).1,
            (add_call K w (loop_env w devname fd verbose update force array subarray s)
              dv v2 s2).2.2.emit (Event.close (open_candidate w dv s2).1)))) ∧
    (dv.disposition = 'r' → subarray = none →
      ((Manage_remove K w v2.tst fd dv v2.sysfd v2.stb.st_rdev verbose devname s2).1 = 1 ∨
        (Manage_remove K w v2.tst fd dv v2.sysfd v2.stb.st_rdev verbose devname s2).1 = -1) ∧
      ((Manage_remove K w v2.tst fd dv v2.sysfd v2.stb.st_rdev verbose devname s2).1 < 0 →
        (Manage_subdevs K w devname fd devlist verbose test update force s).rv = 1 ∧
        (Manage_subdevs K w devname fd devlist verbose test update force s).devlist =
          before ++ dv :: next ∧
        (Manage_subdevs K w devname fd devlist verbose test update force s).s.log =
          (Manage_remove K w v2.tst fd dv v2.sysfd v2.stb.st_rdev verbose devname s2).2.log ++
            ((if v2.sysfd ≥ 0 then [Event.close v2.sysfd] else []) ++
              idle_tail w s fd v2.frozen))) ∧
    (dv.disposition = 'f' →
      (mark_faulty w (loop_env w devname fd verbose update force array subarray s) v2 s2).1
        ≠ 0 →
      (Manage_subdevs K w devname fd devlist verbose test update force s).rv = 1 ∧
      (Manage_subdevs K w devname fd devlist verbose test update force s).devlist =
        before ++ dv :: next ∧
      (Manage_subdevs K w devname fd devlist verbose test update force s).s.log =
        (mark_faulty w (loop_env w devname fd verbose update force array subarray s)
          v2 s2).2.log ++
          Event.pr_err ("set device faulty failed for " ++ dv.devname ++ ":  " ++
            w.strerror (mark_faulty w
              (loop_env w devname fd verbose update force array subarray s) v2 s2).2.errno ++
            "\n") ::
          ((if v2.sysfd ≥ 0 then [Event.close v2.sysfd] else []) ++
            idle_tail w s fd v2.frozen)) := by
  have hcs : concrete_step K w (loop_env w devname fd verbose update force array subarray s)
      dv v s1 =
      apply_disposition K w (loop_env w devname fd verbose update force array subarray s)
        dv v2 s2 := by
    unfold concrete_step
    rw [hloc]
  refine ⟨?_, ?_, ?_⟩
  · intro hd hsub hopen
    have ha := apply_add_eq K w (loop_env w devname fd verbose update force array subarray s)
      dv v2 s2 hd hsub hopen
    constructor
    · intro hneg
      rw [if_pos hneg] at ha
      have h := Manage_subdevs_abort_step K w devname fd devlist verbose test update force s
        array tst subarray before next dv v _ s1 _ hinfo hst hreach hconc (hcs.trans ha)
      refine ⟨h.1, h.2.1, ?_⟩
      rw [h.2.2]
      simp [State.emit]
    · intro hz
      have h1 : ¬ (add_call K w (loop_env w devname fd verbose update force array subarray s)
          dv v2 s2).1 < 0 := by omega
      have h2 : ¬ (add_call K w (loop_env w devname fd verbose update force array subarray s)
          dv v2 s2).1 > 0 := by omega
      rw [if_neg h1, if_neg h2] at ha
      exact ⟨(locate_device_keeps K w _ dv v v2 s1 s2 hloc).1,
        reaches_trans hreach (Reaches.next before next dv v _ s1 _ _ hconc (hcs.trans ha)
          (Reaches.here _))⟩
  · intro hd hsub
    refine ⟨Manage_remove_result K w v2.tst fd dv v2.sysfd v2.stb.st_rdev verbose devname s2, ?_⟩
    intro hneg
    have ha := apply_remove_eq K w (loop_env w devname fd verbose update force array subarray s)
      dv v2 s2 hd hsub
    have hneg2 : (Manage_remove K w v2.tst
        (loop_env w devname fd verbose update force array subarray s).fd dv v2.sysfd
        v2.stb.st_rdev (loop_env w devname fd verbose update force array subarray s).verbose
        (loop_env w devname fd verbose update force array subarray s).devname s2).1 < 0 := hneg
    rw [if_pos hneg2] at ha
    have h := Manage_subdevs_abort_step K w devname fd devlist verbose test update force s
      array tst subarray before next dv v _ s1 _ hinfo hst hreach hconc (hcs.trans ha)
    refine ⟨h.1, h.2.1, ?_⟩
    rw [h.2.2]
    by_cases hs : v2.sysfd ≥ 0
    · simp [hs, State.emit, loop_env]
    · simp [hs, loop_env]
  · intro hd hfail
    have ha := apply_faulty_fail K w
      (loop_env w devname fd verbose update force array subarray s) dv v2 s2 hd hfail
    have h := Manage_subdevs_abort_step K w devname fd devlist verbose test update force s
      array tst subarray before next dv v _ s1 _ hinfo hst hreach hconc (hcs.trans ha)
    refine ⟨h.1, h.2.1, ?_⟩
    rw [h.2.2]
    by_cases hs : v2.sysfd ≥ 0
    · simp [hs, State.emit, State.pr_err]
    · simp [hs, State.emit, State.pr_err]

/-- C17, an instance: `/dev/sdc` to add, then `/dev/sdb` to remove.  The size
of `/dev/sdc` cannot be read and `Manage_add` returns -1: the call returns 1
and, after closing `/dev/sdc`, only unfreezes the array; nothing is issued
for `/dev/sdb`. -/
theorem Manage_subdevs_aborts_on_hard_failure_witness :
    (Manage_subdevs linux world_add_fail "/dev/md0" 3 [dv_sdc, dv_sdb_r] 0 0 none 0 s0).rv = 1 ∧
    (Manage_subdevs linux world_add_fail "/dev/md0" 3 [dv_sdc, dv_sdb_r] 0 0 none 0 s0).s.log =
      [Event.dev_open "/dev/sdc" OFlags.O_RDONLY, Event.close 6,
        Event.dev_open "/dev/sdc" OFlags.O_RDONLY_EXCL, Event.close 6,
        Event.dev_open "/dev/sdc" OFlags.O_RDONLY, Event.sysfs_freeze_array "md0",
        Event.close 6, Event.sysfs_set_str "md0" none "sync_action" "idle"] := by
  have hloc : locate_device linux world_add_fail
      (loop_env world_add_fail "/dev/md0" 3 0 none 0 array4 none s0) dv_sdc
      (loop_vars0 world_add_fail tst_native) s0 =
      Sum.inr (LoopVars.mk tst_native (stat_t.mk 24576 2064) (-1) (-1) 0 0,
        State.mk [Event.dev_open "/dev/sdc" OFlags.O_RDONLY, Event.close 6] 0) := by
    decide
  have h := ((Manage_subdevs_aborts_on_hard_failure linux world_add_fail "/dev/md0" 3
    [dv_sdc, dv_sdb_r] 0 0 none 0 s0 array4 tst_native none [] [dv_sdb_r] dv_sdc _ _ s0 _
    rfl rfl (Reaches.here _) (by decide) hloc).1 (Or.inl rfl) rfl (by decide)).1 (by decide)
  refine ⟨h.1, ?_⟩
  rw [h.2.2]
  decide

/-- C17, a second instance: the same list with `/dev/sdc` as an entry that
"missing" expanded to ('M').  `Manage_add` returns 0, the loop goes on to
`/dev/sdb` and `count` stays 0. -/
theorem Manage_subdevs_skips_soft_failure :
    Reaches linux world_add_fail (loop_env world_add_fail "/dev/md0" 3 0 none 0 array4 none s0)
      ([], [dv_sdc_M, dv_sdb_r], loop_vars0 world_add_fail tst_native, s0)
      ([dv_sdc_M], [dv_sdb_r],
        LoopVars.mk tst_native (stat_t.mk 24576 2064) (-1) (-1) 0 1,
        State.mk [Event.dev_open "/dev/sdc" OFlags.O_RDONLY, Event.close 6,
          Event.dev_open "/dev/sdc" OFlags.O_RDONLY_EXCL, Event.close 6,
          Event.dev_open "/dev/sdc" OFlags.O_RDONLY, Event.sysfs_freeze_array "md0",
          Event.close 6] 0) := by
  have hconc : resolve_symbolic linux world_add_fail 3 dv_sdc_M s0 = Resolved.concrete := by
    decide
  have hstep : concrete_step linux world_add_fail
      (loop_env world_add_fail "/dev/md0" 3 0 none 0 array4 none s0) dv_sdc_M
      (loop_vars0 world_add_fail tst_native) s0 =
      Step.next (LoopVars.mk tst_native (stat_t.mk 24576 2064) (-1) (-1) 0 1)
        (State.mk [Event.dev_open "/dev/sdc" OFlags.O_RDONLY, Event.close 6,
          Event.dev_open "/dev/sdc" OFlags.O_RDONLY_EXCL, Event.close 6,
          Event.dev_open "/dev/sdc" OFlags.O_RDONLY, Event.sysfs_freeze_array "md0",
          Event.close 6] 0) := by
    decide
  exact Reaches.next [] [dv_sdb_r] dv_sdc_M _ _ s0 _ _ hconc hstep (Reaches.here _)

/-! ## C18: the tables `used` and `avail` of `Manage_add` -/

/-- C18 does not hold of the code.  The guard of lines 755-758 keeps every
index written into `used` within `0 <= index <= raid_disks`, so the index
`raid_disks` itself, one past the end of the table, is let through; line 685
writes `avail[disc.raid_disk]` with no guard.  On a two-disk array whose
slot 0 reports a device in sync at raid position 2, the re-add to an array
without metadata (disposition 'A') executes `used[2] = 1` and the degraded
check of a plain add (`active_disks` 1) executes `avail[2] = 1`, each on a
table of 2 bytes. -/
theorem Manage_add_table_index_past_end :
    (∀ (w : World) (s : State) (fd raid_disks : Int) (fuel : Nat) (j : Int),
      ∀ i ∈ used_scan w s fd raid_disks fuel j, 0 ≤ i ∧ i ≤ raid_disks) ∧
    array_nometa.raid_disks = 2 ∧
    used_scan world_edge (s0.emit (Event.remove_partitions 4)) 3 array_nometa.raid_disks
      tst_native.max_devs.toNat 0 = [2] ∧
    (Manage_add linux world_edge 3 4 dv_sdc_A tst_native array_nometa 0 0 "/dev/md0" none 2080
      2000 s0).2.2.log =
      [Event.remove_partitions 4, Event.free_super StRole.tst,
        Event.ioctl_ADD_NEW_DISK 3
          { number := 2, major := 8, minor := 32, raid_disk := 0, state := 4 },
        Event.pr_err "added /dev/sdc\n"] ∧
    (avail_scan linux world_edge s0 3 1 linux.MAX_DISKS 0 0 (uninit_disc world_edge)).1 = [2] := by
  refine ⟨?_, by decide, by decide, by decide, by decide⟩
  intro w s fd raid_disks fuel
  induction fuel with
  | zero => intro j i hi; simp [used_scan] at hi
  | succ n ih =>
    intro j i hi
    unfold used_scan at hi
    split at hi
    · exact ih _ i hi
    · split at hi
      · exact ih _ i hi
      · split at hi
        · exact ih _ i hi
        · split at hi
          · exact ih _ i hi
          · split at hi
            · exact ih _ i hi
            · rename_i h1 h2
              rcases List.mem_cons.mp hi with h | h
              · rw [h]; omega
              · exact ih _ i h

end Manage
